import Mathlib

/-! Booking and payment bookkeeping of the travel-agency backend.

A shallow embedding of the controllers in
`backend/src/controllers/booking.controller.js` and
`backend/src/controllers/payment.controller.js`, of `updateBookingStatus` in
`backend/src/controllers/admin.controller.js`, of `refresh` in
`backend/src/controllers/auth.controller.js` with the token helpers of
`backend/src/utils/auth.js`, and of `backend/src/middlewares/errorHandler.js`;
of the helpers `getPagination`, `formatPaginatedResponse` and `slugify` of
`backend/src/utils/helpers.js`, of the departure filter of `getTrips` in
`backend/src/controllers/trip.controller.js`, and of `createBookingSchema` in
`backend/src/middlewares/validation.js` together with `handleSubmit` of
`frontend/src/pages/Booking.jsx`.

Modelling conventions.

* The relational store is a record of tables, each table a list of rows.
  `findUnique` is a lookup by primary key, `update` rewrites the row with the
  given key and fails with the storage error `P2025` when there is none.
* Primary keys (`uuid()` defaults) are natural numbers handed out by a
  counter kept in the store, so that a created row gets a key never used before.
* Enumerations (`status`, `role`, `method`) are the strings of the source.
* Seat counts are integers. In the store of the booking handlers monetary amounts
  are integers and the arithmetic is exact, which is the arithmetic of the source
  as long as the amounts are whole numbers below `2 ^ 53` (`doubles_exact_on_integers`).
  The source computes with doubles; the section on double arithmetic models them
  (`JsDouble`), and the namespace `Doubles` holds the payment handlers and the
  total of a booking with that arithmetic, for amounts with a fractional part.
* A handler returns its outcome together with the store it leaves behind, so
  that writes done before a failure stay visible; `transaction` discards them.
* Time is a natural number of milliseconds passed to the handler; a signed token
  is the record of its signing key and claims, and `jwt.verify` checks the key
  and the expiry. The digest used for stored token hashes is a parameter.
* Query parameters are given parsed (integers, prices, dates), absent ones as
  `none`. A booking code is a string of characters; for `slugify` a string is the
  list of its UTF-16 code units and the case mapping of the runtime is a
  parameter. A request body has typed keys, each of which may be absent.
-/

namespace Tms

/-! ## Errors -/

/-- An error object as seen by the error middleware: its message, the
`statusCode` carried by an `AppError`, and the `code` carried by a storage error. -/
structure JsError where
  message : String
  statusCode : Option Nat
  code : Option String
  deriving DecidableEq, Repr

/-- The class `AppError` of `middlewares/errorHandler.js`: `new AppError(message, statusCode)`. -/
def AppError (message : String) (statusCode : Nat) : JsError :=
  { message := message, statusCode := some statusCode, code := none }

/-- The error the storage client raises when `update` finds no row with the given key. -/
def recordNotFound : JsError :=
  { message := "Record to update not found.", statusCode := none, code := some "P2025" }

/-- The `TypeError` raised when a field of `payment.booking` is read and the relation is `null`. -/
def nullBooking : JsError :=
  { message := "Cannot read properties of null", statusCode := none, code := none }

deriving instance DecidableEq for Except

/-! ## Rows -/

/-- One row of the addon catalog of a trip. -/
structure TripAddon where
  id : Nat
  tripId : Nat
  price : Int
  deriving DecidableEq, Repr

/-- One scheduled departure of a trip. -/
structure TripDeparture where
  id : Nat
  tripId : Nat
  capacity : Int
  seatsReserved : Int
  basePrice : Int
  childPrice : Option Int
  currency : String
  status : String
  deriving DecidableEq, Repr

/-- One booking row. -/
structure Booking where
  id : Nat
  bookingCode : String
  customerId : Nat
  departureId : Nat
  status : String
  totalAmount : Int
  paidAmount : Int
  currency : String
  notes : Option String
  createdById : Nat
  cancellationReason : Option String
  deriving DecidableEq, Repr

/-- One passenger row, owned by the booking `bookingId`. -/
structure Passenger where
  bookingId : Nat
  fullName : String
  gender : String
  dateOfBirth : Option String
  passportNo : Option String
  nationality : Option String
  isChild : Bool
  deriving DecidableEq, Repr

/-- One addon snapshot row, owned by the booking `bookingId`. -/
structure BookingAddon where
  bookingId : Nat
  addonId : Nat
  quantity : Int
  price : Int
  deriving DecidableEq, Repr

/-- One payment row. -/
structure Payment where
  id : Nat
  bookingId : Nat
  method : String
  amount : Int
  reference : Option String
  status : String
  paidAt : Option Nat
  deriving DecidableEq, Repr

/-- The store: the tables the booking and payment controllers touch, and the
counter from which fresh primary keys are taken. -/
structure Db where
  departures : List TripDeparture
  addons : List TripAddon
  bookings : List Booking
  passengers : List Passenger
  bookingAddons : List BookingAddon
  payments : List Payment
  nextId : Nat
  deriving DecidableEq, Repr

/-! ## Request bodies -/

/-- One element of `req.body.passengers` after validation. -/
structure PassengerInput where
  fullName : String
  gender : String
  dateOfBirth : Option String
  passportNo : Option String
  nationality : Option String
  isChild : Bool
  deriving DecidableEq, Repr

/-- One element of `req.body.addons` after validation. -/
structure AddonInput where
  addonId : Nat
  quantity : Int
  deriving DecidableEq, Repr

/-- One element of the local array `addonPrices` of `createBooking`. -/
structure AddonPrice where
  addonId : Nat
  quantity : Int
  price : Int
  deriving DecidableEq, Repr

/-! ## Storage primitives -/

/-- The call `tx.tripDeparture.findUnique({ where: { id } })`. -/
def findDeparture (db : Db) (id : Nat) : Option TripDeparture :=
  db.departures.find? (fun d => d.id = id)

/-- The call `prisma.booking.findUnique({ where: { id } })`. -/
def findBooking (db : Db) (id : Nat) : Option Booking :=
  db.bookings.find? (fun b => b.id = id)

/-- The call `prisma.payment.findUnique({ where: { id } })`. -/
def findPayment (db : Db) (id : Nat) : Option Payment :=
  db.payments.find? (fun p => p.id = id)

/-- The relation `departure.trip.addons`: the catalog of the departure's trip. -/
def tripAddons (db : Db) (tripId : Nat) : List TripAddon :=
  db.addons.filter (fun a => a.tripId = tripId)

/-- The relation `booking.passengers`. -/
def bookingPassengers (db : Db) (bookingId : Nat) : List Passenger :=
  db.passengers.filter (fun p => p.bookingId = bookingId)

/-- The call `tripDeparture.update({ where: { id }, data })`, the data given as a row transformer. -/
def updateDeparture (db : Db) (id : Nat) (f : TripDeparture → TripDeparture) :
    Except JsError Unit × Db :=
  match findDeparture db id with
  | none => (.error recordNotFound, db)
  | some _ =>
    (.ok (), { db with departures := db.departures.map (fun d => if d.id = id then f d else d) })

/-- The call `booking.update({ where: { id }, data })`, the data given as a row transformer. -/
def updateBooking (db : Db) (id : Nat) (f : Booking → Booking) : Except JsError Unit × Db :=
  match findBooking db id with
  | none => (.error recordNotFound, db)
  | some _ =>
    (.ok (), { db with bookings := db.bookings.map (fun b => if b.id = id then f b else b) })

/-- The call `payment.update({ where: { id }, data })`, the data given as a row transformer. -/
def updatePayment (db : Db) (id : Nat) (f : Payment → Payment) : Except JsError Unit × Db :=
  match findPayment db id with
  | none => (.error recordNotFound, db)
  | some _ =>
    (.ok (), { db with payments := db.payments.map (fun p => if p.id = id then f p else p) })

/-- A nullable column written by an `update` call: a value that is `undefined` in
`data` (absent from the request body) leaves the stored column as it is. -/
def writeOptional {α : Type} (value stored : Option α) : Option α :=
  match value with
  | some v => some v
  | none => stored

/-- The call `prisma.$transaction(body)`: the writes of a body that throws are rolled back. -/
def transaction {α : Type} (body : Db → Except JsError α × Db) (db : Db) :
    Except JsError α × Db :=
  match body db with
  | (.error e, _) => (.error e, db)
  | (.ok a, db') => (.ok a, db')

/-! ## `createBooking`

Prices and totals are integers in this section and their sums are exact; the total
with the double arithmetic of the source is `Doubles.totalAmount`. -/

/-- The price of one passenger: the body of the `passengers.forEach` callback of
`createBooking`. `childPrice` is a nullable decimal column, so the test
`passenger.isChild && departure.childPrice` asks whether the column is set. -/
def passengerPrice (departure : TripDeparture) (passenger : PassengerInput) : Int :=
  match passenger.isChild, departure.childPrice with
  | true, some childPrice => childPrice
  | _, _ => departure.basePrice

/-- The loop `passengers.forEach(...)` of `createBooking`, started from the running total. -/
def addPassengerCosts (departure : TripDeparture) (passengers : List PassengerInput)
    (totalAmount : Int) : Int :=
  passengers.foldl (fun total passenger => total + passengerPrice departure passenger) totalAmount

/-- The loop `for (const addon of addons)` of `createBooking`, started from the
running total and the rows collected so far. An absent `addons` field is the
empty list: both skip the loop. -/
def addAddonCosts (catalog : List TripAddon) :
    List AddonInput → Int → List AddonPrice → Except JsError (Int × List AddonPrice)
  | [], totalAmount, addonPrices => .ok (totalAmount, addonPrices)
  | addon :: rest, totalAmount, addonPrices =>
    match catalog.find? (fun a => a.id = addon.addonId) with
    | none => .error (AppError ("Addon " ++ toString addon.addonId ++ " not found") 404)
    | some addonDetails =>
      addAddonCosts catalog rest (totalAmount + addonDetails.price * addon.quantity)
        (addonPrices ++ [{ addonId := addon.addonId, quantity := addon.quantity,
                           price := addonDetails.price }])

/-- The value `addonDetails.price` read by `createBooking` for a requested addon:
the price of the catalog row found for its id (0 when no row is found, in which
case `createBooking` has thrown before reading it). -/
def catalogPrice (catalog : List TripAddon) (addonId : Nat) : Int :=
  match catalog.find? (fun a => a.id = addonId) with
  | some addonDetails => addonDetails.price
  | none => 0

/-- The nested write `passengers: { create: passengers.map(...) }`. -/
def passengerRows (bookingId : Nat) (passengers : List PassengerInput) : List Passenger :=
  passengers.map (fun p =>
    { bookingId := bookingId, fullName := p.fullName, gender := p.gender,
      dateOfBirth := p.dateOfBirth, passportNo := p.passportNo,
      nationality := p.nationality, isChild := p.isChild })

/-- The nested write `addons: { create: addonPrices }`. -/
def bookingAddonRows (bookingId : Nat) (addonPrices : List AddonPrice) : List BookingAddon :=
  addonPrices.map (fun a =>
    { bookingId := bookingId, addonId := a.addonId, quantity := a.quantity, price := a.price })

/-- Modelled from the spec: the default of the column `paidAmount` of a booking.
The storage schema (`prisma/schema.prisma`) is not among the sources; a booking
is created with `paidAmount = 0`. -/
def defaultPaidAmount : Int := 0

/-- The call `tx.booking.create(...)` of `createBooking`: one booking row under a
fresh key, with its passenger rows and addon snapshot rows. The columns
`paidAmount` and `cancellationReason` are not written and take their defaults.
The insert is taken to be accepted by the store: a generated booking code equal
to a stored one is not modelled. -/
def createBookingRow (db : Db) (bookingCode : String) (userId departureId : Nat)
    (totalAmount : Int) (currency : String) (notes : Option String)
    (passengers : List PassengerInput) (addonPrices : List AddonPrice) : Booking × Db :=
  let booking : Booking :=
    { id := db.nextId, bookingCode := bookingCode, customerId := userId,
      departureId := departureId, status := "PENDING", totalAmount := totalAmount,
      paidAmount := defaultPaidAmount, currency := currency, notes := notes,
      createdById := userId,
      cancellationReason := none }
  (booking,
   { db with
     bookings := db.bookings ++ [booking]
     passengers := db.passengers ++ passengerRows db.nextId passengers
     bookingAddons := db.bookingAddons ++ bookingAddonRows db.nextId addonPrices
     nextId := db.nextId + 1 })

/-- The callback passed to `prisma.$transaction` by `createBooking`.
`bookingCode` is the value returned by `generateBookingCode()`. -/
def createBookingTx (userId departureId : Nat) (passengers : List PassengerInput)
    (addons : List AddonInput) (notes : Option String) (bookingCode : String) (tx : Db) :
    Except JsError Booking × Db :=
  match findDeparture tx departureId with
  | none => (.error (AppError "Departure not found" 404), tx)
  | some departure =>
    if departure.status ≠ "AVAILABLE" then
      (.error (AppError "This departure is not available for booking" 400), tx)
    else
      let availableSeats := departure.capacity - departure.seatsReserved
      if availableSeats < (passengers.length : Int) then
        (.error (AppError ("Only " ++ toString availableSeats ++ " seats available") 400), tx)
      else
        match addAddonCosts (tripAddons tx departure.tripId) addons
            (addPassengerCosts departure passengers 0) [] with
        | .error e => (.error e, tx)
        | .ok (totalAmount, addonPrices) =>
          let (booking, tx1) := createBookingRow tx bookingCode userId departureId totalAmount
            departure.currency notes passengers addonPrices
          match updateDeparture tx1 departureId
              (fun d => { d with seatsReserved := d.seatsReserved + (passengers.length : Int) }) with
          | (.error e, tx2) => (.error e, tx2)
          | (.ok _, tx2) =>
            let newReserved := departure.seatsReserved + (passengers.length : Int)
            if newReserved ≥ departure.capacity then
              match updateDeparture tx2 departureId (fun d => { d with status := "FULL" }) with
              | (.error e, tx3) => (.error e, tx3)
              | (.ok _, tx3) => (.ok booking, tx3)
            else
              (.ok booking, tx2)

/-- The handler `createBooking` (`POST /api/bookings`). -/
def createBooking (db : Db) (userId departureId : Nat) (passengers : List PassengerInput)
    (addons : List AddonInput) (notes : Option String) (bookingCode : String) :
    Except JsError Booking × Db :=
  transaction (createBookingTx userId departureId passengers addons notes bookingCode) db

/-! ## `cancelBooking` -/

/-- The callback passed to `prisma.$transaction` by `cancelBooking`. -/
def cancelBookingTx (booking : Booking) (passengerCount : Nat) (reason : Option String)
    (tx : Db) : Except JsError Unit × Db :=
  match updateBooking tx booking.id
      (fun b => { b with status := "CANCELLED"
                         cancellationReason := writeOptional reason b.cancellationReason }) with
  | (.error e, tx1) => (.error e, tx1)
  | (.ok _, tx1) =>
    updateDeparture tx1 booking.departureId
      (fun d => { d with seatsReserved := d.seatsReserved - (passengerCount : Int)
                         status := "AVAILABLE" })

/-- The handler `cancelBooking` (`POST /api/bookings/:id/cancel`). -/
def cancelBooking (db : Db) (id : Nat) (reason : Option String) (userId : Nat)
    (userRole : String) : Except JsError Unit × Db :=
  match findBooking db id with
  | none => (.error (AppError "Booking not found" 404), db)
  | some booking =>
    if booking.customerId ≠ userId ∧ ¬ ["ADMIN", "SUPER_ADMIN", "AGENT"].contains userRole then
      (.error (AppError "Access denied" 403), db)
    else if booking.status = "CANCELLED" then
      (.error (AppError "Booking already cancelled" 400), db)
    else if booking.status = "COMPLETED" then
      (.error (AppError "Cannot cancel completed booking" 400), db)
    else
      transaction (cancelBookingTx booking (bookingPassengers db id).length reason) db

/-! ## `createPayment` and `confirmPayment`

Amounts are integers in this section and the arithmetic is exact; the same handlers
with the double arithmetic of the source are `Doubles.createPayment` and
`Doubles.confirmPayment`. -/

/-- The call `prisma.payment.create(...)` of `createPayment`: one payment row under a fresh key. -/
def createPaymentRow (db : Db) (bookingId : Nat) (method : String) (amount : Int)
    (reference : Option String) (now : Nat) : Payment × Db :=
  let payment : Payment :=
    { id := db.nextId, bookingId := bookingId, method := method, amount := amount,
      reference := reference,
      status := if method = "CASH" then "PAID" else "INITIATED",
      paidAt := if method = "CASH" then some now else none }
  (payment, { db with payments := db.payments ++ [payment], nextId := db.nextId + 1 })

/-- The handler `createPayment` (`POST /api/payments`). `now` is the value of `new Date()`. -/
def createPayment (db : Db) (userId : Nat) (userRole : String) (bookingId : Nat)
    (method : String) (amount : Int) (reference : Option String) (now : Nat) :
    Except JsError Payment × Db :=
  match findBooking db bookingId with
  | none => (.error (AppError "Booking not found" 404), db)
  | some booking =>
    let isStaff := ["ADMIN", "SUPER_ADMIN", "AGENT", "FINANCE"].contains userRole
    if booking.customerId ≠ userId ∧ ¬ isStaff then
      (.error (AppError "Access denied" 403), db)
    else
      let remainingAmount := booking.totalAmount - booking.paidAmount
      if amount > remainingAmount then
        (.error (AppError ("Payment amount exceeds remaining balance of "
          ++ toString remainingAmount) 400), db)
      else
        let (payment, db1) := createPaymentRow db bookingId method amount reference now
        if payment.status = "PAID" then
          let newPaidAmount := booking.paidAmount + amount
          let isFullyPaid := newPaidAmount ≥ booking.totalAmount
          match updateBooking db1 bookingId
              (fun b => { b with paidAmount := newPaidAmount
                                 status := if isFullyPaid ∧ booking.status = "PENDING"
                                           then "CONFIRMED" else b.status }) with
          | (.error e, db2) => (.error e, db2)
          | (.ok _, db2) => (.ok payment, db2)
        else
          (.ok payment, db1)

/-- The callback passed to `prisma.$transaction` by `confirmPayment`; `booking`
is the row read together with the payment before the transaction. -/
def confirmPaymentTx (payment : Payment) (booking : Booking) (now : Nat) (tx : Db) :
    Except JsError Unit × Db :=
  match updatePayment tx payment.id (fun p => { p with status := "PAID", paidAt := some now }) with
  | (.error e, tx1) => (.error e, tx1)
  | (.ok _, tx1) =>
    let newPaidAmount := booking.paidAmount + payment.amount
    let isFullyPaid := newPaidAmount ≥ booking.totalAmount
    updateBooking tx1 payment.bookingId
      (fun b => { b with paidAmount := newPaidAmount
                         status := if isFullyPaid ∧ booking.status = "PENDING"
                                   then "CONFIRMED" else b.status })

/-- The handler `confirmPayment` (`PUT /api/payments/:id/confirm`); it returns the
payment row re-read after the transaction. -/
def confirmPayment (db : Db) (id : Nat) (now : Nat) : Except JsError (Option Payment) × Db :=
  match findPayment db id with
  | none => (.error (AppError "Payment not found" 404), db)
  | some payment =>
    if payment.status = "PAID" then
      (.error (AppError "Payment already confirmed" 400), db)
    else
      match findBooking db payment.bookingId with
      | none => (.error nullBooking, db)
      | some booking =>
        match transaction (confirmPaymentTx payment booking now) db with
        | (.error e, db1) => (.error e, db1)
        | (.ok _, db1) => (.ok (findPayment db1 id), db1)

/-! ## Seat accounting and sequences of operations -/

/-- The seats held on a departure: the passenger rows of its bookings whose
status is not CANCELLED. -/
def seatsHeld (db : Db) (departureId : Nat) : Nat :=
  ((db.bookings.filter (fun b => b.departureId = departureId ∧ b.status ≠ "CANCELLED")).map
    (fun b => (bookingPassengers db b.id).length)).sum

/-- Every departure has `0 ≤ seatsReserved ≤ capacity`. -/
def SeatsBounded (db : Db) : Prop :=
  ∀ d ∈ db.departures, 0 ≤ d.seatsReserved ∧ d.seatsReserved ≤ d.capacity

instance (db : Db) : Decidable (SeatsBounded db) :=
  inferInstanceAs (Decidable (∀ d ∈ db.departures, 0 ≤ d.seatsReserved ∧ d.seatsReserved ≤ d.capacity))

/-- Every departure's `seatsReserved` accounts exactly for its non-cancelled bookings. -/
def SeatsAccounted (db : Db) : Prop :=
  ∀ d ∈ db.departures, d.seatsReserved = (seatsHeld db d.id : Int)

instance (db : Db) : Decidable (SeatsAccounted db) :=
  inferInstanceAs (Decidable (∀ d ∈ db.departures, d.seatsReserved = (seatsHeld db d.id : Int)))

/-- What the relational store guarantees by itself: departure, booking and
payment keys are unique, booking and payment keys were handed out by the key
counter, and every passenger row refers to a stored booking (foreign key). -/
structure StorageIntegrity (db : Db) : Prop where
  departureKeys : (db.departures.map (fun d => d.id)).Nodup
  bookingKeys : (db.bookings.map (fun b => b.id)).Nodup
  paymentKeys : (db.payments.map (fun p => p.id)).Nodup
  keysIssued : ∀ b ∈ db.bookings, b.id < db.nextId
  paymentKeysIssued : ∀ p ∈ db.payments, p.id < db.nextId
  passengerOwner : ∀ p ∈ db.passengers, ∃ b ∈ db.bookings, b.id = p.bookingId

/-- One request to the booking endpoints. -/
inductive BookingOp where
  | create (userId departureId : Nat) (passengers : List PassengerInput)
      (addons : List AddonInput) (notes : Option String) (bookingCode : String)
  | cancel (id : Nat) (reason : Option String) (userId : Nat) (userRole : String)
  deriving Repr

/-- The store left behind by one request, whether it succeeds or fails. -/
def BookingOp.run (db : Db) : BookingOp → Db
  | .create userId departureId passengers addons notes bookingCode =>
    (createBooking db userId departureId passengers addons notes bookingCode).2
  | .cancel id reason userId userRole => (cancelBooking db id reason userId userRole).2

/-- The store left behind by a sequence of requests executed one after the other. -/
def runOps (db : Db) (ops : List BookingOp) : Db :=
  ops.foldl BookingOp.run db

/-! ## Sample data -/

/-- A departure with two seats, none of them reserved. -/
def sampleDeparture : TripDeparture :=
  { id := 1, tripId := 7, capacity := 2, seatsReserved := 0, basePrice := 1200,
    childPrice := some 840, currency := "USD", status := "AVAILABLE" }

/-- A store with one departure, one catalog addon and no booking. -/
def sampleDb : Db :=
  { departures := [sampleDeparture], addons := [{ id := 5, tripId := 7, price := 50 }],
    bookings := [], passengers := [], bookingAddons := [], payments := [], nextId := 100 }

/-- An adult passenger. -/
def adult : PassengerInput :=
  { fullName := "A", gender := "MALE", dateOfBirth := none, passportNo := none,
    nationality := none, isChild := false }

/-- A passenger flagged as a child. -/
def child : PassengerInput :=
  { fullName := "C", gender := "FEMALE", dateOfBirth := none, passportNo := none,
    nationality := none, isChild := true }

/-- Two bookings (the second one refused, the departure being full), a cancellation,
a repeated cancellation and a third booking. -/
def sampleOps : List BookingOp :=
  [ .create 9 1 [adult, child] [{ addonId := 5, quantity := 2 }] none "BKA",
    .create 9 1 [adult] [] none "BKB",
    .cancel 100 (some "changed plans") 9 "CUSTOMER",
    .cancel 100 none 9 "CUSTOMER",
    .create 8 1 [adult] [] none "BKC" ]

/-- A departure whose two seats are both reserved and whose status is FULL. -/
def fullDeparture : TripDeparture :=
  { id := 1, tripId := 7, capacity := 2, seatsReserved := 2, basePrice := 1200,
    childPrice := none, currency := "USD", status := "FULL" }

/-- A store whose only departure is full. -/
def fullDb : Db :=
  { departures := [fullDeparture],
    addons := [], bookings := [], passengers := [], bookingAddons := [], payments := [],
    nextId := 0 }

/-- A confirmed, fully paid booking of the sample departure. -/
def confirmedBooking : Booking :=
  { id := 100, bookingCode := "BKA", customerId := 9, departureId := 1, status := "CONFIRMED",
    totalAmount := 2500, paidAmount := 2500, currency := "USD", notes := none, createdById := 9,
    cancellationReason := none }

/-- The sample departure with both seats reserved. -/
def bookedDeparture : TripDeparture :=
  { sampleDeparture with seatsReserved := 2, status := "FULL" }

/-- A store with one confirmed booking of two passengers. -/
def confirmedDb : Db :=
  { sampleDb with
    departures := [bookedDeparture]
    bookings := [confirmedBooking]
    passengers := passengerRows 100 [adult, adult]
    bookingAddons := [{ bookingId := 100, addonId := 5, quantity := 2, price := 50 }]
    nextId := 101 }

/-- The same booking before any payment. -/
def pendingBooking : Booking :=
  { confirmedBooking with status := "PENDING", paidAmount := 0 }

/-- A store with one pending, unpaid booking of two passengers. -/
def pendingDb : Db :=
  { confirmedDb with bookings := [pendingBooking] }

/-- The row created for two adults and two units of the sample addon. -/
def quotedBooking : Booking :=
  { id := 100, bookingCode := "BKA", customerId := 9, departureId := 1, status := "PENDING",
    totalAmount := 2500, paidAmount := 0, currency := "USD", notes := none, createdById := 9,
    cancellationReason := none }

/-- The row created for a card payment of 1000 on the pending booking. -/
def initiatedPayment : Payment :=
  { id := 101, bookingId := 100, method := "CARD", amount := 1000, reference := none,
    status := "INITIATED", paidAt := none }

/-! ## `updateBookingStatus` -/

/-- The two writes `updateBookingStatus` passes as an array to `prisma.$transaction`
when it cancels a booking that is not cancelled yet, executed in order. -/
def updateBookingStatusTx (booking : Booking) (passengerCount : Nat) (status : String)
    (cancellationReason : Option String) (tx : Db) : Except JsError Unit × Db :=
  match updateBooking tx booking.id
      (fun b => { b with status := status
                         cancellationReason :=
                           writeOptional cancellationReason b.cancellationReason }) with
  | (.error e, tx1) => (.error e, tx1)
  | (.ok _, tx1) =>
    updateDeparture tx1 booking.departureId
      (fun d => { d with seatsReserved := d.seatsReserved - (passengerCount : Int) })

/-- The handler `updateBookingStatus` (`PUT /api/admin/bookings/:id/status`); it
returns the booking row re-read after the writes. -/
def updateBookingStatus (db : Db) (id : Nat) (status : String)
    (cancellationReason : Option String) : Except JsError (Option Booking) × Db :=
  match findBooking db id with
  | none => (.error (AppError "Booking not found" 404), db)
  | some booking =>
    if status = "CANCELLED" ∧ booking.status ≠ "CANCELLED" then
      match transaction (updateBookingStatusTx booking (bookingPassengers db id).length status
          cancellationReason) db with
      | (.error e, db1) => (.error e, db1)
      | (.ok _, db1) => (.ok (findBooking db1 id), db1)
    else
      match updateBooking db id
          (fun b => { b with status := status
                             cancellationReason :=
                               writeOptional cancellationReason b.cancellationReason }) with
      | (.error e, db1) => (.error e, db1)
      | (.ok _, db1) => (.ok (findBooking db1 id), db1)

/-! ## Refresh tokens -/

/-- A signed token: the key it was signed with and its claims. `iat` and `exp`
are in seconds, as `jsonwebtoken` writes them. -/
structure Jwt where
  secret : String
  userId : Nat
  role : Option String
  iat : Nat
  exp : Nat
  deriving DecidableEq, Repr

/-- The configuration read by `utils/auth.js` (lifetimes in seconds) and the
digest `sha256` used by `hashToken`, taken as a parameter. -/
structure AuthEnv where
  jwtAccessSecret : String
  jwtRefreshSecret : String
  accessTokenExpires : Nat
  refreshTokenExpires : Nat
  hashToken : Jwt → String

/-- One user row, as far as `refresh` reads it. -/
structure User where
  id : Nat
  role : String
  deriving DecidableEq, Repr

/-- One refresh-token row; times are in milliseconds. -/
structure RefreshToken where
  id : Nat
  userId : Nat
  tokenHash : String
  expiresAt : Nat
  revokedAt : Option Nat
  deriving DecidableEq, Repr

/-- The tables the auth controller touches, and the counter for fresh keys. -/
structure AuthDb where
  users : List User
  refreshTokens : List RefreshToken
  nextId : Nat
  deriving DecidableEq, Repr

/-- The body `data` of a successful `refresh` response. -/
structure TokenPair where
  accessToken : Jwt
  refreshToken : Jwt
  deriving DecidableEq, Repr

/-- A plain `new Error(message)`: it carries no `statusCode` and no `code`. -/
def plainError (message : String) : JsError :=
  { message := message, statusCode := none, code := none }

/-- The `TypeError` raised when a field of `storedToken.user` is read and the relation is `null`. -/
def nullUser : JsError :=
  { message := "Cannot read properties of null", statusCode := none, code := none }

/-- The error the storage client raises when `create` meets a unique constraint. -/
def uniqueConstraintFailed : JsError :=
  { message := "Unique constraint failed", statusCode := none, code := some "P2002" }

/-- The call `jwt.sign(payload, secret, { expiresIn })` at time `now` (milliseconds). -/
def jwtSign (userId : Nat) (role : Option String) (secret : String) (expiresIn now : Nat) : Jwt :=
  { secret := secret, userId := userId, role := role, iat := now / 1000,
    exp := now / 1000 + expiresIn }

/-- The call `jwt.verify(token, secret)` at time `now`: the signature must be made
with `secret` and the token must not have reached `exp`. -/
def jwtVerify (token : Jwt) (secret : String) (now : Nat) : Bool :=
  token.secret = secret ∧ now / 1000 < token.exp

/-- The function `generateAccessToken` of `utils/auth.js`. -/
def generateAccessToken (env : AuthEnv) (userId : Nat) (role : String) (now : Nat) : Jwt :=
  jwtSign userId (some role) env.jwtAccessSecret env.accessTokenExpires now

/-- The function `generateRefreshToken` of `utils/auth.js`. -/
def generateRefreshToken (env : AuthEnv) (userId : Nat) (now : Nat) : Jwt :=
  jwtSign userId none env.jwtRefreshSecret env.refreshTokenExpires now

/-- The function `verifyRefreshToken` of `utils/auth.js`: whatever `jwt.verify`
throws is replaced by a plain `Error`. -/
def verifyRefreshToken (env : AuthEnv) (token : Jwt) (now : Nat) : Except JsError Jwt :=
  if jwtVerify token env.jwtRefreshSecret now then .ok token
  else .error (plainError "Invalid or expired refresh token")

/-- The call `prisma.refreshToken.findUnique({ where: { tokenHash } })`. -/
def findRefreshToken (db : AuthDb) (tokenHash : String) : Option RefreshToken :=
  db.refreshTokens.find? (fun t => t.tokenHash = tokenHash)

/-- The call `prisma.refreshToken.update({ where: { id }, data })`. -/
def updateRefreshToken (db : AuthDb) (id : Nat) (f : RefreshToken → RefreshToken) :
    Except JsError Unit × AuthDb :=
  match db.refreshTokens.find? (fun t => t.id = id) with
  | none => (.error recordNotFound, db)
  | some _ =>
    (.ok (), { db with refreshTokens := db.refreshTokens.map (fun t => if t.id = id then f t else t) })

/-- The call `prisma.refreshToken.create(...)`: one row under a fresh key. The
column `tokenHash` is the unique key `findUnique` looks rows up by, so a hash
that is already stored is refused. -/
def createRefreshToken (db : AuthDb) (userId : Nat) (tokenHash : String) (expiresAt : Nat) :
    Except JsError Unit × AuthDb :=
  if db.refreshTokens.any (fun t => t.tokenHash = tokenHash) then
    (.error uniqueConstraintFailed, db)
  else
    (.ok (), { db with
      refreshTokens := db.refreshTokens ++
        [{ id := db.nextId, userId := userId, tokenHash := tokenHash, expiresAt := expiresAt,
           revokedAt := none }]
      nextId := db.nextId + 1 })

/-- Thirty days in milliseconds: the effect of `expiresAt.setDate(expiresAt.getDate() + 30)`,
daylight-saving shifts apart. -/
def thirtyDays : Nat := 30 * 24 * 60 * 60 * 1000

/-- The handler `refresh` (`POST /api/auth/refresh`). `now` is the value of
`new Date()`, taken to be the same at each of its uses within one request. The
writes are not in a transaction. -/
def refresh (env : AuthEnv) (db : AuthDb) (refreshToken : Jwt) (now : Nat) :
    Except JsError TokenPair × AuthDb :=
  match verifyRefreshToken env refreshToken now with
  | .error e => (.error e, db)
  | .ok _ =>
    let tokenHash := env.hashToken refreshToken
    match findRefreshToken db tokenHash with
    | none => (.error (AppError "Invalid refresh token" 401), db)
    | some storedToken =>
      if storedToken.revokedAt.isSome then
        (.error (AppError "Token has been revoked" 401), db)
      else if now > storedToken.expiresAt then
        (.error (AppError "Token has expired" 401), db)
      else
        match updateRefreshToken db storedToken.id (fun t => { t with revokedAt := some now }) with
        | (.error e, db1) => (.error e, db1)
        | (.ok _, db1) =>
          match db.users.find? (fun u => u.id = storedToken.userId) with
          | none => (.error nullUser, db1)
          | some user =>
            let newAccessToken := generateAccessToken env user.id user.role now
            let newRefreshToken := generateRefreshToken env user.id now
            match createRefreshToken db1 user.id (env.hashToken newRefreshToken)
                (now + thirtyDays) with
            | (.error e, db2) => (.error e, db2)
            | (.ok _, db2) =>
              (.ok { accessToken := newAccessToken, refreshToken := newRefreshToken }, db2)

/-! ## `errorHandler` -/

/-- An error object as the error middleware receives it: the fields of `JsError`,
the class name, the stack trace, and the value of `err.meta?.target?.[0]`. -/
structure ErrorObject extends JsError where
  name : String
  stack : String
  metaTarget : Option String
  deriving DecidableEq, Repr

/-- The response written by `errorHandler`: the HTTP status and the JSON body. The
fields `stack` and `error` are absent outside development. -/
structure ErrorResponse where
  statusCode : Nat
  success : Bool
  message : String
  stack : Option String
  error : Option ErrorObject
  deriving DecidableEq, Repr

/-- The expression `err.statusCode || 500`. -/
def statusCodeOr500 (statusCode : Option Nat) : Nat :=
  match statusCode with
  | none => 500
  | some 0 => 500
  | some n => n

/-- The expression `value || fallback` for a string that may be absent. -/
def stringOr (value : Option String) (fallback : String) : String :=
  match value with
  | none => fallback
  | some s => if s = "" then fallback else s

/-- The test `err.code?.startsWith('P')`. -/
def codeStartsWithP (code : Option String) : Bool :=
  match code with
  | none => false
  | some c => c.data.head? = some 'P'

/-- The middleware `errorHandler` of `middlewares/errorHandler.js`; `nodeEnv` is
`process.env.NODE_ENV`. -/
def errorHandler (nodeEnv : Option String) (err : ErrorObject) : ErrorResponse :=
  let statusCode := statusCodeOr500 err.statusCode
  let message := stringOr (some err.message) "Internal server error"
  let afterStorage : Nat × String :=
    if err.code = some "P2002" then
      (409, stringOr err.metaTarget "Field" ++ " already exists")
    else if err.code = some "P2025" then
      (404, "Record not found")
    else if codeStartsWithP err.code then
      (400, "Database operation failed")
    else
      (statusCode, message)
  let afterJwt : Nat × String :=
    if err.name = "JsonWebTokenError" then
      (401, "Invalid token")
    else if err.name = "TokenExpiredError" then
      (401, "Token expired")
    else
      afterStorage
  { statusCode := afterJwt.1, success := false, message := afterJwt.2,
    stack := if nodeEnv = some "development" then some err.stack else none,
    error := if nodeEnv = some "development" then some err else none }

/-- The error object passed to `errorHandler` by `asyncHandler` when a handler throws
an `AppError` or a plain `Error`: the class name is `Error`, the stack trace is
whatever the runtime recorded, and there is no `meta`. -/
def thrownError (e : JsError) (stack : String) : ErrorObject :=
  { toJsError := e, name := "Error", stack := stack, metaTarget := none }

/-! ## Sample data for the admin, token and error claims -/

/-- The confirmed booking after its cancellation. -/
def cancelledBooking : Booking :=
  { confirmedBooking with status := "CANCELLED", cancellationReason := some "changed plans" }

/-- A store whose only booking is cancelled and whose seats are released. -/
def cancelledDb : Db :=
  { confirmedDb with departures := [sampleDeparture], bookings := [cancelledBooking] }

/-- The confirmed booking after the trip has taken place. -/
def completedBooking : Booking :=
  { confirmedBooking with status := "COMPLETED" }

/-- A store whose only booking is completed. -/
def completedDb : Db :=
  { confirmedDb with bookings := [completedBooking] }

/-- Every departure is FULL exactly when no seat is left, and AVAILABLE otherwise. -/
def StatusMatchesSeats (db : Db) : Prop :=
  ∀ d ∈ db.departures,
    (d.status = "FULL" ↔ d.seatsReserved ≥ d.capacity) ∧
    (d.status = "FULL" ∨ d.status = "AVAILABLE")

instance (db : Db) : Decidable (StatusMatchesSeats db) :=
  inferInstanceAs (Decidable (∀ d ∈ db.departures,
    (d.status = "FULL" ↔ d.seatsReserved ≥ d.capacity) ∧
    (d.status = "FULL" ∨ d.status = "AVAILABLE")))

/-- A store with one pending booking and one card payment waiting for confirmation. -/
def awaitingDb : Db :=
  { pendingDb with payments := [initiatedPayment], nextId := 102 }

/-- The card payment after its confirmation at time 60. -/
def paidPayment : Payment :=
  { initiatedPayment with status := "PAID", paidAt := some 60 }

/-- A store whose only payment is already PAID. -/
def paidDb : Db :=
  { pendingDb with payments := [paidPayment], nextId := 102 }

/-- A configuration with the default lifetimes: 15 minutes and 30 days. -/
def sampleEnv : AuthEnv :=
  { jwtAccessSecret := "access-secret", jwtRefreshSecret := "refresh-secret",
    accessTokenExpires := 900, refreshTokenExpires := 2592000,
    hashToken := fun t => toString t.userId ++ "." ++ toString t.iat ++ "." ++ toString t.exp }

/-- The refresh token issued to user 9 at time 0. -/
def issuedToken : Jwt := generateRefreshToken sampleEnv 9 0

/-- The row stored for `issuedToken`. -/
def issuedRow : RefreshToken :=
  { id := 1, userId := 9, tokenHash := "9.0.2592000", expiresAt := thirtyDays, revokedAt := none }

/-- A store with one user and the row of the token issued to them. -/
def authDb : AuthDb :=
  { users := [{ id := 9, role := "CUSTOMER" }], refreshTokens := [issuedRow], nextId := 2 }

/-- A configuration whose refresh tokens live 60 days (`REFRESH_TOKEN_EXPIRES=60d`). -/
def longLivedEnv : AuthEnv :=
  { sampleEnv with refreshTokenExpires := 5184000 }

/-- A 60-day refresh token issued to user 9 at time 0. -/
def revokedToken : Jwt := generateRefreshToken longLivedEnv 9 0

/-- A 60-day refresh token issued to user 9 one second later. -/
def expiredToken : Jwt := generateRefreshToken longLivedEnv 9 1000

/-- The row of `revokedToken`, revoked at time 2000. -/
def revokedRow : RefreshToken :=
  { id := 1, userId := 9, tokenHash := "9.0.5184000", expiresAt := thirtyDays,
    revokedAt := some 2000 }

/-- The row of `expiredToken`, never revoked; it expires 30 days after its issue. -/
def expiredRow : RefreshToken :=
  { id := 2, userId := 9, tokenHash := "9.1.5184001", expiresAt := thirtyDays + 1000,
    revokedAt := none }

/-- A store with one revoked row and one row that is only past its expiry. -/
def staleDb : AuthDb :=
  { users := [{ id := 9, role := "CUSTOMER" }], refreshTokens := [revokedRow, expiredRow],
    nextId := 3 }

/-- An error of the storage client without a code. -/
def connectionError : ErrorObject :=
  { message := "Cannot reach database server at db.internal:5432", statusCode := none,
    code := none, name := "PrismaClientInitializationError", stack := "at connect", metaTarget := none }

/-- A `TypeError` of the runtime. -/
def typeError : ErrorObject :=
  { message := "Cannot read properties of null", statusCode := none, code := none,
    name := "TypeError", stack := "at refresh", metaTarget := none }

/-- The storage error for a unique constraint on `email`. -/
def duplicateError : ErrorObject :=
  { message := "Unique constraint failed", statusCode := none, code := some "P2002",
    name := "PrismaClientKnownRequestError", stack := "at create", metaTarget := some "email" }

/-- The storage error for an update of a row that does not exist. -/
def missingError : ErrorObject :=
  { message := "Record to update not found.", statusCode := none, code := some "P2025",
    name := "PrismaClientKnownRequestError", stack := "at update", metaTarget := none }

/-! ## Double arithmetic

The handlers read decimal columns with `parseFloat` and compute with the numbers of
the language, which are doubles. Every finite double is an integer multiple of
`2 ^ -1074`; a sum, difference or product is the exact result rounded to 53
significant bits, ties to even. -/

/-- The number of binary digits of a number; the first argument bounds the number of
halvings. -/
def bitLengthAux : Nat → Nat → Nat
  | 0, _ => 0
  | fuel + 1, n => if n = 0 then 0 else bitLengthAux fuel (n / 2) + 1

/-- The number of binary digits of a number (0 for 0). -/
def bitLength (n : Nat) : Nat :=
  bitLengthAux n n

/-- The integer nearest to `num / den` among those with at most 53 significant
binary digits, ties to the one whose last significant digit is even. -/
def roundRatio (num den : Nat) : Nat :=
  let shift := bitLength (num / den) - 53
  let unit := den <<< shift
  let m := num / unit
  let rest := num % unit
  let up : Bool := decide (unit < 2 * rest) || (decide (2 * rest = unit) && decide (m % 2 = 1))
  (if up then m + 1 else m) <<< shift

/-- The double nearest to an integer, for integers within the range of doubles: an
integer of magnitude up to `2 ^ 53` is a double, a larger one is rounded. -/
def roundInt (n : Int) : Int :=
  if n < 0 then -(roundRatio n.natAbs 1 : Int) else (roundRatio n.natAbs 1 : Int)

/-- A finite double, given by the integer `units` with value `units * 2 ^ -1074`.
Infinities, `NaN` and the sign of zero are not modelled: results of magnitude
`2 ^ 1024` and above are outside the model. -/
structure JsDouble where
  units : Int
  deriving DecidableEq, Repr

/-- The double nearest to `num / den` units. -/
def JsDouble.ofUnits (num : Int) (den : Nat) : JsDouble :=
  { units := if num < 0 then -(roundRatio num.natAbs den : Int)
             else (roundRatio num.natAbs den : Int) }

/-- The double nearest to the rational `num / den`: the value of a numeric literal,
of `parseFloat` on a decimal column, and of a number in a request body. -/
def JsDouble.ofRatio (num : Int) (den : Nat) : JsDouble :=
  JsDouble.ofUnits (num * ((1 <<< 1074 : Nat) : Int)) den

instance : Add JsDouble := ⟨fun a b => JsDouble.ofUnits (a.units + b.units) 1⟩

instance : Sub JsDouble := ⟨fun a b => JsDouble.ofUnits (a.units - b.units) 1⟩

instance : Mul JsDouble := ⟨fun a b => JsDouble.ofUnits (a.units * b.units) (1 <<< 1074)⟩

instance : LT JsDouble := ⟨fun a b => a.units < b.units⟩

instance : LE JsDouble := ⟨fun a b => a.units ≤ b.units⟩

instance (a b : JsDouble) : Decidable (a < b) :=
  inferInstanceAs (Decidable (a.units < b.units))

instance (a b : JsDouble) : Decidable (a ≤ b) :=
  inferInstanceAs (Decidable (a.units ≤ b.units))

/-! ## The amounts of `createBooking`, `createPayment` and `confirmPayment` in doubles

The same handlers as above with the arithmetic of the source: a decimal column
holds the double that `parseFloat` reads from it, and a number written to a
decimal column is read back unchanged (the storage schema is not among the
sources, so no rounding by the store is modelled). -/

namespace Doubles

/-- The price columns of a departure, as `parseFloat` reads them. -/
structure TripDeparture where
  basePrice : JsDouble
  childPrice : Option JsDouble
  deriving DecidableEq, Repr

/-- One row of the addon catalog of the trip of the departure. -/
structure TripAddon where
  id : Nat
  price : JsDouble
  deriving DecidableEq, Repr

/-- The body of the `passengers.forEach` callback of `createBooking`. -/
def passengerPrice (departure : TripDeparture) (passenger : PassengerInput) : JsDouble :=
  match passenger.isChild, departure.childPrice with
  | true, some childPrice => childPrice
  | _, _ => departure.basePrice

/-- The loop `passengers.forEach(...)` of `createBooking`, started from the running total. -/
def addPassengerCosts (departure : TripDeparture) (passengers : List PassengerInput)
    (totalAmount : JsDouble) : JsDouble :=
  passengers.foldl (fun total passenger => total + passengerPrice departure passenger) totalAmount

/-- The loop `for (const addon of addons)` of `createBooking`, started from the
running total. -/
def addAddonCosts (catalog : List TripAddon) :
    List AddonInput → JsDouble → Except JsError JsDouble
  | [], totalAmount => .ok totalAmount
  | addon :: rest, totalAmount =>
    match catalog.find? (fun a => a.id = addon.addonId) with
    | none => .error (AppError ("Addon " ++ toString addon.addonId ++ " not found") 404)
    | some addonDetails =>
      let addonTotal := addonDetails.price * JsDouble.ofRatio addon.quantity 1
      addAddonCosts catalog rest (totalAmount + addonTotal)

/-- The value of `totalAmount` that `createBooking` computes (lines 41 to 62) and
writes to the column `totalAmount` of the new booking. -/
def totalAmount (departure : TripDeparture) (catalog : List TripAddon)
    (passengers : List PassengerInput) (addons : List AddonInput) : Except JsError JsDouble :=
  addAddonCosts catalog addons (addPassengerCosts departure passengers (JsDouble.ofRatio 0 1))

/-- The columns of a booking read or written by the payment handlers. -/
structure Booking where
  id : Nat
  customerId : Nat
  status : String
  totalAmount : JsDouble
  paidAmount : JsDouble
  deriving DecidableEq, Repr

/-- One payment row. -/
structure Payment where
  id : Nat
  bookingId : Nat
  method : String
  amount : JsDouble
  reference : Option String
  status : String
  paidAt : Option Nat
  deriving DecidableEq, Repr

/-- The tables used by the payment handlers and the key counter. -/
structure Db where
  bookings : List Booking
  payments : List Payment
  nextId : Nat
  deriving DecidableEq, Repr

/-- The call `booking.findUnique({ where: { id } })`. -/
def findBooking (db : Db) (id : Nat) : Option Booking :=
  db.bookings.find? (fun b => b.id = id)

/-- The call `payment.findUnique({ where: { id } })`. -/
def findPayment (db : Db) (id : Nat) : Option Payment :=
  db.payments.find? (fun p => p.id = id)

/-- The call `booking.update({ where: { id }, data })`, the data given as a row transformer. -/
def updateBooking (db : Db) (id : Nat) (f : Booking → Booking) : Except JsError Unit × Db :=
  match findBooking db id with
  | none => (.error recordNotFound, db)
  | some _ =>
    (.ok (), { db with bookings := db.bookings.map (fun b => if b.id = id then f b else b) })

/-- The call `payment.update({ where: { id }, data })`, the data given as a row transformer. -/
def updatePayment (db : Db) (id : Nat) (f : Payment → Payment) : Except JsError Unit × Db :=
  match findPayment db id with
  | none => (.error recordNotFound, db)
  | some _ =>
    (.ok (), { db with payments := db.payments.map (fun p => if p.id = id then f p else p) })

/-- The call `prisma.$transaction(body)`: the writes of a body that throws are rolled back. -/
def transaction {α : Type} (body : Db → Except JsError α × Db) (db : Db) :
    Except JsError α × Db :=
  match body db with
  | (.error e, _) => (.error e, db)
  | (.ok a, db') => (.ok a, db')

/-- The call `prisma.payment.create(...)` of `createPayment`: one payment row under a fresh key. -/
def createPaymentRow (db : Db) (bookingId : Nat) (method : String) (amount : JsDouble)
    (reference : Option String) (now : Nat) : Payment × Db :=
  let payment : Payment :=
    { id := db.nextId, bookingId := bookingId, method := method, amount := amount,
      reference := reference,
      status := if method = "CASH" then "PAID" else "INITIATED",
      paidAt := if method = "CASH" then some now else none }
  (payment, { db with payments := db.payments ++ [payment], nextId := db.nextId + 1 })

/-- The handler `createPayment` (`POST /api/payments`). `now` is the value of
`new Date()`, `numberToString` the conversion of a number inside a template string. -/
def createPayment (numberToString : JsDouble → String) (db : Db) (userId : Nat)
    (userRole : String) (bookingId : Nat) (method : String) (amount : JsDouble)
    (reference : Option String) (now : Nat) : Except JsError Payment × Db :=
  match findBooking db bookingId with
  | none => (.error (AppError "Booking not found" 404), db)
  | some booking =>
    let isStaff := ["ADMIN", "SUPER_ADMIN", "AGENT", "FINANCE"].contains userRole
    if booking.customerId ≠ userId ∧ ¬ isStaff then
      (.error (AppError "Access denied" 403), db)
    else
      let remainingAmount := booking.totalAmount - booking.paidAmount
      if amount > remainingAmount then
        (.error (AppError ("Payment amount exceeds remaining balance of "
          ++ numberToString remainingAmount) 400), db)
      else
        let (payment, db1) := createPaymentRow db bookingId method amount reference now
        if payment.status = "PAID" then
          let newPaidAmount := booking.paidAmount + amount
          let isFullyPaid := newPaidAmount ≥ booking.totalAmount
          match updateBooking db1 bookingId
              (fun b => { b with paidAmount := newPaidAmount
                                 status := if isFullyPaid ∧ booking.status = "PENDING"
                                           then "CONFIRMED" else b.status }) with
          | (.error e, db2) => (.error e, db2)
          | (.ok _, db2) => (.ok payment, db2)
        else
          (.ok payment, db1)

/-- The callback passed to `prisma.$transaction` by `confirmPayment`; `booking`
is the row read together with the payment before the transaction. -/
def confirmPaymentTx (payment : Payment) (booking : Booking) (now : Nat) (tx : Db) :
    Except JsError Unit × Db :=
  match updatePayment tx payment.id (fun p => { p with status := "PAID", paidAt := some now }) with
  | (.error e, tx1) => (.error e, tx1)
  | (.ok _, tx1) =>
    let newPaidAmount := booking.paidAmount + payment.amount
    let isFullyPaid := newPaidAmount ≥ booking.totalAmount
    updateBooking tx1 payment.bookingId
      (fun b => { b with paidAmount := newPaidAmount
                         status := if isFullyPaid ∧ booking.status = "PENDING"
                                   then "CONFIRMED" else b.status })

/-- The handler `confirmPayment` (`PUT /api/payments/:id/confirm`); it returns the
payment row re-read after the transaction. -/
def confirmPayment (db : Db) (id : Nat) (now : Nat) : Except JsError (Option Payment) × Db :=
  match findPayment db id with
  | none => (.error (AppError "Payment not found" 404), db)
  | some payment =>
    if payment.status = "PAID" then
      (.error (AppError "Payment already confirmed" 400), db)
    else
      match findBooking db payment.bookingId with
      | none => (.error nullBooking, db)
      | some booking =>
        match transaction (confirmPaymentTx payment booking now) db with
        | (.error e, db1) => (.error e, db1)
        | (.ok _, db1) => (.ok (findPayment db1 id), db1)

/-- A departure priced 1200.10, without a child price. -/
def centsDeparture : TripDeparture :=
  { basePrice := JsDouble.ofRatio 120010 100, childPrice := none }

/-- A booking of 70.10 on which 60 have been paid. -/
def partlyPaidDb : Db :=
  { bookings :=
      [{ id := 100, customerId := 9, status := "PENDING",
         totalAmount := JsDouble.ofRatio 7010 100, paidAmount := JsDouble.ofRatio 60 1 }],
    payments := [], nextId := 101 }

/-- A booking of 1200.90 on which 1200.80 have been paid, with a card payment of
0.10 waiting for confirmation. -/
def lastPaymentDb : Db :=
  { bookings :=
      [{ id := 100, customerId := 9, status := "PENDING",
         totalAmount := JsDouble.ofRatio 120090 100,
         paidAmount := JsDouble.ofRatio 120080 100 }],
    payments :=
      [{ id := 101, bookingId := 100, method := "CARD", amount := JsDouble.ofRatio 10 100,
         reference := none, status := "INITIATED", paidAt := none }],
    nextId := 102 }

end Doubles

/-! ## Pagination -/

/-- The object returned by `getPagination`. -/
structure Pagination where
  skip : Int
  take : Int
  page : Int
  limit : Int
  deriving DecidableEq, Repr

/-- The helper `getPagination` of `utils/helpers.js`, for query parameters that are
integers. `parseInt` gives the double nearest to the integer, and the difference
and the product are rounded in the same way (`roundInt`); `Math.max` and
`Math.min` are exact. Where `parseInt` or the product reaches `2 ^ 1024` the
language gives `Infinity`, which the model does not represent. -/
def getPagination (page limit : Int) : Pagination :=
  let pageNum := max 1 (roundInt page)
  let limitNum := min 100 (max 1 (roundInt limit))
  let skip := roundInt (roundInt (pageNum - 1) * limitNum)
  { skip := skip, take := limitNum, page := pageNum, limit := limitNum }

/-- The value of an arithmetic expression that may leave the integers. -/
inductive JsNumber where
  | finite (value : Int)
  | infinity
  | nan
  deriving DecidableEq, Repr

/-- The expression `Math.ceil(total / limit)` for a row count and an integer. -/
def ceilDiv (total : Nat) (limit : Int) : JsNumber :=
  if limit = 0 then
    if total = 0 then .nan else .infinity
  else
    .finite (-(Int.fdiv (-(total : Int)) limit))

/-- The comparison `page < totalPages`. -/
def ltJsNumber (page : Int) (totalPages : JsNumber) : Bool :=
  match totalPages with
  | .finite n => page < n
  | .infinity => true
  | .nan => false

/-- The field `pagination` of a list response. -/
structure PaginationMeta where
  total : Nat
  page : Int
  limit : Int
  totalPages : JsNumber
  hasNext : Bool
  hasPrev : Bool
  deriving DecidableEq, Repr

/-- The body of a list response. -/
structure PaginatedResponse (α : Type) where
  success : Bool
  data : List α
  pagination : PaginationMeta

/-- The helper `formatPaginatedResponse` of `utils/helpers.js`. -/
def formatPaginatedResponse {α : Type} (data : List α) (total : Nat) (page limit : Int) :
    PaginatedResponse α :=
  let totalPages := ceilDiv total limit
  { success := true, data := data,
    pagination :=
      { total := total, page := page, limit := limit, totalPages := totalPages,
        hasNext := ltJsNumber page totalPages, hasPrev := page > 1 } }

/-- The arguments `skip` and `take` of `findMany`: the rows after the first `skip`,
at most `take` of them. -/
def skipTake {α : Type} (rows : List α) (skip take : Int) : List α :=
  (rows.drop skip.toNat).take take.toNat

/-- The filter `where` of `getMyBookings`: the caller's own bookings, and only those
of the given status when one is given (an empty query parameter is falsy). -/
def myBookingsWhere (userId : Nat) (status : Option String) (b : Booking) : Bool :=
  decide (b.customerId = userId) &&
    (match status with
      | none => true
      | some s => if s = "" then true else decide (b.status = s))

/-- The handler `getMyBookings` (`GET /api/bookings/my`) for integer `page` and
`limit`. Rows are stored in creation order, so `orderBy: { createdAt: 'desc' }`
reverses them; the relations included in each row are left out. -/
def getMyBookings (db : Db) (userId : Nat) (page limit : Int) (status : Option String) :
    PaginatedResponse Booking :=
  let pagination := getPagination page limit
  let matching := (db.bookings.filter (myBookingsWhere userId status)).reverse
  let bookings := skipTake matching pagination.skip pagination.take
  let total := matching.length
  formatPaginatedResponse bookings total page limit

/-! ## Sequences of booking, status and payment requests -/

/-- One request to the booking endpoints or to the administrator's status endpoint. -/
inductive StatusOp where
  | booking (op : BookingOp)
  | updateStatus (id : Nat) (status : String) (cancellationReason : Option String)
  deriving Repr

/-- The store left behind by one such request, whether it succeeds or fails. -/
def StatusOp.run (db : Db) : StatusOp → Db
  | .booking op => op.run db
  | .updateStatus id status cancellationReason =>
    (updateBookingStatus db id status cancellationReason).2

/-- The store left behind by a sequence of such requests executed one after the other. -/
def runStatusOps (db : Db) (ops : List StatusOp) : Db :=
  ops.foldl StatusOp.run db

/-- One request to the payment endpoints. -/
inductive PaymentOp where
  | create (userId : Nat) (userRole : String) (bookingId : Nat) (method : String)
      (amount : Int) (reference : Option String) (now : Nat)
  | confirm (id : Nat) (now : Nat)
  deriving Repr

/-- The store left behind by one payment request, whether it succeeds or fails. -/
def PaymentOp.run (db : Db) : PaymentOp → Db
  | .create userId userRole bookingId method amount reference now =>
    (createPayment db userId userRole bookingId method amount reference now).2
  | .confirm id now => (confirmPayment db id now).2

/-- The store left behind by a sequence of payment requests executed one after the other. -/
def runPaymentOps (db : Db) (ops : List PaymentOp) : Db :=
  ops.foldl PaymentOp.run db

/-- The sum of the amounts of the PAID payments of a booking. -/
def paidTotal (db : Db) (bookingId : Nat) : Int :=
  ((db.payments.filter (fun p => p.bookingId = bookingId ∧ p.status = "PAID")).map
    (fun p => p.amount)).sum

/-- A booking of both seats of the sample departure, cancelled by an administrator,
confirmed again and cancelled again. -/
def reopenOps : List StatusOp :=
  [ .booking (.create 9 1 [adult, adult] [] none "BKA"),
    .updateStatus 100 "CANCELLED" (some "no show"),
    .updateStatus 100 "CONFIRMED" none,
    .updateStatus 100 "CANCELLED" (some "no show") ]

/-- Two card payments of the full amount of the pending booking, both confirmed. -/
def doublePaymentOps : List PaymentOp :=
  [ .create 9 "CUSTOMER" 100 "CARD" 2500 none 1000,
    .create 9 "CUSTOMER" 100 "CARD" 2500 none 2000,
    .confirm 101 3000,
    .confirm 102 4000 ]

/-! ## getTrips: the departure shown for a trip -/

/-- The columns of a departure read by `getTrips`; `startDate` is a time in
milliseconds. -/
structure DepartureListing where
  tripId : Nat
  startDate : Nat
  basePrice : Int
  currency : String
  status : String
  deriving DecidableEq, Repr

/-- A filter on a numeric column: the operators `gte` and `lte`, each one optional. -/
structure NumberFilter where
  gte : Option Int
  lte : Option Int
  deriving DecidableEq, Repr

/-- The object passed as `where` for the departures included in a trip. An object has
one value per key, so `basePrice` holds at most one filter. -/
structure DepartureWhere where
  status : String
  startDateGte : Nat
  basePrice : Option NumberFilter
  deriving DecidableEq, Repr

/-- The object literal built by `getTrips` for `departures.where`. The query
parameters are given parsed; an absent or empty parameter is `none`. The spread of
`maxPrice` comes after the spread of `minPrice` and writes the same key `basePrice`. -/
def departuresWhere (startDate : Option Nat) (minPrice maxPrice : Option Int) (now : Nat) :
    DepartureWhere :=
  let w0 : DepartureWhere :=
    { status := "AVAILABLE", startDateGte := startDate.getD now, basePrice := none }
  let w1 : DepartureWhere :=
    match minPrice with
    | some p => { w0 with basePrice := some { gte := some p, lte := none } }
    | none => w0
  match maxPrice with
  | some p => { w1 with basePrice := some { gte := none, lte := some p } }
  | none => w1

/-- Whether a number passes a filter. -/
def NumberFilter.holds (f : NumberFilter) (x : Int) : Bool :=
  (match f.gte with
    | some g => decide (g ≤ x)
    | none => true) &&
  (match f.lte with
    | some l => decide (x ≤ l)
    | none => true)

/-- Whether a departure passes the filter `departures.where`. -/
def DepartureWhere.holds (w : DepartureWhere) (d : DepartureListing) : Bool :=
  decide (d.status = w.status) && decide (w.startDateGte ≤ d.startDate) &&
  (match w.basePrice with
    | some f => f.holds d.basePrice
    | none => true)

/-- The departures included in a trip by `getTrips`: those of the trip that pass the
filter, ordered by `startDate`, the first one only. -/
def includedDepartures (departures : List DepartureListing) (tripId : Nat)
    (w : DepartureWhere) : List DepartureListing :=
  ((departures.filter (fun d => decide (d.tripId = tripId) && w.holds d)).insertionSort
    (fun a b => a.startDate ≤ b.startDate)).take 1

/-- The fields of a formatted trip that come from its departures. -/
structure TripPrice where
  minPrice : Option Int
  currency : String
  nextDeparture : Option Nat
  deriving DecidableEq, Repr

/-- The part of `getTrips` that fills `minPrice`, `currency` and `nextDeparture` of one
trip from `trip.departures[0]`. -/
def tripPrice (departures : List DepartureListing) (tripId : Nat) (startDate : Option Nat)
    (minPrice maxPrice : Option Int) (now : Nat) : TripPrice :=
  let included := includedDepartures departures tripId
    (departuresWhere startDate minPrice maxPrice now)
  { minPrice := included.head?.map (fun d => d.basePrice),
    currency := (included.head?.map (fun d => d.currency)).getD "USD",
    nextDeparture := included.head?.map (fun d => d.startDate) }

/-- Two departures of trip 7: a cheap one leaving first and a dearer one. -/
def listedDepartures : List DepartureListing :=
  [ { tripId := 7, startDate := 5000, basePrice := 500, currency := "USD", status := "AVAILABLE" },
    { tripId := 7, startDate := 9000, basePrice := 1500, currency := "USD", status := "AVAILABLE" } ]

/-! ## The booking form and the validator of `POST /api/bookings` -/

/-- One element of the state `passengers` of the booking page. -/
structure PassengerForm where
  fullName : String
  passportNo : String
  deriving DecidableEq, Repr

/-- The state of the booking page that `handleSubmit` reads. -/
structure BookingPageState where
  selectedDepartureId : String
  passengers : List PassengerForm
  deriving DecidableEq, Repr

/-- A passenger in a request body: every key may be absent. -/
structure PassengerJson where
  fullName : Option String
  gender : Option String
  dateOfBirth : Option String
  passportNo : Option String
  nationality : Option String
  isChild : Option Bool
  deriving DecidableEq, Repr

/-- An addon in a request body. -/
structure AddonJson where
  addonId : Option String
  quantity : Option Int
  deriving DecidableEq, Repr

/-- The body of `POST /api/bookings`: every key may be absent. -/
structure CreateBookingJson where
  departureId : Option String
  passengers : Option (List PassengerJson)
  addons : Option (List AddonJson)
  notes : Option String
  deriving DecidableEq, Repr

/-- The function `handleSubmit` of the booking page: nothing is sent without a selected
departure, otherwise the body holds the departure and the passengers of the form,
each with the two keys the form edits. -/
def handleSubmit (state : BookingPageState) : Option CreateBookingJson :=
  if state.selectedDepartureId = "" then none
  else some
    { departureId := some state.selectedDepartureId,
      passengers := some (state.passengers.map (fun p =>
        { fullName := some p.fullName, gender := none, dateOfBirth := none,
          passportNo := some p.passportNo, nationality := none, isChild := none })),
      addons := none, notes := none }

/-- Whether the step of the form that leads to submission can be left: a departure is
selected and no passenger has an empty name. -/
def submissionReachable (state : BookingPageState) : Bool :=
  decide (state.selectedDepartureId ≠ "") && state.passengers.all (fun p => decide (p.fullName ≠ ""))

/-- One element of `error.details`: the joined path and the code of the rule. -/
structure ValidationError where
  field : String
  rule : String
  deriving DecidableEq, Repr

/-- The format tests of the validation library, which the model does not fix. -/
structure Formats where
  guid : String → Bool
  date : String → Bool

/-- The rule `Joi.string().required()` followed by further tests on the value: the
key must be present and the string must not be empty. -/
def requiredString (field : String) (value : Option String)
    (further : String → List ValidationError) : List ValidationError :=
  match value with
  | none => [{ field := field, rule := "any.required" }]
  | some s => if s = "" then [{ field := field, rule := "string.empty" }] else further s

/-- The rule `Joi.string().optional()` followed by further tests on the value: an
absent key passes, a present string must not be empty. -/
def optionalString (field : String) (value : Option String)
    (further : String → List ValidationError) : List ValidationError :=
  match value with
  | none => []
  | some s => if s = "" then [{ field := field, rule := "string.empty" }] else further s

/-- The rule `Joi.string().valid(...).required()`: the key must be present; a value
outside the list is reported, and the empty string is reported as empty as well. -/
def requiredOneOf (field : String) (allowed : List String) (value : Option String) :
    List ValidationError :=
  match value with
  | none => [{ field := field, rule := "any.required" }]
  | some s =>
    (if allowed.contains s then [] else [{ field := field, rule := "any.only" }]) ++
    (if s = "" then [{ field := field, rule := "string.empty" }] else [])

/-- The errors of one element of `passengers`. -/
def passengerErrors (formats : Formats) (index : Nat) (p : PassengerJson) :
    List ValidationError :=
  let path := "passengers." ++ toString index ++ "."
  requiredString (path ++ "fullName") p.fullName (fun _ => []) ++
  requiredOneOf (path ++ "gender") ["MALE", "FEMALE", "OTHER"] p.gender ++
  (match p.dateOfBirth with
    | none => []
    | some d => if formats.date d then [] else [{ field := path ++ "dateOfBirth", rule := "date.base" }]) ++
  optionalString (path ++ "passportNo") p.passportNo (fun _ => []) ++
  optionalString (path ++ "nationality") p.nationality (fun _ => [])

/-- The errors of one element of `addons`. -/
def addonErrors (formats : Formats) (index : Nat) (a : AddonJson) : List ValidationError :=
  let path := "addons." ++ toString index ++ "."
  requiredString (path ++ "addonId") a.addonId (fun s =>
    if formats.guid s then [] else [{ field := path ++ "addonId", rule := "string.guid" }]) ++
  (match a.quantity with
    | none => []
    | some q => if 1 ≤ q then [] else [{ field := path ++ "quantity", rule := "number.min" }])

/-- The errors of each element of an array, with its index. -/
def itemErrors {α : Type} (check : Nat → α → List ValidationError) :
    Nat → List α → List ValidationError
  | _, [] => []
  | index, x :: xs => check index x ++ itemErrors check (index + 1) xs

/-- The details reported by `createBookingSchema` with `abortEarly: false`. -/
def createBookingSchema (formats : Formats) (body : CreateBookingJson) : List ValidationError :=
  requiredString "departureId" body.departureId (fun s =>
    if formats.guid s then [] else [{ field := "departureId", rule := "string.guid" }]) ++
  (match body.passengers with
    | none => [{ field := "passengers", rule := "any.required" }]
    | some ps =>
      (if ps.length < 1 then [{ field := "passengers", rule := "array.min" }] else []) ++
      itemErrors (passengerErrors formats) 0 ps) ++
  (match body.addons with
    | none => []
    | some as => itemErrors (addonErrors formats) 0 as) ++
  optionalString "notes" body.notes (fun _ => [])

/-- The value returned by the schema for a body without errors: the defaults of
`isChild` and `quantity` are filled in. -/
def withDefaults (body : CreateBookingJson) : CreateBookingJson :=
  { body with
    passengers := body.passengers.map (fun ps =>
      ps.map (fun p => { p with isChild := some (p.isChild.getD false) })),
    addons := body.addons.map (fun as =>
      as.map (fun a => { a with quantity := some (a.quantity.getD 1) })) }

/-- The response of the middleware to a body with errors. -/
structure ValidationFailure where
  statusCode : Nat
  success : Bool
  message : String
  errors : List ValidationError
  deriving DecidableEq, Repr

/-- The middleware `validate(createBookingSchema)`: a body with errors is answered
with status 400, any other body is replaced by the validated value and passed on. -/
def validate (formats : Formats) (body : CreateBookingJson) :
    Except ValidationFailure CreateBookingJson :=
  let errors := createBookingSchema formats body
  if errors ≠ [] then
    .error { statusCode := 400, success := false, message := "Validation error", errors := errors }
  else
    .ok (withDefaults body)

/-- The request of the booking page together with the validator: `none` when the
page sends nothing. -/
def submitBooking (formats : Formats) (state : BookingPageState) :
    Option (Except ValidationFailure CreateBookingJson) :=
  (handleSubmit state).map (validate formats)

/-- A format test for the sample data: 36 characters. -/
def sampleFormats : Formats :=
  { guid := fun s => s.length = 36, date := fun _ => true }

/-- The booking form with a departure selected and one passenger filled in. -/
def filledForm : BookingPageState :=
  { selectedDepartureId := "3f2b8c1e-5d4a-4b7e-9c1a-2e6f8a0b1c2d",
    passengers := [{ fullName := "Amina Ali", passportNo := "P1234567" }] }

/-! ## generateBookingCode -/

/-- The character written for a digit below 36 by `Number.prototype.toString` and by
the `hex` encoding of a buffer: `0` to `9`, then `a` to `z`. -/
def digitChar (d : Nat) : Char :=
  if d < 10 then Char.ofNat (48 + d) else Char.ofNat (87 + d)

/-- The digits of a number in base 36, most significant first. The first argument
bounds the number of digits. -/
def toDigits36 : Nat → Nat → List Nat
  | 0, _ => []
  | fuel + 1, n => if n < 36 then [n] else toDigits36 fuel (n / 36) ++ [n % 36]

/-- The call `n.toString(36)` for a natural number. -/
def toString36 (n : Nat) : String :=
  String.mk ((toDigits36 (n + 1) n).map digitChar)

/-- The call `buffer.toString('hex')`: two digits for each byte. -/
def toHex (bytes : List (Fin 256)) : String :=
  String.mk (bytes.flatMap (fun b => [digitChar (b.val / 16), digitChar (b.val % 16)]))

/-- The method `toUpperCase` on a string of ASCII characters. -/
def toUpperCase (s : String) : String :=
  String.mk (s.data.map Char.toUpper)

/-- The function `generateBookingCode` of `utils/auth.js`, with the value of
`Date.now()` and the three bytes returned by `crypto.randomBytes(3)` as arguments. -/
def generateBookingCode (now : Nat) (randomBytes : Fin 256 × Fin 256 × Fin 256) : String :=
  let timestamp := toUpperCase (toString36 now)
  let random := toUpperCase (toHex [randomBytes.1, randomBytes.2.1, randomBytes.2.2])
  "BK" ++ timestamp ++ random

/-- Whether a character is a digit or an upper-case letter. -/
def isUpperBase36Digit (c : Char) : Bool :=
  (48 ≤ c.toNat && c.toNat ≤ 57) || (65 ≤ c.toNat && c.toNat ≤ 90)

/-- Whether a character is a digit or one of `A` to `F`. -/
def isUpperHexDigit (c : Char) : Bool :=
  (48 ≤ c.toNat && c.toNat ≤ 57) || (65 ≤ c.toNat && c.toNat ≤ 70)

/-- The value of an upper-case digit in base 36. -/
def upperDigitValue (c : Char) : Nat :=
  if c.toNat ≤ 57 then c.toNat - 48 else c.toNat - 55

/-- The number written by a list of upper-case digits in base 36. -/
def fromUpperBase36 (cs : List Char) : Nat :=
  cs.foldl (fun acc c => acc * 36 + upperDigitValue c) 0

/-! ## slugify

A string is the list of its UTF-16 code units, which is what the string methods and
the regular expressions of `slugify` work on. -/

/-- The code units matched by `\s` and removed by `trim`. -/
def isWhiteSpace (n : Nat) : Bool :=
  n = 9 || n = 10 || n = 11 || n = 12 || n = 13 || n = 32 || n = 160 || n = 5760 ||
  (8192 ≤ n && n ≤ 8202) || n = 8232 || n = 8233 || n = 8239 || n = 8287 || n = 12288 ||
  n = 65279

/-- The code units matched by `\w`: letters, digits and the underscore. -/
def isWordChar (n : Nat) : Bool :=
  (48 ≤ n && n ≤ 57) || (65 ≤ n && n ≤ 90) || n = 95 || (97 ≤ n && n ≤ 122)

/-- The method `trim`. -/
def trim (cs : List Nat) : List Nat :=
  ((cs.dropWhile isWhiteSpace).reverse.dropWhile isWhiteSpace).reverse

/-- The replacement of every maximal run of white space by one hyphen (code unit 45);
the flag tells whether the previous code unit belonged to a run. -/
def replaceWhiteSpaceAux : Bool → List Nat → List Nat
  | _, [] => []
  | inRun, c :: cs =>
    if isWhiteSpace c then
      if inRun then replaceWhiteSpaceAux true cs else 45 :: replaceWhiteSpaceAux true cs
    else c :: replaceWhiteSpaceAux false cs

/-- The call `replace(/\s+/g, '-')`. -/
def replaceWhiteSpace (cs : List Nat) : List Nat :=
  replaceWhiteSpaceAux false cs

/-- The call `replace(/[^\w\-]+/g, '')`: only word characters and hyphens are kept. -/
def removeNonWord (cs : List Nat) : List Nat :=
  cs.filter (fun c => isWordChar c || c == 45)

/-- The call `replace(/\-\-+/g, '-')`: every run of hyphens becomes one hyphen. -/
def collapseHyphens : List Nat → List Nat
  | [] => []
  | [c] => [c]
  | c :: d :: cs =>
    if c = 45 ∧ d = 45 then collapseHyphens (d :: cs) else c :: collapseHyphens (d :: cs)

/-- The function `slugify` of `utils/helpers.js`. The method `toLowerCase` of the
runtime, whose case mapping covers all of Unicode, is a parameter. -/
def slugify (toLowerCase : List Nat → List Nat) (text : List Nat) : List Nat :=
  collapseHyphens (removeNonWord (replaceWhiteSpace (trim (toLowerCase text))))

/-- The code units of `[a-z0-9_-]`. -/
def isSlugChar (n : Nat) : Bool :=
  (97 ≤ n && n ≤ 122) || (48 ≤ n && n ≤ 57) || n = 95 || n = 45

/-- The lower-case form of one code unit, for the ASCII letters and for the two
characters outside ASCII whose lower-case form holds an ASCII letter: the capital
dotted I (U+0130) gives `i` and a combining dot, the Kelvin sign (U+212A) gives `k`. -/
def lowerCaseUnit (n : Nat) : List Nat :=
  if n = 304 then [105, 775]
  else if n = 8490 then [107]
  else if 65 ≤ n ∧ n ≤ 90 then [n + 32]
  else [n]

/-- A case mapping for the sample data: `toLowerCase` on strings of ASCII characters,
U+0130 and U+212A. -/
def sampleToLowerCase (cs : List Nat) : List Nat :=
  cs.flatMap lowerCaseUnit

/-- The code units of a string literal without characters above U+FFFF. -/
def codeUnits (s : String) : List Nat :=
  s.data.map Char.toNat

/-! ## Sample data for the error, pagination and listing claims -/

/-- The error raised by the JSON body reader for a malformed body: it is not an
`AppError`, and it carries a `statusCode`. -/
def bodyParseError : ErrorObject :=
  { message := "Unexpected end of JSON input", statusCode := some 400, code := none,
    name := "SyntaxError", stack := "at parse", metaTarget := none }

/-- A store with three bookings of customer 9. -/
def threeBookingsDb : Db :=
  { pendingDb with
    bookings :=
      [ pendingBooking, { pendingBooking with id := 110, bookingCode := "BKB" },
        { pendingBooking with id := 120, bookingCode := "BKC" } ] }

/-- A store with 150 bookings of customer 9. -/
def manyBookingsDb : Db :=
  { pendingDb with
    bookings := (List.range 150).map (fun i => { pendingBooking with id := 100 + i }) }

/-! ## Auxiliary lemmas: storage -/

/-- Looking up a key after an update that keeps keys returns the updated row. -/
theorem find_map_update {α : Type} (key : α → Nat) (f : α → α) (id : Nat)
    (hf : ∀ a, key (f a) = key a) (l : List α) (a : α)
    (h : l.find? (fun x => key x = id) = some a) :
    (l.map (fun x => if key x = id then f x else x)).find? (fun x => key x = id) = some (f a) := by
  induction l with
  | nil => simp at h
  | cons x xs ih =>
    by_cases hx : key x = id
    · simp [List.find?, hx] at h
      subst h
      simp [List.find?, hx, hf]
    · simp [List.find?, hx] at h
      simp [List.find?, hx, ih h]

/-- A row appended under a key no stored row has is the one found under that key. -/
theorem find_append_fresh {α : Type} (p : α → Bool) (l : List α) (a : α)
    (hl : ∀ x ∈ l, p x = false) (ha : p a = true) : (l ++ [a]).find? p = some a := by
  induction l with
  | nil => simp [List.find?, ha]
  | cons x xs ih =>
    have hx := hl x (List.mem_cons_self _ _)
    simp only [List.cons_append, List.find?, hx]
    exact ih (fun y hy => hl y (List.mem_cons_of_mem _ hy))

/-- With unique keys, a row with the key looked up is the row found. -/
theorem eq_of_find_of_nodup (ds : List TripDeparture) (id : Nat) (d x : TripDeparture)
    (hnd : (ds.map (fun d => d.id)).Nodup) (hd : ds.find? (fun y => y.id = id) = some d)
    (hx : x ∈ ds) (hid : x.id = id) : x = d := by
  induction ds with
  | nil => simp at hx
  | cons y ys ih =>
    simp only [List.map_cons, List.nodup_cons, List.mem_map, not_exists, not_and] at hnd
    by_cases hy : y.id = id
    · simp only [List.find?, hy, decide_True, Option.some.injEq] at hd
      subst hd
      rcases List.mem_cons.mp hx with rfl | hmem
      · rfl
      · exact absurd (hid.trans hy.symm) (hnd.1 x hmem)
    · simp only [List.find?, hy, decide_False] at hd
      rcases List.mem_cons.mp hx with rfl | hmem
      · exact absurd hid hy
      · exact ih hnd.2 hd hmem

/-- A transaction whose body throws leaves the store as it was. -/
theorem transaction_snd_of_error {α : Type} (body : Db → Except JsError α × Db) (db : Db)
    (e : JsError) (h : (transaction body db).1 = .error e) : (transaction body db).2 = db := by
  unfold transaction at h ⊢
  rcases hb : body db with ⟨r, db'⟩
  cases r with
  | error e' => rfl
  | ok a => simp [hb] at h

/-! ## Auxiliary lemmas: `createBooking` -/

/-- The outcome of `createBooking` when every check passes. -/
theorem createBooking_ok (db : Db) (userId departureId : Nat) (passengers : List PassengerInput)
    (addons : List AddonInput) (notes : Option String) (bookingCode : String)
    (d : TripDeparture) (totalAmount : Int) (addonPrices : List AddonPrice)
    (hd : findDeparture db departureId = some d) (hs : d.status = "AVAILABLE")
    (hc : (passengers.length : Int) ≤ d.capacity - d.seatsReserved)
    (ha : addAddonCosts (tripAddons db d.tripId) addons (addPassengerCosts d passengers 0) []
      = .ok (totalAmount, addonPrices)) :
    createBooking db userId departureId passengers addons notes bookingCode =
      (.ok (createBookingRow db bookingCode userId departureId totalAmount d.currency notes
              passengers addonPrices).1,
       { (createBookingRow db bookingCode userId departureId totalAmount d.currency notes
              passengers addonPrices).2 with
         departures := db.departures.map (fun x => if x.id = departureId then
           { x with seatsReserved := x.seatsReserved + (passengers.length : Int),
                    status := if d.seatsReserved + (passengers.length : Int) ≥ d.capacity
                              then "FULL" else x.status } else x) }) := by
  have hc' : ¬ (d.capacity - d.seatsReserved < (passengers.length : Int)) := not_lt.mpr hc
  have hd' : db.departures.find? (fun x => x.id = departureId) = some d := hd
  have hf1 := find_map_update (fun x : TripDeparture => x.id)
    (fun x => { x with seatsReserved := x.seatsReserved + (passengers.length : Int) })
    departureId (fun _ => rfl) db.departures d hd'
  simp only [createBooking, transaction, createBookingTx, findDeparture, hd', hs, ne_eq,
    not_true_eq_false, if_false, hc', ha, createBookingRow, updateDeparture, hf1]
  by_cases hfull : d.seatsReserved + (passengers.length : Int) ≥ d.capacity
  · simp only [hfull, if_true, List.map_map, hf1]
    congr 2
    apply List.map_congr_left
    intro x _
    by_cases hx : x.id = departureId <;> simp [hx]
  · simp only [hfull, if_false]

/-- The outcome of `createBooking` when the departure is missing. -/
theorem createBooking_no_departure (db : Db) (userId departureId : Nat)
    (passengers : List PassengerInput) (addons : List AddonInput) (notes : Option String)
    (bookingCode : String) (hd : findDeparture db departureId = none) :
    createBooking db userId departureId passengers addons notes bookingCode =
      (.error (AppError "Departure not found" 404), db) := by
  simp [createBooking, transaction, createBookingTx, hd]

/-- The outcome of `createBooking` when the departure is not AVAILABLE. -/
theorem createBooking_not_available (db : Db) (userId departureId : Nat)
    (passengers : List PassengerInput) (addons : List AddonInput) (notes : Option String)
    (bookingCode : String) (d : TripDeparture) (hd : findDeparture db departureId = some d)
    (hs : d.status ≠ "AVAILABLE") :
    createBooking db userId departureId passengers addons notes bookingCode =
      (.error (AppError "This departure is not available for booking" 400), db) := by
  simp [createBooking, transaction, createBookingTx, hd, hs]

/-- The outcome of `createBooking` when there are not enough seats. -/
theorem createBooking_no_seats (db : Db) (userId departureId : Nat)
    (passengers : List PassengerInput) (addons : List AddonInput) (notes : Option String)
    (bookingCode : String) (d : TripDeparture) (hd : findDeparture db departureId = some d)
    (hs : d.status = "AVAILABLE") (hc : d.capacity - d.seatsReserved < (passengers.length : Int)) :
    createBooking db userId departureId passengers addons notes bookingCode =
      (.error (AppError ("Only " ++ toString (d.capacity - d.seatsReserved) ++ " seats available") 400),
       db) := by
  simp [createBooking, transaction, createBookingTx, hd, hs, hc]

/-- The outcome of `createBooking` when the addon loop throws. -/
theorem createBooking_addon_error (db : Db) (userId departureId : Nat)
    (passengers : List PassengerInput) (addons : List AddonInput) (notes : Option String)
    (bookingCode : String) (d : TripDeparture) (e : JsError)
    (hd : findDeparture db departureId = some d)
    (hs : d.status = "AVAILABLE") (hc : (passengers.length : Int) ≤ d.capacity - d.seatsReserved)
    (ha : addAddonCosts (tripAddons db d.tripId) addons (addPassengerCosts d passengers 0) []
      = .error e) :
    createBooking db userId departureId passengers addons notes bookingCode = (.error e, db) := by
  have hc' : ¬ (d.capacity - d.seatsReserved < (passengers.length : Int)) := not_lt.mpr hc
  simp [createBooking, transaction, createBookingTx, hd, hs, hc', ha]

/-- The addon loop throws at the first requested addon that is not in the catalog, and
otherwise adds `price * quantity` for each. -/
theorem addAddonCosts_eq (catalog : List TripAddon) (addons : List AddonInput) :
    ∀ (totalAmount : Int) (addonPrices : List AddonPrice),
    addAddonCosts catalog addons totalAmount addonPrices =
      match addons.find? (fun a => (catalog.find? (fun c => c.id = a.addonId)).isNone) with
      | some a => .error (AppError ("Addon " ++ toString a.addonId ++ " not found") 404)
      | none =>
        .ok (totalAmount + (addons.map (fun a => catalogPrice catalog a.addonId * a.quantity)).sum,
             addonPrices ++ addons.map (fun a =>
               { addonId := a.addonId, quantity := a.quantity,
                 price := catalogPrice catalog a.addonId })) := by
  induction addons with
  | nil => intro t acc; simp [addAddonCosts]
  | cons a rest ih =>
    intro t acc
    cases hfind : catalog.find? (fun c => c.id = a.addonId) with
    | none => simp [addAddonCosts, hfind, List.find?]
    | some c =>
      simp only [addAddonCosts, hfind, ih, List.find?, Option.isNone_some]
      cases rest.find? (fun a => (catalog.find? (fun c => c.id = a.addonId)).isNone) with
      | some a' => rfl
      | none => simp [catalogPrice, hfind, add_assoc]

/-- No requested addon is missing from the catalog exactly when each of them has a
catalog row. -/
theorem find_isNone_eq_none_iff (catalog : List TripAddon) (addons : List AddonInput) :
    addons.find? (fun a => (catalog.find? (fun c => c.id = a.addonId)).isNone) = none ↔
      ∀ a ∈ addons, ∃ c ∈ catalog, c.id = a.addonId := by
  simp only [List.find?_eq_none]
  constructor
  · intro h a ha
    have := h a ha
    cases hf : catalog.find? (fun c => c.id = a.addonId) with
    | none => simp [hf] at this
    | some c =>
      refine ⟨c, List.mem_of_find?_eq_some hf, ?_⟩
      simpa using List.find?_some hf
  · intro h a ha
    obtain ⟨c, hc, hid⟩ := h a ha
    cases hf : catalog.find? (fun c => c.id = a.addonId) with
    | none =>
      rw [List.find?_eq_none] at hf
      have := hf c hc
      simp [hid] at this
    | some c => simp

/-- The passenger loop adds the price of each passenger. -/
theorem addPassengerCosts_eq (d : TripDeparture) (passengers : List PassengerInput) :
    ∀ totalAmount : Int, addPassengerCosts d passengers totalAmount =
      totalAmount + (passengers.map (passengerPrice d)).sum := by
  unfold addPassengerCosts
  induction passengers with
  | nil => intro t; simp
  | cons p ps ih => intro t; simp [List.foldl, ih, add_assoc]

/-- The price of one passenger, by cases on the child price of the departure. -/
theorem passengerPrice_eq (d : TripDeparture) (p : PassengerInput) :
    passengerPrice d p =
      match d.childPrice with
      | some childPrice => if p.isChild then childPrice else d.basePrice
      | none => d.basePrice := by
  unfold passengerPrice
  cases d.childPrice <;> cases p.isChild <;> rfl

/-- All passenger rows written for a booking belong to it. -/
theorem passengerRows_filter (bookingId : Nat) (passengers : List PassengerInput) :
    (passengerRows bookingId passengers).filter (fun p => p.bookingId = bookingId)
      = passengerRows bookingId passengers := by
  simp [passengerRows, List.filter_eq_self]

/-- A transaction returns what its body returns. -/
theorem transaction_fst {α : Type} (body : Db → Except JsError α × Db) (db : Db) :
    (transaction body db).1 = (body db).1 := by
  unfold transaction
  rcases body db with ⟨r, db'⟩
  cases r <;> rfl

/-- The body of the transaction of `createBooking` has written nothing when it throws. -/
theorem createBookingTx_error_snd (db : Db) (userId departureId : Nat)
    (passengers : List PassengerInput) (addons : List AddonInput) (notes : Option String)
    (bookingCode : String) (e : JsError)
    (h : (createBookingTx userId departureId passengers addons notes bookingCode db).1
      = .error e) :
    (createBookingTx userId departureId passengers addons notes bookingCode db).2 = db := by
  cases hd : findDeparture db departureId with
  | none => simp [createBookingTx, hd]
  | some d =>
    by_cases hs : d.status = "AVAILABLE"
    swap
    · simp [createBookingTx, hd, hs]
    by_cases hc : d.capacity - d.seatsReserved < (passengers.length : Int)
    · simp [createBookingTx, hd, hs, hc]
    cases ha : addAddonCosts (tripAddons db d.tripId) addons (addPassengerCosts d passengers 0) [] with
    | error e' => simp [createBookingTx, hd, hs, hc, ha]
    | ok r =>
      exfalso
      obtain ⟨totalAmount, addonPrices⟩ := r
      have hd' : db.departures.find? (fun x => x.id = departureId) = some d := hd
      have hf1 := find_map_update (fun x : TripDeparture => x.id)
        (fun x => { x with seatsReserved := x.seatsReserved + (passengers.length : Int) })
        departureId (fun _ => rfl) db.departures d hd'
      simp only [createBookingTx, findDeparture, hd', hs, ne_eq, not_true_eq_false, if_false, hc,
        ha, createBookingRow, updateDeparture, hf1] at h
      by_cases hfull : d.seatsReserved + (passengers.length : Int) ≥ d.capacity
      · simp [hfull] at h
      · simp [hfull] at h

/-- The four ways `createBooking` fails and the one way it succeeds, by the checks in
source order. -/
theorem createBooking_cases (db : Db) (userId departureId : Nat)
    (passengers : List PassengerInput) (addons : List AddonInput) (notes : Option String)
    (bookingCode : String) :
    (findDeparture db departureId = none ∧
      createBooking db userId departureId passengers addons notes bookingCode =
        (.error (AppError "Departure not found" 404), db)) ∨
    (∃ d, findDeparture db departureId = some d ∧ d.status ≠ "AVAILABLE" ∧
      createBooking db userId departureId passengers addons notes bookingCode =
        (.error (AppError "This departure is not available for booking" 400), db)) ∨
    (∃ d, findDeparture db departureId = some d ∧ d.status = "AVAILABLE" ∧
      d.capacity - d.seatsReserved < (passengers.length : Int) ∧
      createBooking db userId departureId passengers addons notes bookingCode =
        (.error (AppError ("Only " ++ toString (d.capacity - d.seatsReserved)
          ++ " seats available") 400), db)) ∨
    (∃ d a, findDeparture db departureId = some d ∧ d.status = "AVAILABLE" ∧
      (passengers.length : Int) ≤ d.capacity - d.seatsReserved ∧
      addons.find? (fun a => ((tripAddons db d.tripId).find? (fun c => c.id = a.addonId)).isNone)
        = some a ∧
      createBooking db userId departureId passengers addons notes bookingCode =
        (.error (AppError ("Addon " ++ toString a.addonId ++ " not found") 404), db)) ∨
    (∃ d, findDeparture db departureId = some d ∧ d.status = "AVAILABLE" ∧
      (passengers.length : Int) ≤ d.capacity - d.seatsReserved ∧
      (∀ a ∈ addons, ∃ c ∈ tripAddons db d.tripId, c.id = a.addonId) ∧
      createBooking db userId departureId passengers addons notes bookingCode =
        (.ok (createBookingRow db bookingCode userId departureId
                ((passengers.map (passengerPrice d)).sum + (addons.map (fun a =>
                  catalogPrice (tripAddons db d.tripId) a.addonId * a.quantity)).sum)
                d.currency notes passengers
                (addons.map (fun a =>
                  { addonId := a.addonId, quantity := a.quantity,
                    price := catalogPrice (tripAddons db d.tripId) a.addonId }))).1,
         { (createBookingRow db bookingCode userId departureId
                ((passengers.map (passengerPrice d)).sum + (addons.map (fun a =>
                  catalogPrice (tripAddons db d.tripId) a.addonId * a.quantity)).sum)
                d.currency notes passengers
                (addons.map (fun a =>
                  { addonId := a.addonId, quantity := a.quantity,
                    price := catalogPrice (tripAddons db d.tripId) a.addonId }))).2 with
           departures := db.departures.map (fun x => if x.id = departureId then
             { x with seatsReserved := x.seatsReserved + (passengers.length : Int),
                      status := if d.seatsReserved + (passengers.length : Int) ≥ d.capacity
                                then "FULL" else x.status } else x) })) := by
  cases hd : findDeparture db departureId with
  | none => exact Or.inl ⟨rfl, createBooking_no_departure _ _ _ _ _ _ _ hd⟩
  | some d =>
    right
    by_cases hs : d.status = "AVAILABLE"
    swap
    · exact Or.inl ⟨d, rfl, hs, createBooking_not_available _ _ _ _ _ _ _ d hd hs⟩
    right
    by_cases hc : d.capacity - d.seatsReserved < (passengers.length : Int)
    · exact Or.inl ⟨d, rfl, hs, hc, createBooking_no_seats _ _ _ _ _ _ _ d hd hs hc⟩
    right
    have hc' := not_lt.mp hc
    have hcost := addAddonCosts_eq (tripAddons db d.tripId) addons
      (addPassengerCosts d passengers 0) []
    cases hf : addons.find?
        (fun a => ((tripAddons db d.tripId).find? (fun c => c.id = a.addonId)).isNone) with
    | some a =>
      rw [hf] at hcost
      exact Or.inl ⟨d, a, rfl, hs, hc', hf, createBooking_addon_error _ _ _ _ _ _ _ d _ hd hs hc' hcost⟩
    | none =>
      have hp : addPassengerCosts d passengers 0 = (passengers.map (passengerPrice d)).sum := by
        rw [addPassengerCosts_eq, zero_add]
      rw [hf] at hcost
      simp only [List.nil_append] at hcost
      rw [show addPassengerCosts d passengers 0 + (addons.map (fun a =>
            catalogPrice (tripAddons db d.tripId) a.addonId * a.quantity)).sum
          = (passengers.map (passengerPrice d)).sum + (addons.map (fun a =>
            catalogPrice (tripAddons db d.tripId) a.addonId * a.quantity)).sum from by rw [hp]]
        at hcost
      exact Or.inr ⟨d, rfl, hs, hc', (find_isNone_eq_none_iff _ _).mp hf,
        createBooking_ok _ _ _ _ _ _ _ d _ _ hd hs hc' hcost⟩

/-! ## Auxiliary lemmas: `cancelBooking` -/

/-- The outcome of `cancelBooking` when every check passes and the departure row exists. -/
theorem cancelBooking_ok (db : Db) (id : Nat) (reason : Option String) (userId : Nat)
    (userRole : String) (b : Booking) (d : TripDeparture)
    (hb : findBooking db id = some b) (hd : findDeparture db b.departureId = some d)
    (hauth : ¬ (b.customerId ≠ userId ∧ ¬ ["ADMIN", "SUPER_ADMIN", "AGENT"].contains userRole))
    (hc : b.status ≠ "CANCELLED") (hco : b.status ≠ "COMPLETED") :
    cancelBooking db id reason userId userRole =
      (.ok (), { db with
        bookings := db.bookings.map (fun x => if x.id = id then
          { x with status := "CANCELLED",
                   cancellationReason := writeOptional reason x.cancellationReason } else x),
        departures := db.departures.map (fun x => if x.id = b.departureId then
          { x with seatsReserved := x.seatsReserved - ((bookingPassengers db id).length : Int),
                   status := "AVAILABLE" } else x) }) := by
  have hid : b.id = id := by simpa using List.find?_some hb
  have hd' : db.departures.find? (fun x => x.id = b.departureId) = some d := hd
  unfold cancelBooking
  simp only [hb]
  rw [if_neg hauth, if_neg hc, if_neg hco]
  simp [transaction, cancelBookingTx, updateBooking, hb, hid, updateDeparture, findDeparture, hd']

/-- Either `cancelBooking` leaves the store as it was, or every check passed and the
departure row exists. -/
theorem cancelBooking_cases (db : Db) (id : Nat) (reason : Option String) (userId : Nat)
    (userRole : String) :
    (cancelBooking db id reason userId userRole).2 = db ∨
    ∃ b d, findBooking db id = some b ∧ findDeparture db b.departureId = some d ∧
      ¬ (b.customerId ≠ userId ∧ ¬ ["ADMIN", "SUPER_ADMIN", "AGENT"].contains userRole) ∧
      b.status ≠ "CANCELLED" ∧ b.status ≠ "COMPLETED" := by
  cases hb : findBooking db id with
  | none => left; simp [cancelBooking, hb]
  | some b =>
    have hid : b.id = id := by simpa using List.find?_some hb
    by_cases hauth : b.customerId ≠ userId ∧ ¬ ["ADMIN", "SUPER_ADMIN", "AGENT"].contains userRole
    · left; unfold cancelBooking; simp only [hb]; rw [if_pos hauth]
    by_cases hc : b.status = "CANCELLED"
    · left; unfold cancelBooking; simp only [hb]; rw [if_neg hauth, if_pos hc]
    by_cases hco : b.status = "COMPLETED"
    · left; unfold cancelBooking; simp only [hb]; rw [if_neg hauth, if_neg hc, if_pos hco]
    cases hd : findDeparture db b.departureId with
    | none =>
      left
      unfold cancelBooking
      simp only [hb]
      rw [if_neg hauth, if_neg hc, if_neg hco]
      cases hr : (transaction (cancelBookingTx b (bookingPassengers db id).length reason) db).1 with
      | error e => exact transaction_snd_of_error _ _ e hr
      | ok u =>
        exfalso
        have hd' : db.departures.find? (fun x => x.id = b.departureId) = none := hd
        simp [transaction, cancelBookingTx, updateBooking, hb, hid, updateDeparture, findDeparture,
          hd'] at hr
    | some d => exact Or.inr ⟨b, d, rfl, hd, hauth, hc, hco⟩

/-! ## Auxiliary lemmas: seat accounting -/

/-- A created booking adds its passengers to the seats held on its departure, and to no
other. -/
theorem seatsHeld_create (db db' : Db) (b : Booking) (passengers : List PassengerInput)
    (hI : StorageIntegrity db)
    (hb : db'.bookings = db.bookings ++ [b])
    (hp : db'.passengers = db.passengers ++ passengerRows db.nextId passengers)
    (hid : b.id = db.nextId) (hs : b.status = "PENDING") (j : Nat) :
    seatsHeld db' j = seatsHeld db j + (if b.departureId = j then passengers.length else 0) := by
  have hold : ∀ x ∈ db.bookings, (bookingPassengers db' x.id).length
      = (bookingPassengers db x.id).length := by
    intro x hx
    have hlt := hI.keysIssued x hx
    simp only [bookingPassengers, hp, List.filter_append, List.length_append]
    have : (passengerRows db.nextId passengers).filter (fun p => p.bookingId = x.id) = [] := by
      rw [List.filter_eq_nil_iff]
      intro p hp'
      simp only [passengerRows, List.mem_map] at hp'
      obtain ⟨q, -, rfl⟩ := hp'
      simp only [decide_eq_true_eq]
      omega
    simp [this]
  have hnew : (bookingPassengers db' b.id).length = passengers.length := by
    simp only [bookingPassengers, hp, hid, List.filter_append, List.length_append,
      passengerRows_filter]
    have hnone : db.passengers.filter (fun p => p.bookingId = db.nextId) = [] := by
      rw [List.filter_eq_nil_iff]
      intro p hp'
      obtain ⟨b', hb', hid'⟩ := hI.passengerOwner p hp'
      have := hI.keysIssued b' hb'
      simp only [decide_eq_true_eq]
      omega
    simp [hnone, passengerRows]
  unfold seatsHeld
  rw [hb, List.filter_append, List.map_append, List.sum_append]
  congr 1
  · congr 1
    apply List.map_congr_left
    intro x hx
    exact hold x (List.mem_of_mem_filter hx)
  · by_cases hj : b.departureId = j
    · simp [List.filter, hj, hs, hnew]
    · simp [List.filter, hj]

/-- Marking one non-cancelled booking as cancelled removes its passengers from the seats
held on its departure. -/
theorem seatsHeld_cancel (bookings : List Booking) (cnt : Nat → Nat) (id j : Nat)
    (f : Booking → Booking)
    (hfdep : ∀ x, (f x).departureId = x.departureId)
    (hfs : ∀ x, (f x).status = "CANCELLED")
    (hnd : (bookings.map (fun b => b.id)).Nodup) (b : Booking) (hb : b ∈ bookings)
    (hid : b.id = id) (hs : b.status ≠ "CANCELLED") :
    ((bookings.filter (fun x => x.departureId = j ∧ x.status ≠ "CANCELLED")).map
        (fun x => cnt x.id)).sum
      = (((bookings.map (fun x => if x.id = id then f x else x)).filter
          (fun x => x.departureId = j ∧ x.status ≠ "CANCELLED")).map (fun x => cnt x.id)).sum
        + (if b.departureId = j then cnt id else 0) := by
  induction bookings with
  | nil => simp at hb
  | cons x xs ih =>
    simp only [List.map_cons, List.nodup_cons, List.mem_map, not_exists, not_and] at hnd
    rcases List.mem_cons.mp hb with rfl | hmem
    · have hxs : xs.map (fun x => if x.id = id then f x else x) = xs := by
        conv_rhs => rw [← List.map_id xs]
        apply List.map_congr_left
        intro y hy
        have := hnd.1 y hy
        simp only [id_eq]
        rw [if_neg]
        intro h
        exact this (h.trans hid.symm)
      simp only [List.map_cons, hid, if_true, hxs]
      by_cases hj : b.departureId = j
      · simp [List.filter, hj, hs, hfs, hfdep, hid]
        omega
      · simp [List.filter, hj, hfdep]
    · have hne : x.id ≠ id := by
        intro h
        exact hnd.1 b hmem (hid.trans h.symm)
      have := ih hnd.2 hmem
      simp only [List.map_cons, hne, if_false]
      by_cases hx : x.departureId = j ∧ x.status ≠ "CANCELLED"
      · simp only [List.filter, hx, decide_True, List.map_cons, List.sum_cons,
          ne_eq, not_false_eq_true, and_self] at this ⊢
        omega
      · simp only [List.filter, hx, decide_False] at this ⊢
        exact this

/-- The handler `createBooking` keeps storage integrity, seat accounting and seat bounds. -/
theorem createBooking_preserves (db : Db) (userId departureId : Nat)
    (passengers : List PassengerInput) (addons : List AddonInput) (notes : Option String)
    (bookingCode : String)
    (h : StorageIntegrity db ∧ SeatsAccounted db ∧ SeatsBounded db) :
    StorageIntegrity (createBooking db userId departureId passengers addons notes bookingCode).2 ∧
    SeatsAccounted (createBooking db userId departureId passengers addons notes bookingCode).2 ∧
    SeatsBounded (createBooking db userId departureId passengers addons notes bookingCode).2 := by
  obtain ⟨hI, hA, hB⟩ := h
  rcases createBooking_cases db userId departureId passengers addons notes bookingCode with
    ⟨-, h⟩ | ⟨_, -, -, h⟩ | ⟨_, -, -, -, h⟩ | ⟨_, _, -, -, -, -, h⟩ | ⟨d, hd, hs, hc, -, h⟩
  · rw [h]; exact ⟨hI, hA, hB⟩
  · rw [h]; exact ⟨hI, hA, hB⟩
  · rw [h]; exact ⟨hI, hA, hB⟩
  · rw [h]; exact ⟨hI, hA, hB⟩
  · rw [h]
    have hheld := fun j => seatsHeld_create db _ _ passengers hI
      (congrArg (fun r : Except JsError Booking × Db => r.2.bookings) h)
      (congrArg (fun r : Except JsError Booking × Db => r.2.passengers) h) rfl rfl j
    rw [h] at hheld
    simp only [createBookingRow] at hheld ⊢
    refine ⟨⟨?_, ?_, ?_, ?_, ?_, ?_⟩, ?_, ?_⟩
    · simp only [List.map_map]
      have : ((fun d : TripDeparture => d.id) ∘ fun x : TripDeparture =>
          if x.id = departureId then
            { x with seatsReserved := x.seatsReserved + (passengers.length : Int),
                     status := if d.seatsReserved + (passengers.length : Int) ≥ d.capacity
                               then "FULL" else x.status } else x)
          = fun d => d.id := by
        funext x
        by_cases hx : x.id = departureId <;> simp [hx]
      rw [this]
      exact hI.departureKeys
    · simp only [List.map_append, List.map_cons, List.map_nil]
      rw [List.nodup_append]
      refine ⟨hI.bookingKeys, by simp, ?_⟩
      intro a ha ha'
      simp only [List.mem_map] at ha
      obtain ⟨x, hx, rfl⟩ := ha
      have := hI.keysIssued x hx
      simp only [List.mem_singleton] at ha'
      omega
    · exact hI.paymentKeys
    · intro x hx
      simp only [List.mem_append, List.mem_singleton] at hx
      rcases hx with hx | rfl
      · have := hI.keysIssued x hx
        simp only
        omega
      · simp
    · intro p hp
      have := hI.paymentKeysIssued p hp
      simp only
      omega
    · intro p hp
      simp only [List.mem_append] at hp
      rcases hp with hp | hp
      · obtain ⟨b, hb, hid⟩ := hI.passengerOwner p hp
        exact ⟨b, List.mem_append_left _ hb, hid⟩
      · simp only [passengerRows, List.mem_map] at hp
        obtain ⟨q, -, rfl⟩ := hp
        exact ⟨_, List.mem_append_right _ (List.mem_singleton_self _), rfl⟩
    · intro x hx
      simp only [List.mem_map] at hx
      obtain ⟨y, hy, rfl⟩ := hx
      have hyA := hA y hy
      by_cases hid : y.id = departureId
      · simp only [hid, if_true]
        rw [hheld departureId]
        simp only [if_true]
        rw [← hid, hyA]
        push_cast
        rfl
      · simp only [hid, if_false]
        rw [hheld y.id, hyA]
        have : ¬ departureId = y.id := fun h' => hid h'.symm
        simp [this]
    · intro x hx
      simp only [List.mem_map] at hx
      obtain ⟨y, hy, rfl⟩ := hx
      have hyB := hB y hy
      by_cases hid : y.id = departureId
      · have hyd : y = d := eq_of_find_of_nodup db.departures departureId d y
          hI.departureKeys hd hy hid
        subst hyd
        simp only [hid, if_true]
        constructor
        · have := hyB.1
          omega
        · omega
      · simp only [hid, if_false]
        exact hyB

/-- Cancelling a non-cancelled booking and releasing its seats keeps storage integrity,
seat accounting and seat bounds. -/
theorem release_preserves (db db' : Db) (b : Booking) (id : Nat)
    (f : Booking → Booking) (g : TripDeparture → TripDeparture)
    (hbk : db'.bookings = db.bookings.map (fun x => if x.id = id then f x else x))
    (hdp : db'.departures = db.departures.map (fun x => if x.id = b.departureId then g x else x))
    (hps : db'.passengers = db.passengers) (hpay : db'.payments = db.payments)
    (hnx : db'.nextId = db.nextId)
    (hfid : ∀ x, (f x).id = x.id) (hfdep : ∀ x, (f x).departureId = x.departureId)
    (hfs : ∀ x, (f x).status = "CANCELLED")
    (hgid : ∀ x, (g x).id = x.id) (hgcap : ∀ x, (g x).capacity = x.capacity)
    (hgres : ∀ x, (g x).seatsReserved = x.seatsReserved - ((bookingPassengers db id).length : Int))
    (hb : findBooking db id = some b) (hc : b.status ≠ "CANCELLED")
    (h : StorageIntegrity db ∧ SeatsAccounted db ∧ SeatsBounded db) :
    StorageIntegrity db' ∧ SeatsAccounted db' ∧ SeatsBounded db' := by
  obtain ⟨hI, hA, hB⟩ := h
  have hbmem : b ∈ db.bookings := List.mem_of_find?_eq_some hb
  have hbid : b.id = id := by simpa using List.find?_some hb
  have hidmap : db'.bookings.map (fun b => b.id) = db.bookings.map (fun b => b.id) := by
    rw [hbk, List.map_map]
    apply List.map_congr_left
    intro x _
    by_cases hx : x.id = id <;> simp [hx, hfid]
  have hdmap : db'.departures.map (fun d => d.id) = db.departures.map (fun d => d.id) := by
    rw [hdp, List.map_map]
    apply List.map_congr_left
    intro x _
    by_cases hx : x.id = b.departureId <;> simp [hx, hgid]
  have hheld : ∀ j, seatsHeld db j = seatsHeld db' j
      + (if b.departureId = j then (bookingPassengers db id).length else 0) := by
    intro j
    have := seatsHeld_cancel db.bookings (fun i => (bookingPassengers db i).length) id j
      f hfdep hfs hI.bookingKeys b hbmem hbid hc
    unfold seatsHeld
    rw [hbk]
    simp only [bookingPassengers, hps] at this ⊢
    exact this
  have hacc : SeatsAccounted db' := by
    intro x hx
    rw [hdp] at hx
    simp only [List.mem_map] at hx
    obtain ⟨y, hy, rfl⟩ := hx
    have hyA := hA y hy
    have hh := hheld y.id
    by_cases hid : y.id = b.departureId
    · rw [if_pos hid.symm] at hh
      simp only [hid, if_true]
      rw [hgres, hgid, hyA, hh, hid]
      push_cast
      ring
    · rw [if_neg (fun h' => hid h'.symm)] at hh
      simp only [hid, if_false]
      rw [hyA, hh]
      rfl
  refine ⟨⟨?_, ?_, ?_, ?_, ?_, ?_⟩, hacc, ?_⟩
  · rw [hdmap]; exact hI.departureKeys
  · rw [hidmap]; exact hI.bookingKeys
  · rw [hpay]; exact hI.paymentKeys
  · intro x hx
    have hx' : x.id ∈ db'.bookings.map (fun b => b.id) := List.mem_map_of_mem _ hx
    rw [hidmap] at hx'
    simp only [List.mem_map] at hx'
    obtain ⟨y, hy, hyx⟩ := hx'
    have := hI.keysIssued y hy
    omega
  · intro p hp
    rw [hpay] at hp
    have := hI.paymentKeysIssued p hp
    omega
  · intro p hp
    rw [hps] at hp
    obtain ⟨b', hb', hid'⟩ := hI.passengerOwner p hp
    have hx' : b'.id ∈ db'.bookings.map (fun b => b.id) := by
      rw [hidmap]; exact List.mem_map_of_mem _ hb'
    simp only [List.mem_map] at hx'
    obtain ⟨y, hy, hyx⟩ := hx'
    exact ⟨y, hy, hyx.trans hid'⟩
  · intro x hx
    have hxA := hacc x hx
    rw [hdp] at hx
    simp only [List.mem_map] at hx
    obtain ⟨y, hy, rfl⟩ := hx
    have hyB := hB y hy
    constructor
    · rw [hxA]; exact Int.natCast_nonneg _
    · by_cases hid : y.id = b.departureId
      · simp only [hid, if_true]
        rw [hgres, hgcap]
        have := hyB.2
        omega
      · simp only [hid, if_false]
        exact hyB.2

/-- The handler `cancelBooking` keeps storage integrity, seat accounting and seat bounds. -/
theorem cancelBooking_preserves (db : Db) (id : Nat) (reason : Option String) (userId : Nat)
    (userRole : String)
    (h : StorageIntegrity db ∧ SeatsAccounted db ∧ SeatsBounded db) :
    StorageIntegrity (cancelBooking db id reason userId userRole).2 ∧
    SeatsAccounted (cancelBooking db id reason userId userRole).2 ∧
    SeatsBounded (cancelBooking db id reason userId userRole).2 := by
  rcases cancelBooking_cases db id reason userId userRole with
    hsame | ⟨b, d, hb, hd, hauth, hc, hco⟩
  · rw [hsame]; exact h
  · rw [cancelBooking_ok db id reason userId userRole b d hb hd hauth hc hco]
    exact release_preserves db _ b id _ _ rfl rfl rfl rfl rfl (fun _ => rfl) (fun _ => rfl)
      (fun _ => rfl) (fun _ => rfl) (fun _ => rfl) (fun _ => rfl) hb hc h

/-- Every sequence of requests keeps storage integrity, seat accounting and seat bounds. -/
theorem runOps_preserves (ops : List BookingOp) :
    ∀ db : Db, StorageIntegrity db ∧ SeatsAccounted db ∧ SeatsBounded db →
      StorageIntegrity (runOps db ops) ∧ SeatsAccounted (runOps db ops) ∧
      SeatsBounded (runOps db ops) := by
  induction ops with
  | nil => intro db h; exact h
  | cons op ops ih =>
    intro db h
    have hstep : StorageIntegrity (op.run db) ∧ SeatsAccounted (op.run db) ∧
        SeatsBounded (op.run db) := by
      cases op with
      | create userId departureId passengers addons notes bookingCode =>
        exact createBooking_preserves db userId departureId passengers addons notes bookingCode h
      | cancel id reason userId userRole =>
        exact cancelBooking_preserves db id reason userId userRole h
    exact ih (op.run db) hstep

/-! ## Auxiliary lemmas: `createPayment` -/

/-- The outcome of a CASH `createPayment` by an authorised caller within the remaining balance. -/
theorem createPayment_cash (db : Db) (userId : Nat) (userRole : String) (bookingId : Nat)
    (amount : Int) (reference : Option String) (now : Nat) (b : Booking)
    (hb : findBooking db bookingId = some b)
    (hauth : ¬ (b.customerId ≠ userId ∧
      ¬ ["ADMIN", "SUPER_ADMIN", "AGENT", "FINANCE"].contains userRole))
    (ha : amount ≤ b.totalAmount - b.paidAmount) :
    createPayment db userId userRole bookingId "CASH" amount reference now =
      (.ok (createPaymentRow db bookingId "CASH" amount reference now).1,
       { (createPaymentRow db bookingId "CASH" amount reference now).2 with
         bookings := db.bookings.map (fun x => if x.id = bookingId then
           { x with paidAmount := b.paidAmount + amount,
                    status := if b.paidAmount + amount ≥ b.totalAmount ∧ b.status = "PENDING"
                              then "CONFIRMED" else x.status } else x) }) := by
  have hb' : db.bookings.find? (fun x => x.id = bookingId) = some b := hb
  have ha' : ¬ (amount > b.totalAmount - b.paidAmount) := not_lt.mpr ha
  unfold createPayment
  simp only [hb]
  rw [if_neg hauth, if_neg ha']
  simp [createPaymentRow, updateBooking, findBooking, hb']

/-- The outcome of a non-CASH `createPayment` by an authorised caller within the remaining balance. -/
theorem createPayment_other (db : Db) (userId : Nat) (userRole : String) (bookingId : Nat)
    (method : String) (amount : Int) (reference : Option String) (now : Nat) (b : Booking)
    (hb : findBooking db bookingId = some b) (hm : method ≠ "CASH")
    (hauth : ¬ (b.customerId ≠ userId ∧
      ¬ ["ADMIN", "SUPER_ADMIN", "AGENT", "FINANCE"].contains userRole))
    (ha : amount ≤ b.totalAmount - b.paidAmount) :
    createPayment db userId userRole bookingId method amount reference now =
      (.ok (createPaymentRow db bookingId method amount reference now).1,
       (createPaymentRow db bookingId method amount reference now).2) := by
  have ha' : ¬ (amount > b.totalAmount - b.paidAmount) := not_lt.mpr ha
  unfold createPayment
  simp only [hb]
  rw [if_neg hauth, if_neg ha']
  simp [createPaymentRow, hm]

/-- A `createPayment` refused for authorisation or amount fails and leaves the store as
it was. -/
theorem createPayment_error_snd (db : Db) (userId : Nat) (userRole : String) (bookingId : Nat)
    (method : String) (amount : Int) (reference : Option String) (now : Nat) (b : Booking)
    (hb : findBooking db bookingId = some b)
    (h : b.customerId ≠ userId ∧ ¬ ["ADMIN", "SUPER_ADMIN", "AGENT", "FINANCE"].contains userRole
      ∨ amount > b.totalAmount - b.paidAmount) :
    (∃ e, (createPayment db userId userRole bookingId method amount reference now).1 = .error e) ∧
    (createPayment db userId userRole bookingId method amount reference now).2 = db := by
  unfold createPayment
  simp only [hb]
  by_cases hauth : b.customerId ≠ userId ∧
      ¬ ["ADMIN", "SUPER_ADMIN", "AGENT", "FINANCE"].contains userRole
  · rw [if_pos hauth]; exact ⟨⟨_, rfl⟩, rfl⟩
  · rw [if_neg hauth]
    have ha : amount > b.totalAmount - b.paidAmount := h.resolve_left hauth
    rw [if_pos ha]; exact ⟨⟨_, rfl⟩, rfl⟩

/-! ## The booking claims -/

/-- Claim C1. Start from a store that satisfies the storage constraints, in which
every departure has `0 ≤ seatsReserved ≤ capacity` and `seatsReserved` accounts
exactly for the passengers of its non-cancelled bookings. After every finite
sequence of `createBooking` and `cancelBooking` requests executed one after the
other, successful or failing, every departure still has
`0 ≤ seatsReserved ≤ capacity`. The bound holds for bookings of any size, in
particular for those with at least one passenger. -/
theorem seatsReserved_within_capacity_after_ops (db : Db) (ops : List BookingOp)
    (hI : StorageIntegrity db) (hA : SeatsAccounted db) (hB : SeatsBounded db) :
    ∀ d ∈ (runOps db ops).departures, 0 ≤ d.seatsReserved ∧ d.seatsReserved ≤ d.capacity :=
  (runOps_preserves ops db ⟨hI, hA, hB⟩).2.2

/-- Claim C1, witness: the theorem applied to the sample store. -/
theorem seatsReserved_within_capacity_after_ops_witness :
    SeatsAccounted sampleDb ∧ SeatsBounded sampleDb ∧
    ∀ d ∈ (runOps sampleDb sampleOps).departures, 0 ≤ d.seatsReserved ∧ d.seatsReserved ≤ d.capacity :=
  ⟨by decide, by decide,
   seatsReserved_within_capacity_after_ops sampleDb sampleOps ⟨by decide, by decide, by decide, by decide, by decide, by decide⟩
    (by decide) (by decide)⟩

/-- Claim C2, counterexample. The only departure is full (`capacity = 2`,
`seatsReserved = 2`, status FULL) and one passenger is requested, so
`passengers.length > capacity - seatsReserved`; `createBooking` fails with the
error of the status check, not with the capacity error. -/
theorem createBooking_full_departure_not_capacity_error :
    findDeparture fullDb 1 = some fullDeparture ∧
    ([adult].length : Int) > fullDeparture.capacity - fullDeparture.seatsReserved ∧
    (createBooking fullDb 9 1 [adult] [] none "BK1").1 =
      .error (AppError "This departure is not available for booking" 400) ∧
    (createBooking fullDb 9 1 [adult] [] none "BK1").1 ≠
      .error (AppError ("Only " ++ toString ((2 : Int) - 2) ++ " seats available") 400) := by
  decide

/-- Claim C2, amended. For every existing departure and every passenger list with
`passengers.length > capacity - seatsReserved`, `createBooking` fails with HTTP
status 400 and leaves the store, hence the departure and its `seatsReserved`,
unchanged. The error is the capacity error `Only N seats available` when the
departure is AVAILABLE, and the error of the status check otherwise. -/
theorem createBooking_over_capacity (db : Db) (userId departureId : Nat)
    (passengers : List PassengerInput) (addons : List AddonInput) (notes : Option String)
    (bookingCode : String) (d : TripDeparture) (hd : findDeparture db departureId = some d)
    (hn : (passengers.length : Int) > d.capacity - d.seatsReserved) :
    (createBooking db userId departureId passengers addons notes bookingCode).1 =
      .error (if d.status = "AVAILABLE"
        then AppError ("Only " ++ toString (d.capacity - d.seatsReserved) ++ " seats available") 400
        else AppError "This departure is not available for booking" 400) ∧
    (createBooking db userId departureId passengers addons notes bookingCode).2 = db ∧
    findDeparture (createBooking db userId departureId passengers addons notes bookingCode).2
      departureId = some d := by
  by_cases hs : d.status = "AVAILABLE"
  · rw [createBooking_no_seats _ _ _ _ _ _ _ d hd hs hn]
    simp [hs, hd]
  · rw [createBooking_not_available _ _ _ _ _ _ _ d hd hs]
    simp [hs, hd]

/-- Claim C2, witness: the theorem applied to the sample store. -/
theorem createBooking_over_capacity_witness :
    (createBooking sampleDb 9 1 [adult, adult, child] [] none "BKA").1 =
      .error (AppError "Only 2 seats available" 400) ∧
    (createBooking sampleDb 9 1 [adult, adult, child] [] none "BKA").2 = sampleDb ∧
    findDeparture (createBooking sampleDb 9 1 [adult, adult, child] [] none "BKA").2 1
      = some sampleDeparture :=
  createBooking_over_capacity sampleDb 9 1 [adult, adult, child] [] none "BKA" sampleDeparture (by decide) (by decide)

/-- Claim C3. `createBooking` is all-or-nothing: on every input on which it fails
the store it leaves behind is the store it started from, so no booking,
passenger or addon row is added and no departure changes. The body of its
transaction has itself written nothing when it throws: every check precedes
the first write. -/
theorem createBooking_all_or_nothing (db : Db) (userId departureId : Nat)
    (passengers : List PassengerInput) (addons : List AddonInput) (notes : Option String)
    (bookingCode : String) (e : JsError)
    (h : (createBooking db userId departureId passengers addons notes bookingCode).1 = .error e) :
    (createBooking db userId departureId passengers addons notes bookingCode).2 = db ∧
    (createBookingTx userId departureId passengers addons notes bookingCode db).2 = db :=
  ⟨transaction_snd_of_error _ db e h,
   createBookingTx_error_snd db userId departureId passengers addons notes bookingCode e
     ((transaction_fst _ db).symm.trans h)⟩

/-- Claim C3, witness: the theorem applied to the sample store. -/
theorem createBooking_all_or_nothing_witness :
    (createBooking sampleDb 9 1 [adult] [{ addonId := 6, quantity := 1 }] none "BKA").2
      = sampleDb ∧
    (createBookingTx 9 1 [adult] [{ addonId := 6, quantity := 1 }] none "BKA" sampleDb).2
      = sampleDb :=
  createBooking_all_or_nothing sampleDb 9 1 [adult] [{ addonId := 6, quantity := 1 }] none "BKA"
    (AppError "Addon 6 not found" 404) (by decide)

/-- Claim C5. After a successful `createBooking` with `n` passengers on a departure
with `seatsReserved = r` and `capacity = c`, the departure has
`seatsReserved = r + n`, its status is FULL if `r + n ≥ c` and is otherwise
what it was, namely AVAILABLE; the new booking is stored with status PENDING and
exactly `n` passenger rows belong to it. -/
theorem createBooking_effects (db : Db) (userId departureId : Nat)
    (passengers : List PassengerInput) (addons : List AddonInput) (notes : Option String)
    (bookingCode : String) (d : TripDeparture) (b : Booking)
    (hI : StorageIntegrity db)
    (hd : findDeparture db departureId = some d)
    (hok : (createBooking db userId departureId passengers addons notes bookingCode).1 = .ok b) :
    findDeparture (createBooking db userId departureId passengers addons notes bookingCode).2
        departureId =
      some { d with seatsReserved := d.seatsReserved + (passengers.length : Int),
                    status := if d.seatsReserved + (passengers.length : Int) ≥ d.capacity
                              then "FULL" else d.status }
    ∧ d.status = "AVAILABLE"
    ∧ b.status = "PENDING"
    ∧ findBooking (createBooking db userId departureId passengers addons notes bookingCode).2 b.id
        = some b
    ∧ (bookingPassengers (createBooking db userId departureId passengers addons notes bookingCode).2
        b.id).length = passengers.length := by
  rcases createBooking_cases db userId departureId passengers addons notes bookingCode with
    ⟨-, h⟩ | ⟨_, -, -, h⟩ | ⟨_, -, -, -, h⟩ | ⟨_, _, -, -, -, -, h⟩ | ⟨d', hd', hs, -, -, h⟩
  · rw [h] at hok; simp at hok
  · rw [h] at hok; simp at hok
  · rw [h] at hok; simp at hok
  · rw [h] at hok; simp at hok
  · rw [hd] at hd'
    cases hd'
    rw [h] at hok ⊢
    simp only [Except.ok.injEq] at hok
    subst hok
    refine ⟨?_, hs, rfl, ?_, ?_⟩
    · exact find_map_update (fun x : TripDeparture => x.id)
        (fun x => { x with seatsReserved := x.seatsReserved + (passengers.length : Int),
                           status := if d.seatsReserved + (passengers.length : Int) ≥ d.capacity
                                     then "FULL" else x.status })
        departureId (fun _ => rfl) db.departures d hd
    · simp only [findBooking, createBookingRow]
      apply find_append_fresh
      · intro x hx
        have := hI.keysIssued x hx
        simp only [decide_eq_false_iff_not]
        omega
      · simp
    · simp only [bookingPassengers, createBookingRow, List.filter_append, List.length_append,
        passengerRows_filter]
      have hnone : db.passengers.filter (fun p => p.bookingId = db.nextId) = [] := by
        rw [List.filter_eq_nil_iff]
        intro p hp
        obtain ⟨b', hb', hid⟩ := hI.passengerOwner p hp
        have := hI.keysIssued b' hb'
        simp only [decide_eq_true_eq]
        omega
      simp [hnone, passengerRows]

/-- Claim C5, witness: the theorem applied to the sample store. -/
theorem createBooking_effects_witness :
    findDeparture
        (createBooking sampleDb 9 1 [adult, adult] [{ addonId := 5, quantity := 2 }] none "BKA").2 1
      = some { sampleDeparture with seatsReserved := 2, status := "FULL" }
    ∧ sampleDeparture.status = "AVAILABLE"
    ∧ quotedBooking.status = "PENDING"
    ∧ findBooking
        (createBooking sampleDb 9 1 [adult, adult] [{ addonId := 5, quantity := 2 }] none "BKA").2
        100 = some quotedBooking
    ∧ (bookingPassengers
        (createBooking sampleDb 9 1 [adult, adult] [{ addonId := 5, quantity := 2 }] none "BKA").2
        100).length = 2 :=
  createBooking_effects sampleDb 9 1 [adult, adult] [{ addonId := 5, quantity := 2 }] none "BKA"
    sampleDeparture quotedBooking
    ⟨by decide, by decide, by decide, by decide, by decide, by decide⟩ (by decide) (by decide)

/-- Claim C6. `createBooking` succeeds if and only if the departure exists, its
status is AVAILABLE, `capacity - seatsReserved ≥ passengers.length` and every
requested addon id is in the catalog of the departure's trip. Otherwise it
fails with the first applicable error: 404 for a missing departure, 400 for a
departure that is not AVAILABLE, 400 with the number of seats left when there
are too few, 404 naming the first requested addon that is not in the catalog. -/
theorem createBooking_succeeds_iff (db : Db) (userId departureId : Nat)
    (passengers : List PassengerInput) (addons : List AddonInput) (notes : Option String)
    (bookingCode : String) :
    ((∃ b, (createBooking db userId departureId passengers addons notes bookingCode).1 = .ok b) ↔
      ∃ d, findDeparture db departureId = some d ∧ d.status = "AVAILABLE" ∧
        d.capacity - d.seatsReserved ≥ (passengers.length : Int) ∧
        ∀ a ∈ addons, ∃ c ∈ tripAddons db d.tripId, c.id = a.addonId)
    ∧ (findDeparture db departureId = none →
        (createBooking db userId departureId passengers addons notes bookingCode).1 =
          .error (AppError "Departure not found" 404))
    ∧ (∀ d, findDeparture db departureId = some d → d.status ≠ "AVAILABLE" →
        (createBooking db userId departureId passengers addons notes bookingCode).1 =
          .error (AppError "This departure is not available for booking" 400))
    ∧ (∀ d, findDeparture db departureId = some d → d.status = "AVAILABLE" →
        d.capacity - d.seatsReserved < (passengers.length : Int) →
        (createBooking db userId departureId passengers addons notes bookingCode).1 =
          .error (AppError ("Only " ++ toString (d.capacity - d.seatsReserved)
            ++ " seats available") 400))
    ∧ (∀ d, findDeparture db departureId = some d → d.status = "AVAILABLE" →
        d.capacity - d.seatsReserved ≥ (passengers.length : Int) →
        ∀ a, addons.find? (fun a => decide (∀ c ∈ tripAddons db d.tripId, c.id ≠ a.addonId))
            = some a →
        (createBooking db userId departureId passengers addons notes bookingCode).1 =
          .error (AppError ("Addon " ++ toString a.addonId ++ " not found") 404)) := by
  refine ⟨?_, ?_, ?_, ?_, ?_⟩
  · constructor
    · rintro ⟨b, hok⟩
      rcases createBooking_cases db userId departureId passengers addons notes bookingCode with
        ⟨-, h⟩ | ⟨_, -, -, h⟩ | ⟨_, -, -, -, h⟩ | ⟨_, _, -, -, -, -, h⟩ | ⟨d, hd, hs, hc, ha, -⟩
      · rw [h] at hok; simp at hok
      · rw [h] at hok; simp at hok
      · rw [h] at hok; simp at hok
      · rw [h] at hok; simp at hok
      · exact ⟨d, hd, hs, hc, ha⟩
    · rintro ⟨d, hd, hs, hc, ha⟩
      have hcost := addAddonCosts_eq (tripAddons db d.tripId) addons
        (addPassengerCosts d passengers 0) []
      rw [(find_isNone_eq_none_iff _ _).mpr ha] at hcost
      rw [createBooking_ok _ _ _ _ _ _ _ d _ _ hd hs hc hcost]
      exact ⟨_, rfl⟩
  · intro hd
    rw [createBooking_no_departure _ _ _ _ _ _ _ hd]
  · intro d hd hs
    rw [createBooking_not_available _ _ _ _ _ _ _ d hd hs]
  · intro d hd hs hc
    rw [createBooking_no_seats _ _ _ _ _ _ _ d hd hs hc]
  · intro d hd hs hc a ha
    have hpred : (fun a : AddonInput => decide (∀ c ∈ tripAddons db d.tripId, c.id ≠ a.addonId))
        = (fun a => ((tripAddons db d.tripId).find? (fun c => c.id = a.addonId)).isNone) := by
      funext a
      rw [Bool.eq_iff_iff]
      simp [List.find?_eq_none]
    rw [hpred] at ha
    have hcost := addAddonCosts_eq (tripAddons db d.tripId) addons
      (addPassengerCosts d passengers 0) []
    rw [ha] at hcost
    rw [createBooking_addon_error _ _ _ _ _ _ _ d _ hd hs hc hcost]

/-- Claim C6, witness: the theorem applied to the sample store. -/
theorem createBooking_succeeds_iff_witness :
    (createBooking sampleDb 9 2 [adult] [] none "BKA").1 =
      .error (AppError "Departure not found" 404)
    ∧ (createBooking fullDb 9 1 [adult] [{ addonId := 6, quantity := 1 }] none "BKA").1 =
      .error (AppError "This departure is not available for booking" 400)
    ∧ (createBooking sampleDb 9 1 [adult, adult, child] [{ addonId := 6, quantity := 1 }] none
        "BKA").1 = .error (AppError "Only 2 seats available" 400)
    ∧ (createBooking sampleDb 9 1 [adult] [{ addonId := 5, quantity := 1 },
        { addonId := 6, quantity := 1 }] none "BKA").1 =
      .error (AppError "Addon 6 not found" 404)
    ∧ ∃ b, (createBooking sampleDb 9 1 [adult] [{ addonId := 5, quantity := 1 }] none "BKA").1
        = .ok b :=
  ⟨(createBooking_succeeds_iff sampleDb 9 2 [adult] [] none "BKA").2.1 (by decide),
   (createBooking_succeeds_iff fullDb 9 1 [adult] [{ addonId := 6, quantity := 1 }] none "BKA").2.2.1 fullDeparture
     (by decide) (by decide),
   (createBooking_succeeds_iff sampleDb 9 1 [adult, adult, child] [{ addonId := 6, quantity := 1 }] none "BKA").2.2.2.1
     sampleDeparture (by decide) (by decide) (by decide),
   (createBooking_succeeds_iff sampleDb 9 1 [adult] [{ addonId := 5, quantity := 1 }, { addonId := 6, quantity := 1 }]
     none "BKA").2.2.2.2 sampleDeparture (by decide) (by decide) (by decide)
     { addonId := 6, quantity := 1 } (by decide),
   (createBooking_succeeds_iff sampleDb 9 1 [adult] [{ addonId := 5, quantity := 1 }] none "BKA").1.mpr
     ⟨sampleDeparture, by decide, by decide, by decide, by decide⟩⟩

/-- Claim C7. For a booking with `k` passengers whose status is PENDING or
CONFIRMED and a caller who is its customer or has role ADMIN, SUPER_ADMIN or
AGENT, `cancelBooking` succeeds, sets the status of the booking to CANCELLED
and stores the reason given (a request without a reason keeps the stored one),
and lowers `seatsReserved` of the departure by exactly `k`. A second
`cancelBooking` on the same booking fails with `Booking already cancelled`
(400) and changes nothing. -/
theorem cancelBooking_releases_seats (db : Db) (id : Nat) (reason : Option String) (userId : Nat)
    (userRole : String) (b : Booking) (d : TripDeparture) (k : Nat)
    (hb : findBooking db id = some b) (hd : findDeparture db b.departureId = some d)
    (hk : (bookingPassengers db id).length = k)
    (hs : b.status = "PENDING" ∨ b.status = "CONFIRMED")
    (hauth : b.customerId = userId ∨ userRole = "ADMIN" ∨ userRole = "SUPER_ADMIN"
      ∨ userRole = "AGENT") :
    (cancelBooking db id reason userId userRole).1 = .ok ()
    ∧ findBooking (cancelBooking db id reason userId userRole).2 id =
        some { b with status := "CANCELLED",
                      cancellationReason := writeOptional reason b.cancellationReason }
    ∧ findDeparture (cancelBooking db id reason userId userRole).2 b.departureId =
        some { d with seatsReserved := d.seatsReserved - (k : Int), status := "AVAILABLE" }
    ∧ ∀ reason2 : Option String,
        cancelBooking (cancelBooking db id reason userId userRole).2 id reason2 userId userRole =
          (.error (AppError "Booking already cancelled" 400),
           (cancelBooking db id reason userId userRole).2) := by
  have hauth' : ¬ (b.customerId ≠ userId ∧
      ¬ ["ADMIN", "SUPER_ADMIN", "AGENT"].contains userRole) := by
    rcases hauth with h | h | h | h <;> simp [h]
  have hc : b.status ≠ "CANCELLED" := by rcases hs with h | h <;> rw [h] <;> decide
  have hco : b.status ≠ "COMPLETED" := by rcases hs with h | h <;> rw [h] <;> decide
  have hres := cancelBooking_ok db id reason userId userRole b d hb hd hauth' hc hco
  have hfb : findBooking (cancelBooking db id reason userId userRole).2 id =
        some { b with status := "CANCELLED",
                      cancellationReason := writeOptional reason b.cancellationReason } := by
    rw [hres]
    exact find_map_update (fun x : Booking => x.id)
      (fun x => { x with status := "CANCELLED",
                         cancellationReason := writeOptional reason x.cancellationReason })
      id (fun _ => rfl) db.bookings b hb
  refine ⟨by rw [hres], hfb, ?_, ?_⟩
  · rw [hres, ← hk]
    exact find_map_update (fun x : TripDeparture => x.id)
      (fun x => { x with seatsReserved := x.seatsReserved - ((bookingPassengers db id).length : Int),
                         status := "AVAILABLE" })
      b.departureId (fun _ => rfl) db.departures d hd
  · intro reason2
    generalize (cancelBooking db id reason userId userRole).2 = db' at hfb
    unfold cancelBooking
    simp only [hfb]
    rw [if_neg hauth']
    simp

/-- Claim C7, witness: the theorem applied to the sample store. -/
theorem cancelBooking_releases_seats_witness :
    (cancelBooking confirmedDb 100 (some "changed plans") 9 "CUSTOMER").1 = .ok ()
    ∧ findBooking (cancelBooking confirmedDb 100 (some "changed plans") 9 "CUSTOMER").2 100 =
        some { confirmedBooking with status := "CANCELLED",
                                     cancellationReason := some "changed plans" }
    ∧ findDeparture (cancelBooking confirmedDb 100 (some "changed plans") 9 "CUSTOMER").2 1 =
        some { bookedDeparture with seatsReserved := 2 - 2, status := "AVAILABLE" }
    ∧ ∀ reason2 : Option String,
        cancelBooking (cancelBooking confirmedDb 100 (some "changed plans") 9 "CUSTOMER").2 100
            reason2 9 "CUSTOMER" =
          (.error (AppError "Booking already cancelled" 400),
           (cancelBooking confirmedDb 100 (some "changed plans") 9 "CUSTOMER").2) :=
  cancelBooking_releases_seats confirmedDb 100 (some "changed plans") 9 "CUSTOMER" confirmedBooking bookedDeparture 2
    (by decide) (by decide) (by decide) (Or.inr rfl) (Or.inl rfl)

/-! ## The payment claims -/

/-- Claim C8. For a PENDING booking with `paidAmount = 0` and a caller who is its
customer or has role ADMIN, SUPER_ADMIN, AGENT or FINANCE, `createPayment` with
method CASH and `amount = totalAmount` stores a payment with status PAID and
`paidAt` set to the current time, and leaves the booking with
`paidAmount = totalAmount` and status CONFIRMED. -/
theorem createPayment_cash_full_amount (db : Db) (userId : Nat) (userRole : String) (bookingId : Nat)
    (reference : Option String) (now : Nat) (b : Booking)
    (hb : findBooking db bookingId = some b)
    (hs : b.status = "PENDING") (hp : b.paidAmount = 0)
    (hauth : b.customerId = userId ∨ userRole = "ADMIN" ∨ userRole = "SUPER_ADMIN"
      ∨ userRole = "AGENT" ∨ userRole = "FINANCE") :
    ∃ payment,
      (createPayment db userId userRole bookingId "CASH" b.totalAmount reference now).1
        = .ok payment
      ∧ payment ∈
        (createPayment db userId userRole bookingId "CASH" b.totalAmount reference now).2.payments
      ∧ payment.bookingId = bookingId ∧ payment.method = "CASH"
      ∧ payment.amount = b.totalAmount
      ∧ payment.status = "PAID" ∧ payment.paidAt = some now
      ∧ findBooking
          (createPayment db userId userRole bookingId "CASH" b.totalAmount reference now).2
          bookingId = some { b with paidAmount := b.totalAmount, status := "CONFIRMED" } := by
  have hauth' : ¬ (b.customerId ≠ userId ∧
      ¬ ["ADMIN", "SUPER_ADMIN", "AGENT", "FINANCE"].contains userRole) := by
    rcases hauth with h | h | h | h | h <;> simp [h]
  have ha : b.totalAmount ≤ b.totalAmount - b.paidAmount := by rw [hp]; simp
  rw [createPayment_cash db userId userRole bookingId b.totalAmount reference now b hb hauth' ha]
  refine ⟨_, rfl, ?_, rfl, rfl, rfl, ?_, ?_, ?_⟩
  · simp [createPaymentRow]
  · simp [createPaymentRow]
  · simp [createPaymentRow]
  · have := find_map_update (fun x : Booking => x.id)
      (fun x => { x with paidAmount := b.paidAmount + b.totalAmount,
                         status := if b.paidAmount + b.totalAmount ≥ b.totalAmount
                                      ∧ b.status = "PENDING"
                                   then "CONFIRMED" else x.status })
      bookingId (fun _ => rfl) db.bookings b hb
    simp only [findBooking]
    rw [this]
    simp [hp, hs]

/-- Claim C8, witness: the theorem applied to the sample store. -/
theorem createPayment_cash_full_amount_witness :
    ∃ payment,
      (createPayment pendingDb 9 "CUSTOMER" 100 "CASH" 2500 none 55).1 = .ok payment
      ∧ payment ∈ (createPayment pendingDb 9 "CUSTOMER" 100 "CASH" 2500 none 55).2.payments
      ∧ payment.bookingId = 100 ∧ payment.method = "CASH"
      ∧ payment.amount = 2500
      ∧ payment.status = "PAID" ∧ payment.paidAt = some 55
      ∧ findBooking (createPayment pendingDb 9 "CUSTOMER" 100 "CASH" 2500 none 55).2 100
          = some confirmedBooking :=
  createPayment_cash_full_amount pendingDb 9 "CUSTOMER" 100 none 55 pendingBooking (by decide) (by decide) (by decide)
    (Or.inl rfl)

/-! ## Auxiliary lemmas: payments, authorisation, tokens -/

/-- The outcome of `confirmPayment` on a payment that is not PAID and whose booking exists. -/
theorem confirmPayment_ok (db : Db) (id now : Nat) (p : Payment) (b : Booking)
    (hp : findPayment db id = some p) (hs : p.status ≠ "PAID")
    (hb : findBooking db p.bookingId = some b) :
    confirmPayment db id now =
      (.ok (some { p with status := "PAID", paidAt := some now }),
       { db with
         payments := db.payments.map (fun x => if x.id = id then
           { x with status := "PAID", paidAt := some now } else x),
         bookings := db.bookings.map (fun x => if x.id = p.bookingId then
           { x with paidAmount := b.paidAmount + p.amount,
                    status := if b.paidAmount + p.amount ≥ b.totalAmount ∧ b.status = "PENDING"
                              then "CONFIRMED" else x.status } else x) }) := by
  have hid : p.id = id := by simpa using List.find?_some hp
  have hp' : db.payments.find? (fun x => x.id = id) = some p := hp
  have hb' : db.bookings.find? (fun x => x.id = p.bookingId) = some b := hb
  have hfp := find_map_update (fun x : Payment => x.id)
    (fun x => { x with status := "PAID", paidAt := some now }) id (fun _ => rfl) db.payments p hp'
  unfold confirmPayment
  simp only [hp]
  rw [if_neg hs]
  simp only [hb, transaction, confirmPaymentTx, updatePayment, findPayment, hid, hp',
    updateBooking, findBooking, hb', hfp]

/-- For an existing booking, `cancelBooking` answers `Access denied` exactly when the
caller is neither the customer of the booking nor ADMIN, SUPER_ADMIN or AGENT. -/
theorem cancelBooking_denied_iff (db : Db) (id : Nat) (reason : Option String) (userId : Nat)
    (userRole : String) (b : Booking) (hb : findBooking db id = some b) :
    (cancelBooking db id reason userId userRole).1 = .error (AppError "Access denied" 403) ↔
      (b.customerId ≠ userId ∧ userRole ≠ "ADMIN" ∧ userRole ≠ "SUPER_ADMIN"
        ∧ userRole ≠ "AGENT") := by
  have hid : b.id = id := by simpa using List.find?_some hb
  have hlist : (b.customerId ≠ userId ∧ ¬ ["ADMIN", "SUPER_ADMIN", "AGENT"].contains userRole)
      ↔ (b.customerId ≠ userId ∧ userRole ≠ "ADMIN" ∧ userRole ≠ "SUPER_ADMIN"
        ∧ userRole ≠ "AGENT") := by simp
  rw [← hlist]
  unfold cancelBooking
  simp only [hb]
  by_cases hauth : b.customerId ≠ userId ∧ ¬ ["ADMIN", "SUPER_ADMIN", "AGENT"].contains userRole
  · rw [if_pos hauth]; exact ⟨fun _ => hauth, fun _ => rfl⟩
  · rw [if_neg hauth]
    simp only [hauth, iff_false]
    by_cases hc : b.status = "CANCELLED"
    · rw [if_pos hc]; simp [AppError]
    rw [if_neg hc]
    by_cases hco : b.status = "COMPLETED"
    · rw [if_pos hco]; simp [AppError]
    rw [if_neg hco]
    cases hd : db.departures.find? (fun x => x.id = b.departureId) with
    | none =>
      simp [transaction, cancelBookingTx, updateBooking, hb, hid, updateDeparture,
        findDeparture, hd, recordNotFound, AppError]
    | some d =>
      simp [transaction, cancelBookingTx, updateBooking, hb, hid, updateDeparture,
        findDeparture, hd]

/-- For an existing booking, `createPayment` answers `Access denied` exactly when the
caller is neither the customer of the booking nor ADMIN, SUPER_ADMIN, AGENT or FINANCE. -/
theorem createPayment_denied_iff (db : Db) (userId : Nat) (userRole : String) (bookingId : Nat)
    (method : String) (amount : Int) (reference : Option String) (now : Nat) (b : Booking)
    (hb : findBooking db bookingId = some b) :
    (createPayment db userId userRole bookingId method amount reference now).1
        = .error (AppError "Access denied" 403) ↔
      (b.customerId ≠ userId ∧ userRole ≠ "ADMIN" ∧ userRole ≠ "SUPER_ADMIN"
        ∧ userRole ≠ "AGENT" ∧ userRole ≠ "FINANCE") := by
  have hb' : db.bookings.find? (fun x => x.id = bookingId) = some b := hb
  have hlist : (b.customerId ≠ userId ∧
      ¬ ["ADMIN", "SUPER_ADMIN", "AGENT", "FINANCE"].contains userRole)
      ↔ (b.customerId ≠ userId ∧ userRole ≠ "ADMIN" ∧ userRole ≠ "SUPER_ADMIN"
        ∧ userRole ≠ "AGENT" ∧ userRole ≠ "FINANCE") := by simp
  rw [← hlist]
  unfold createPayment
  simp only [hb]
  by_cases hauth : b.customerId ≠ userId ∧
      ¬ ["ADMIN", "SUPER_ADMIN", "AGENT", "FINANCE"].contains userRole
  · rw [if_pos hauth]; exact ⟨fun _ => hauth, fun _ => rfl⟩
  · rw [if_neg hauth]
    simp only [hauth, iff_false]
    by_cases ha : amount > b.totalAmount - b.paidAmount
    · rw [if_pos ha]; simp [AppError]
    rw [if_neg ha]
    by_cases hm : method = "CASH"
    · simp [createPaymentRow, hm, updateBooking, findBooking, hb']
    · simp [createPaymentRow, hm]

/-- A lookup by token hash after revoking rows by key: the row found is the row found
before, revoked if it has the key. -/
theorem findRefreshToken_map_revoke (rows : List RefreshToken) (tokenHash : String) (id now : Nat) :
    (rows.map (fun t => if t.id = id then { t with revokedAt := some now } else t)).find?
        (fun t => t.tokenHash = tokenHash)
      = (rows.find? (fun t => t.tokenHash = tokenHash)).map
          (fun t => if t.id = id then { t with revokedAt := some now } else t) := by
  induction rows with
  | nil => rfl
  | cons x xs ih =>
    by_cases hx : x.tokenHash = tokenHash
    · by_cases hid : x.id = id <;> simp [List.find?, hx, hid]
    · by_cases hid : x.id = id <;> simp [List.find?, hx, hid, ih]

/-! ## The confirmation and rotation claims -/

/-- Claim C12. After a successful `refresh` of a stored token, the row of the token
has `revokedAt` set and an unrevoked row holds the hash of the newly issued
refresh token. A later `refresh` with the same token writes nothing and issues
nothing. As long as the token still verifies it is refused with
`Token has been revoked` (401); once the token has reached its own expiry it is
`verifyRefreshToken` that throws, a plain `Error` without `statusCode`, which the
error middleware answers with status 500. -/
theorem refresh_rotation_and_replay (env : AuthEnv) (db : AuthDb) (token : Jwt) (now later : Nat)
    (row : RefreshToken) (pair : TokenPair)
    (hrow : findRefreshToken db (env.hashToken token) = some row)
    (hok : (refresh env db token now).1 = .ok pair) :
    findRefreshToken (refresh env db token now).2 (env.hashToken token)
        = some { row with revokedAt := some now }
    ∧ (∃ t ∈ (refresh env db token now).2.refreshTokens,
        t.tokenHash = env.hashToken pair.refreshToken ∧ t.revokedAt = none)
    ∧ (jwtVerify token env.jwtRefreshSecret later = true →
        refresh env (refresh env db token now).2 token later =
          (.error (AppError "Token has been revoked" 401), (refresh env db token now).2))
    ∧ (jwtVerify token env.jwtRefreshSecret later = false →
        refresh env (refresh env db token now).2 token later =
          (.error (plainError "Invalid or expired refresh token"),
           (refresh env db token now).2)) := by
  have hrow' : db.refreshTokens.find? (fun t => t.tokenHash = env.hashToken token) = some row :=
    hrow
  have hmem : row ∈ db.refreshTokens := List.mem_of_find?_eq_some hrow'
  have hidfind : ∃ r, db.refreshTokens.find? (fun t => t.id = row.id) = some r := by
    cases h : db.refreshTokens.find? (fun t => t.id = row.id) with
    | some r => exact ⟨r, rfl⟩
    | none =>
      rw [List.find?_eq_none] at h
      exact absurd (h row hmem) (by simp)
  obtain ⟨r0, hr0⟩ := hidfind
  -- unfold the first call
  unfold refresh at hok ⊢
  cases hv : verifyRefreshToken env token now with
  | error e => simp [hv] at hok
  | ok tk =>
    simp only [hv, hrow] at hok ⊢
    by_cases hrev : row.revokedAt.isSome = true
    · rw [if_pos hrev] at hok; simp at hok
    rw [if_neg hrev] at hok ⊢
    by_cases hexp : now > row.expiresAt
    · rw [if_pos hexp] at hok; simp at hok
    rw [if_neg hexp] at hok ⊢
    simp only [updateRefreshToken, hr0] at hok ⊢
    cases hu : db.users.find? (fun u => u.id = row.userId) with
    | none => simp [hu] at hok
    | some user =>
      simp only [hu] at hok ⊢
      by_cases hdup : (db.refreshTokens.map (fun t => if t.id = row.id then
          { t with revokedAt := some now } else t)).any
          (fun t => t.tokenHash = env.hashToken (generateRefreshToken env user.id now)) = true
      · simp only [createRefreshToken, hdup, if_true] at hok
        simp at hok
      · simp only [createRefreshToken, hdup] at hok ⊢
        simp only [Bool.false_eq_true, if_false, Except.ok.injEq] at hok ⊢
        subst hok
        have hfound : findRefreshToken
            { db with
              refreshTokens := db.refreshTokens.map (fun t => if t.id = row.id then
                  { t with revokedAt := some now } else t) ++
                [{ id := db.nextId, userId := user.id,
                   tokenHash := env.hashToken (generateRefreshToken env user.id now),
                   expiresAt := now + thirtyDays, revokedAt := none }],
              nextId := db.nextId + 1 } (env.hashToken token)
            = some { row with revokedAt := some now } := by
          simp only [findRefreshToken, List.find?_append, findRefreshToken_map_revoke, hrow']
          simp
        refine ⟨hfound, ?_, ?_, ?_⟩
        · exact ⟨_, List.mem_append_right _ (List.mem_singleton_self _), rfl, rfl⟩
        · intro hlater
          simp only [verifyRefreshToken, hlater, if_true, hfound]
          simp
        · intro hlater
          simp only [verifyRefreshToken, hlater]
          simp

/-- Claim C12, witness and failing input: a token issued at time 0 is refreshed after
5 seconds and presented again after 30 days and one second. The replay throws the
plain `Error` of `verifyRefreshToken`, and the response status is 500, not 401. -/
theorem refresh_rotation_and_replay_witness :
    findRefreshToken authDb (sampleEnv.hashToken issuedToken) = some issuedRow
    ∧ issuedRow.revokedAt = none ∧ 5000 ≤ issuedRow.expiresAt
    ∧ (refresh sampleEnv authDb issuedToken 5000).1 =
        .ok { accessToken := generateAccessToken sampleEnv 9 "CUSTOMER" 5000,
              refreshToken := generateRefreshToken sampleEnv 9 5000 }
    ∧ jwtVerify issuedToken sampleEnv.jwtRefreshSecret (thirtyDays + 1000) = false
    ∧ refresh sampleEnv (refresh sampleEnv authDb issuedToken 5000).2 issuedToken
          (thirtyDays + 1000) =
        (.error (plainError "Invalid or expired refresh token"),
         (refresh sampleEnv authDb issuedToken 5000).2)
    ∧ (errorHandler (some "production")
        (thrownError (plainError "Invalid or expired refresh token") "")).statusCode = 500 :=
  ⟨by decide, by decide, by decide, by decide, by decide,
   (refresh_rotation_and_replay sampleEnv authDb issuedToken 5000 (thirtyDays + 1000) issuedRow
      { accessToken := generateAccessToken sampleEnv 9 "CUSTOMER" 5000,
        refreshToken := generateRefreshToken sampleEnv 9 5000 }
      (by decide) (by decide)).2.2.2 (by decide),
   by decide⟩

/-! ## The claims on the admin status update -/

/-- Claim C13, failing input. A CANCELLED booking is set to CONFIRMED, and a COMPLETED
booking is set to CANCELLED, by `updateBookingStatus`: the admin handler checks
no current status before it writes the new one. -/
theorem updateBookingStatus_reopens_terminal_booking :
    findBooking cancelledDb 100 = some cancelledBooking
    ∧ cancelledBooking.status = "CANCELLED"
    ∧ findBooking (updateBookingStatus cancelledDb 100 "CONFIRMED" none).2 100 =
        some { cancelledBooking with status := "CONFIRMED" }
    ∧ findBooking completedDb 100 = some completedBooking
    ∧ completedBooking.status = "COMPLETED"
    ∧ findBooking (updateBookingStatus completedDb 100 "CANCELLED" (some "late")).2 100 =
        some { completedBooking with status := "CANCELLED", cancellationReason := some "late" } := by
  decide

/-- Claim C14, counterexample. On a booking that is already CANCELLED,
`updateBookingStatus` with target CANCELLED does not fail: it answers with the
booking, whose cancellation reason it has rewritten. -/
theorem updateBookingStatus_recancel_succeeds :
    findBooking cancelledDb 100 = some cancelledBooking
    ∧ cancelledBooking.status = "CANCELLED"
    ∧ (updateBookingStatus cancelledDb 100 "CANCELLED" (some "again")).1 =
        .ok (some { cancelledBooking with cancellationReason := some "again" })
    ∧ ¬ ∃ e, (updateBookingStatus cancelledDb 100 "CANCELLED" (some "again")).1 = .error e := by
  refine ⟨by decide, by decide, by decide, ?_⟩
  rintro ⟨e, he⟩
  have h : (updateBookingStatus cancelledDb 100 "CANCELLED" (some "again")).1 =
        .ok (some { cancelledBooking with cancellationReason := some "again" }) := by decide
  rw [h] at he
  exact Except.noConfusion he

/-- Claim C14, amended. On a booking that is already CANCELLED, `updateBookingStatus`
with target CANCELLED succeeds: the test `booking.status !== 'CANCELLED'` sends it
to the plain update, so no seat is released and no departure changes; the
booking stays CANCELLED and takes the cancellation reason of the request. -/
theorem updateBookingStatus_recancel (db : Db) (id : Nat) (cancellationReason : Option String) (b : Booking)
    (hb : findBooking db id = some b) (hs : b.status = "CANCELLED") :
    (updateBookingStatus db id "CANCELLED" cancellationReason).1 =
      .ok (some { b with status := "CANCELLED",
                         cancellationReason :=
                           writeOptional cancellationReason b.cancellationReason })
    ∧ findBooking (updateBookingStatus db id "CANCELLED" cancellationReason).2 id =
        some { b with status := "CANCELLED",
                      cancellationReason :=
                        writeOptional cancellationReason b.cancellationReason }
    ∧ (updateBookingStatus db id "CANCELLED" cancellationReason).2.departures
        = db.departures := by
  have hb' : db.bookings.find? (fun x => x.id = id) = some b := hb
  have hf := find_map_update (fun x : Booking => x.id)
    (fun x => { x with status := "CANCELLED",
                       cancellationReason :=
                         writeOptional cancellationReason x.cancellationReason })
    id (fun _ => rfl) db.bookings b hb'
  beta_reduce at hf
  have hcond : ¬ (True ∧ b.status ≠ "CANCELLED") := by simp [hs]
  unfold updateBookingStatus
  simp only [hb]
  rw [if_neg hcond]
  simp only [updateBooking, findBooking, hb', hf, and_self]

/-- Claim C14, witness: the theorem applied to the sample store. -/
theorem updateBookingStatus_recancel_witness :
    (updateBookingStatus cancelledDb 100 "CANCELLED" (some "again")).1 =
      .ok (some { cancelledBooking with cancellationReason := some "again" })
    ∧ findBooking (updateBookingStatus cancelledDb 100 "CANCELLED" (some "again")).2 100 =
        some { cancelledBooking with cancellationReason := some "again" }
    ∧ (updateBookingStatus cancelledDb 100 "CANCELLED" (some "again")).2.departures
        = cancelledDb.departures :=
  updateBookingStatus_recancel cancelledDb 100 (some "again") cancelledBooking (by decide) (by decide)

/-- Claim C15, failing input. The departure is FULL with both seats taken by one
confirmed booking. `updateBookingStatus` with target CANCELLED succeeds, cancels
the booking and releases both seats, and the departure is still FULL;
`cancelBooking` on the same store leaves it AVAILABLE. -/
theorem updateBookingStatus_cancel_keeps_departure_full :
    findBooking confirmedDb 100 = some confirmedBooking
    ∧ findDeparture confirmedDb 1 = some bookedDeparture
    ∧ bookedDeparture.status = "FULL"
    ∧ (∃ r, (updateBookingStatus confirmedDb 100 "CANCELLED" (some "changed plans")).1 = .ok r)
    ∧ findBooking (updateBookingStatus confirmedDb 100 "CANCELLED" (some "changed plans")).2 100
        = some cancelledBooking
    ∧ findDeparture (updateBookingStatus confirmedDb 100 "CANCELLED" (some "changed plans")).2 1
        = some { bookedDeparture with seatsReserved := 0, status := "FULL" }
    ∧ findDeparture (cancelBooking confirmedDb 100 (some "changed plans") 9 "CUSTOMER").2 1
        = some { bookedDeparture with seatsReserved := 0, status := "AVAILABLE" } := by
  refine ⟨by decide, by decide, by decide, ⟨_, rfl⟩, by decide, by decide, by decide⟩

/-- Claim C16, failing input. From a store with one AVAILABLE departure and no
booking, a booking of two passengers fills the departure (FULL, 2 of 2), and
`updateBookingStatus` with target CANCELLED then releases the seats without
touching the status: the departure is FULL with 0 of 2 seats reserved. -/
theorem admin_cancel_breaks_status_seats_equivalence :
    StatusMatchesSeats sampleDb
    ∧ (createBooking sampleDb 9 1 [adult, adult] [] none "BKA").2.departures
        = [{ sampleDeparture with seatsReserved := 2, status := "FULL" }]
    ∧ StatusMatchesSeats (createBooking sampleDb 9 1 [adult, adult] [] none "BKA").2
    ∧ (updateBookingStatus (createBooking sampleDb 9 1 [adult, adult] [] none "BKA").2 100
        "CANCELLED" (some "changed plans")).2.departures
        = [{ sampleDeparture with seatsReserved := 0, status := "FULL" }]
    ∧ ¬ StatusMatchesSeats (updateBookingStatus
        (createBooking sampleDb 9 1 [adult, adult] [] none "BKA").2 100
        "CANCELLED" (some "changed plans")).2 := by
  decide

/-! ## The authorisation claims -/

/-- Claim C17. For every existing booking, a caller who is not its customer and
whose role is none of ADMIN, SUPER_ADMIN, AGENT gets `Access denied` (403) from
`cancelBooking` and the store is left as it is; for the customer of the booking
or a caller with one of those roles the answer is not `Access denied`. -/
theorem cancelBooking_forbidden (db : Db) (id : Nat) (reason : Option String) (userId : Nat)
    (userRole : String) (b : Booking) (hb : findBooking db id = some b) :
    ((b.customerId ≠ userId ∧ userRole ≠ "ADMIN" ∧ userRole ≠ "SUPER_ADMIN"
        ∧ userRole ≠ "AGENT") →
      cancelBooking db id reason userId userRole = (.error (AppError "Access denied" 403), db))
    ∧ ((b.customerId = userId ∨ userRole = "ADMIN" ∨ userRole = "SUPER_ADMIN"
        ∨ userRole = "AGENT") →
      (cancelBooking db id reason userId userRole).1 ≠ .error (AppError "Access denied" 403)) := by
  constructor
  · intro h
    have hauth : b.customerId ≠ userId ∧
        ¬ ["ADMIN", "SUPER_ADMIN", "AGENT"].contains userRole := by simpa using h
    unfold cancelBooking
    simp only [hb]
    rw [if_pos hauth]
  · intro h hden
    have := (cancelBooking_denied_iff db id reason userId userRole b hb).mp hden
    rcases h with h | h | h | h
    · exact this.1 h
    · exact this.2.1 h
    · exact this.2.2.1 h
    · exact this.2.2.2 h

/-- Claim C17, witness: the theorem applied to the sample store. -/
theorem cancelBooking_forbidden_witness :
    cancelBooking pendingDb 100 none 8 "FINANCE" = (.error (AppError "Access denied" 403), pendingDb)
    ∧ (cancelBooking pendingDb 100 none 9 "CUSTOMER").1 ≠ .error (AppError "Access denied" 403)
    ∧ (cancelBooking pendingDb 100 none 8 "AGENT").1 ≠ .error (AppError "Access denied" 403) :=
  ⟨(cancelBooking_forbidden pendingDb 100 none 8 "FINANCE" pendingBooking (by decide)).1 (by decide),
   (cancelBooking_forbidden pendingDb 100 none 9 "CUSTOMER" pendingBooking (by decide)).2 (by decide),
   (cancelBooking_forbidden pendingDb 100 none 8 "AGENT" pendingBooking (by decide)).2 (by decide)⟩

/-- Claim C18, counterexample. A caller with role FINANCE who is not the customer of
the booking passes the authorisation check of `createPayment` and is refused by
the one of `cancelBooking`. -/
theorem createPayment_admits_finance_cancelBooking_does_not :
    findBooking pendingDb 100 = some pendingBooking
    ∧ (createPayment pendingDb 8 "FINANCE" 100 "CARD" 1000 none 55).1
        ≠ .error (AppError "Access denied" 403)
    ∧ (cancelBooking pendingDb 100 none 8 "FINANCE").1 = .error (AppError "Access denied" 403) := by
  decide

/-- Claim C18, amended. For every existing booking and every caller, whoever passes
the authorisation check of `cancelBooking` passes the one of `createPayment`;
`createPayment` lets a caller through exactly when `cancelBooking` does or the
role of the caller is FINANCE. -/
theorem createPayment_authorisation (db : Db) (userId : Nat) (userRole : String) (bookingId : Nat)
    (method : String) (amount : Int) (reference reason : Option String) (now : Nat)
    (b : Booking) (hb : findBooking db bookingId = some b) :
    ((cancelBooking db bookingId reason userId userRole).1
        ≠ .error (AppError "Access denied" 403) →
      (createPayment db userId userRole bookingId method amount reference now).1
        ≠ .error (AppError "Access denied" 403))
    ∧ ((createPayment db userId userRole bookingId method amount reference now).1
        ≠ .error (AppError "Access denied" 403) ↔
      ((cancelBooking db bookingId reason userId userRole).1
        ≠ .error (AppError "Access denied" 403) ∨ userRole = "FINANCE")) := by
  have hc := cancelBooking_denied_iff db bookingId reason userId userRole b hb
  have hp := createPayment_denied_iff db userId userRole bookingId method amount reference now b hb
  have hiff : (createPayment db userId userRole bookingId method amount reference now).1
        ≠ .error (AppError "Access denied" 403) ↔
      ((cancelBooking db bookingId reason userId userRole).1
        ≠ .error (AppError "Access denied" 403) ∨ userRole = "FINANCE") := by
    rw [Ne, Ne, hc, hp]
    by_cases h1 : b.customerId = userId <;> by_cases h2 : userRole = "FINANCE" <;>
      simp [h1, h2]
  exact ⟨fun h => hiff.mpr (Or.inl h), hiff⟩

/-- Claim C18, witness: the theorem applied to the sample store. -/
theorem createPayment_authorisation_witness :
    (createPayment pendingDb 8 "FINANCE" 100 "CARD" 1000 none 55).1
        ≠ .error (AppError "Access denied" 403)
    ∧ (createPayment pendingDb 8 "AGENT" 100 "CARD" 1000 none 55).1
        ≠ .error (AppError "Access denied" 403) :=
  ⟨(createPayment_authorisation pendingDb 8 "FINANCE" 100 "CARD" 1000 none none 55 pendingBooking (by decide)).2.mpr
     (Or.inr rfl),
   (createPayment_authorisation pendingDb 8 "AGENT" 100 "CARD" 1000 none none 55 pendingBooking (by decide)).1
     (by decide)⟩

/-! ## The claims on error responses -/

/-- Claim C19, counterexample. Of two stored tokens that both still verify, one
revoked and one past `expiresAt`, the first is refused with
`Token has been revoked` and the second with `Token has expired`: the two
responses differ. -/
theorem refresh_revoked_and_expired_differ :
    findRefreshToken staleDb (longLivedEnv.hashToken revokedToken) = some revokedRow
    ∧ revokedRow.revokedAt = some 2000
    ∧ findRefreshToken staleDb (longLivedEnv.hashToken expiredToken) = some expiredRow
    ∧ expiredRow.revokedAt = none ∧ thirtyDays + 2000 > expiredRow.expiresAt
    ∧ (refresh longLivedEnv staleDb revokedToken (thirtyDays + 2000)).1 =
        .error (AppError "Token has been revoked" 401)
    ∧ (refresh longLivedEnv staleDb expiredToken (thirtyDays + 2000)).1 =
        .error (AppError "Token has expired" 401)
    ∧ errorHandler (some "production") (thrownError (AppError "Token has been revoked" 401) "")
        ≠ errorHandler (some "production") (thrownError (AppError "Token has expired" 401) "") := by
  decide

/-- Claim C19, amended. For every two stored tokens that both still verify, one with
`revokedAt` set and one not revoked but past `expiresAt`, `refresh` refuses both
without writing anything, with status 401 and `success = false`; the messages
are `Token has been revoked` for the first and `Token has expired` for the
second. -/
theorem refresh_revoked_vs_expired (env : AuthEnv) (db : AuthDb) (revoked expired : Jwt) (now : Nat)
    (r1 r2 : RefreshToken) (nodeEnv : Option String) (stack1 stack2 : String)
    (hv1 : jwtVerify revoked env.jwtRefreshSecret now = true)
    (hv2 : jwtVerify expired env.jwtRefreshSecret now = true)
    (h1 : findRefreshToken db (env.hashToken revoked) = some r1)
    (hr1 : r1.revokedAt ≠ none)
    (h2 : findRefreshToken db (env.hashToken expired) = some r2)
    (hr2 : r2.revokedAt = none) (he2 : now > r2.expiresAt) :
    refresh env db revoked now = (.error (AppError "Token has been revoked" 401), db)
    ∧ refresh env db expired now = (.error (AppError "Token has expired" 401), db)
    ∧ (errorHandler nodeEnv (thrownError (AppError "Token has been revoked" 401) stack1)).statusCode
        = 401
    ∧ (errorHandler nodeEnv (thrownError (AppError "Token has expired" 401) stack2)).statusCode
        = 401
    ∧ (errorHandler nodeEnv (thrownError (AppError "Token has been revoked" 401) stack1)).success
        = false
    ∧ (errorHandler nodeEnv (thrownError (AppError "Token has expired" 401) stack2)).success
        = false
    ∧ (errorHandler nodeEnv (thrownError (AppError "Token has been revoked" 401) stack1)).message
        = "Token has been revoked"
    ∧ (errorHandler nodeEnv (thrownError (AppError "Token has expired" 401) stack2)).message
        = "Token has expired" := by
  have hs1 : r1.revokedAt.isSome = true := by
    cases h : r1.revokedAt with
    | none => exact absurd h hr1
    | some _ => rfl
  refine ⟨?_, ?_, rfl, rfl, rfl, rfl, rfl, rfl⟩
  · unfold refresh verifyRefreshToken
    simp only [hv1, if_true, h1]
    rw [if_pos hs1]
  · unfold refresh verifyRefreshToken
    simp only [hv2, if_true, h2, hr2]
    rw [if_pos he2]
    simp

/-- Claim C19, witness: the theorem applied to the sample store. -/
theorem refresh_revoked_vs_expired_witness :
    refresh longLivedEnv staleDb revokedToken (thirtyDays + 2000) =
      (.error (AppError "Token has been revoked" 401), staleDb)
    ∧ refresh longLivedEnv staleDb expiredToken (thirtyDays + 2000) =
      (.error (AppError "Token has expired" 401), staleDb)
    ∧ (errorHandler (some "production")
        (thrownError (AppError "Token has been revoked" 401) "")).statusCode = 401
    ∧ (errorHandler (some "production")
        (thrownError (AppError "Token has expired" 401) "")).statusCode = 401 :=
  ⟨(refresh_revoked_vs_expired longLivedEnv staleDb revokedToken expiredToken (thirtyDays + 2000) revokedRow expiredRow
      (some "production") "" "" (by decide) (by decide) (by decide) (by decide) (by decide)
      (by decide) (by decide)).1,
   (refresh_revoked_vs_expired longLivedEnv staleDb revokedToken expiredToken (thirtyDays + 2000) revokedRow expiredRow
      (some "production") "" "" (by decide) (by decide) (by decide) (by decide) (by decide)
      (by decide) (by decide)).2.1,
   (refresh_revoked_vs_expired longLivedEnv staleDb revokedToken expiredToken (thirtyDays + 2000) revokedRow expiredRow
      (some "production") "" "" (by decide) (by decide) (by decide) (by decide) (by decide)
      (by decide) (by decide)).2.2.1,
   (refresh_revoked_vs_expired longLivedEnv staleDb revokedToken expiredToken (thirtyDays + 2000) revokedRow expiredRow
      (some "production") "" "" (by decide) (by decide) (by decide) (by decide) (by decide)
      (by decide) (by decide)).2.2.2.1⟩

/-- Claim C20, counterexample. Outside development, two errors without `statusCode`
get different responses: an error without a storage code is answered with its
own message, and two storage errors with different codes are answered with
different statuses. -/
theorem errorHandler_production_responses_differ :
    connectionError.statusCode = none ∧ typeError.statusCode = none
    ∧ duplicateError.statusCode = none ∧ missingError.statusCode = none
    ∧ errorHandler (some "production") connectionError
        ≠ errorHandler (some "production") typeError
    ∧ (errorHandler (some "production") connectionError).message
        = "Cannot reach database server at db.internal:5432"
    ∧ errorHandler (some "production") duplicateError
        ≠ errorHandler (some "production") missingError
    ∧ (errorHandler (some "production") duplicateError).statusCode = 409
    ∧ (errorHandler (some "production") missingError).statusCode = 404 := by
  decide

/-- Claim C20, amended. When `NODE_ENV` is not `development`, the response to an error
without `statusCode` has neither `stack` nor `error`, and two such errors with the
same message, code, first `meta.target` and class name get the same response.
For an error that does not carry the class name of a token error, a storage code
fixes status and message whatever the message of the error: 409 and the name of
the field for P2002, 404 `Record not found` for P2025, 400
`Database operation failed` for any other code starting with P; without such a
code the status is 500. -/
theorem errorHandler_production_unexpected (nodeEnv : Option String) (err : ErrorObject)
    (henv : nodeEnv ≠ some "development") (hstatus : err.statusCode = none) :
    (errorHandler nodeEnv err).stack = none
    ∧ (errorHandler nodeEnv err).error = none
    ∧ (errorHandler nodeEnv err).success = false
    ∧ (∀ other : ErrorObject, other.statusCode = none → other.message = err.message →
        other.code = err.code → other.metaTarget = err.metaTarget → other.name = err.name →
        errorHandler nodeEnv other = errorHandler nodeEnv err)
    ∧ (err.name ≠ "JsonWebTokenError" → err.name ≠ "TokenExpiredError" →
        (err.code = some "P2002" →
          (errorHandler nodeEnv err).statusCode = 409 ∧
          (errorHandler nodeEnv err).message = stringOr err.metaTarget "Field" ++ " already exists")
        ∧ (err.code = some "P2025" →
          (errorHandler nodeEnv err).statusCode = 404 ∧
          (errorHandler nodeEnv err).message = "Record not found")
        ∧ (err.code ≠ some "P2002" → err.code ≠ some "P2025" → codeStartsWithP err.code = true →
          (errorHandler nodeEnv err).statusCode = 400 ∧
          (errorHandler nodeEnv err).message = "Database operation failed")
        ∧ (codeStartsWithP err.code = false → (errorHandler nodeEnv err).statusCode = 500)) := by
  refine ⟨by simp [errorHandler, henv], by simp [errorHandler, henv], rfl, ?_, ?_⟩
  · intro other ho hm hc ht hn
    simp [errorHandler, henv, ho, hstatus, hm, hc, ht, hn]
  · intro hn1 hn2
    refine ⟨?_, ?_, ?_, ?_⟩
    · intro hc
      simp [errorHandler, hn1, hn2, hc]
    · intro hc
      simp [errorHandler, hn1, hn2, hc]
    · intro hc1 hc2 hp
      simp [errorHandler, hn1, hn2, hc1, hc2, hp]
    · intro hp
      have hc1 : err.code ≠ some "P2002" := by
        intro h; rw [h] at hp; exact absurd hp (by decide)
      have hc2 : err.code ≠ some "P2025" := by
        intro h; rw [h] at hp; exact absurd hp (by decide)
      simp [errorHandler, hn1, hn2, hc1, hc2, hp, hstatus, statusCodeOr500]

/-- Claim C20, witness: the theorem applied to the sample store. -/
theorem errorHandler_production_unexpected_witness :
    (errorHandler (some "production") duplicateError).stack = none
    ∧ (errorHandler (some "production") duplicateError).error = none
    ∧ (errorHandler (some "production") duplicateError).statusCode = 409
    ∧ (errorHandler (some "production") duplicateError).message = "email already exists" :=
  ⟨(errorHandler_production_unexpected (some "production") duplicateError (by decide) rfl).1,
   (errorHandler_production_unexpected (some "production") duplicateError (by decide) rfl).2.1,
   ((errorHandler_production_unexpected (some "production") duplicateError (by decide) rfl).2.2.2.2
      (by decide) (by decide)).1 rfl⟩

/-! ## Auxiliary lemmas: seat accounting without the capacity bound -/

/-- The handler `createBooking` keeps storage integrity and seat accounting. -/
theorem createBooking_keeps_accounting (db : Db) (userId departureId : Nat)
    (passengers : List PassengerInput) (addons : List AddonInput) (notes : Option String)
    (bookingCode : String)
    (h : StorageIntegrity db ∧ SeatsAccounted db) :
    StorageIntegrity (createBooking db userId departureId passengers addons notes bookingCode).2 ∧
    SeatsAccounted (createBooking db userId departureId passengers addons notes bookingCode).2 := by
  obtain ⟨hI, hA⟩ := h
  rcases createBooking_cases db userId departureId passengers addons notes bookingCode with
    ⟨-, h⟩ | ⟨_, -, -, h⟩ | ⟨_, -, -, -, h⟩ | ⟨_, _, -, -, -, -, h⟩ | ⟨d, hd, hs, hc, -, h⟩
  · rw [h]; exact ⟨hI, hA⟩
  · rw [h]; exact ⟨hI, hA⟩
  · rw [h]; exact ⟨hI, hA⟩
  · rw [h]; exact ⟨hI, hA⟩
  · rw [h]
    have hheld := fun j => seatsHeld_create db _ _ passengers hI
      (congrArg (fun r : Except JsError Booking × Db => r.2.bookings) h)
      (congrArg (fun r : Except JsError Booking × Db => r.2.passengers) h) rfl rfl j
    rw [h] at hheld
    simp only [createBookingRow] at hheld ⊢
    refine ⟨⟨?_, ?_, ?_, ?_, ?_, ?_⟩, ?_⟩
    · simp only [List.map_map]
      have : ((fun d : TripDeparture => d.id) ∘ fun x : TripDeparture =>
          if x.id = departureId then
            { x with seatsReserved := x.seatsReserved + (passengers.length : Int),
                     status := if d.seatsReserved + (passengers.length : Int) ≥ d.capacity
                               then "FULL" else x.status } else x)
          = fun d => d.id := by
        funext x
        by_cases hx : x.id = departureId <;> simp [hx]
      rw [this]
      exact hI.departureKeys
    · simp only [List.map_append, List.map_cons, List.map_nil]
      rw [List.nodup_append]
      refine ⟨hI.bookingKeys, by simp, ?_⟩
      intro a ha ha'
      simp only [List.mem_map] at ha
      obtain ⟨x, hx, rfl⟩ := ha
      have := hI.keysIssued x hx
      simp only [List.mem_singleton] at ha'
      omega
    · exact hI.paymentKeys
    · intro x hx
      simp only [List.mem_append, List.mem_singleton] at hx
      rcases hx with hx | rfl
      · have := hI.keysIssued x hx
        simp only
        omega
      · simp
    · intro p hp
      have := hI.paymentKeysIssued p hp
      simp only
      omega
    · intro p hp
      simp only [List.mem_append] at hp
      rcases hp with hp | hp
      · obtain ⟨b, hb, hid⟩ := hI.passengerOwner p hp
        exact ⟨b, List.mem_append_left _ hb, hid⟩
      · simp only [passengerRows, List.mem_map] at hp
        obtain ⟨q, -, rfl⟩ := hp
        exact ⟨_, List.mem_append_right _ (List.mem_singleton_self _), rfl⟩
    · intro x hx
      simp only [List.mem_map] at hx
      obtain ⟨y, hy, rfl⟩ := hx
      have hyA := hA y hy
      by_cases hid : y.id = departureId
      · simp only [hid, if_true]
        rw [hheld departureId]
        simp only [if_true]
        rw [← hid, hyA]
        push_cast
        rfl
      · simp only [hid, if_false]
        rw [hheld y.id, hyA]
        have : ¬ departureId = y.id := fun h' => hid h'.symm
        simp [this]

/-- Cancelling a non-cancelled booking and releasing its seats keeps storage integrity
and seat accounting. -/
theorem release_keeps_accounting (db db' : Db) (b : Booking) (id : Nat)
    (f : Booking → Booking) (g : TripDeparture → TripDeparture)
    (hbk : db'.bookings = db.bookings.map (fun x => if x.id = id then f x else x))
    (hdp : db'.departures = db.departures.map (fun x => if x.id = b.departureId then g x else x))
    (hps : db'.passengers = db.passengers) (hpay : db'.payments = db.payments)
    (hnx : db'.nextId = db.nextId)
    (hfid : ∀ x, (f x).id = x.id) (hfdep : ∀ x, (f x).departureId = x.departureId)
    (hfs : ∀ x, (f x).status = "CANCELLED")
    (hgid : ∀ x, (g x).id = x.id)
    (hgres : ∀ x, (g x).seatsReserved = x.seatsReserved - ((bookingPassengers db id).length : Int))
    (hb : findBooking db id = some b) (hc : b.status ≠ "CANCELLED")
    (h : StorageIntegrity db ∧ SeatsAccounted db) :
    StorageIntegrity db' ∧ SeatsAccounted db' := by
  obtain ⟨hI, hA⟩ := h
  have hbmem : b ∈ db.bookings := List.mem_of_find?_eq_some hb
  have hbid : b.id = id := by simpa using List.find?_some hb
  have hidmap : db'.bookings.map (fun b => b.id) = db.bookings.map (fun b => b.id) := by
    rw [hbk, List.map_map]
    apply List.map_congr_left
    intro x _
    by_cases hx : x.id = id <;> simp [hx, hfid]
  have hdmap : db'.departures.map (fun d => d.id) = db.departures.map (fun d => d.id) := by
    rw [hdp, List.map_map]
    apply List.map_congr_left
    intro x _
    by_cases hx : x.id = b.departureId <;> simp [hx, hgid]
  have hheld : ∀ j, seatsHeld db j = seatsHeld db' j
      + (if b.departureId = j then (bookingPassengers db id).length else 0) := by
    intro j
    have := seatsHeld_cancel db.bookings (fun i => (bookingPassengers db i).length) id j
      f hfdep hfs hI.bookingKeys b hbmem hbid hc
    unfold seatsHeld
    rw [hbk]
    simp only [bookingPassengers, hps] at this ⊢
    exact this
  have hacc : SeatsAccounted db' := by
    intro x hx
    rw [hdp] at hx
    simp only [List.mem_map] at hx
    obtain ⟨y, hy, rfl⟩ := hx
    have hyA := hA y hy
    have hh := hheld y.id
    by_cases hid : y.id = b.departureId
    · rw [if_pos hid.symm] at hh
      simp only [hid, if_true]
      rw [hgres, hgid, hyA, hh, hid]
      push_cast
      ring
    · rw [if_neg (fun h' => hid h'.symm)] at hh
      simp only [hid, if_false]
      rw [hyA, hh]
      rfl
  refine ⟨⟨?_, ?_, ?_, ?_, ?_, ?_⟩, hacc⟩
  · rw [hdmap]; exact hI.departureKeys
  · rw [hidmap]; exact hI.bookingKeys
  · rw [hpay]; exact hI.paymentKeys
  · intro x hx
    have hx' : x.id ∈ db'.bookings.map (fun b => b.id) := List.mem_map_of_mem _ hx
    rw [hidmap] at hx'
    simp only [List.mem_map] at hx'
    obtain ⟨y, hy, hyx⟩ := hx'
    have := hI.keysIssued y hy
    omega
  · intro p hp
    rw [hpay] at hp
    have := hI.paymentKeysIssued p hp
    omega
  · intro p hp
    rw [hps] at hp
    obtain ⟨b', hb', hid'⟩ := hI.passengerOwner p hp
    have hx' : b'.id ∈ db'.bookings.map (fun b => b.id) := by
      rw [hidmap]; exact List.mem_map_of_mem _ hb'
    simp only [List.mem_map] at hx'
    obtain ⟨y, hy, hyx⟩ := hx'
    exact ⟨y, hy, hyx.trans hid'⟩

/-- The handler `cancelBooking` keeps storage integrity and seat accounting. -/
theorem cancelBooking_keeps_accounting (db : Db) (id : Nat) (reason : Option String)
    (userId : Nat) (userRole : String) (h : StorageIntegrity db ∧ SeatsAccounted db) :
    StorageIntegrity (cancelBooking db id reason userId userRole).2 ∧
    SeatsAccounted (cancelBooking db id reason userId userRole).2 := by
  rcases cancelBooking_cases db id reason userId userRole with
    hsame | ⟨b, d, hb, hd, hauth, hc, hco⟩
  · rw [hsame]; exact h
  · rw [cancelBooking_ok db id reason userId userRole b d hb hd hauth hc hco]
    exact release_keeps_accounting db _ b id _ _ rfl rfl rfl rfl rfl (fun _ => rfl) (fun _ => rfl)
      (fun _ => rfl) (fun _ => rfl) (fun _ => rfl) hb hc h

/-- Every sequence of booking requests keeps storage integrity and seat accounting. -/
theorem runOps_keeps_accounting (ops : List BookingOp) :
    ∀ db : Db, StorageIntegrity db ∧ SeatsAccounted db →
      StorageIntegrity (runOps db ops) ∧ SeatsAccounted (runOps db ops) := by
  induction ops with
  | nil => intro db h; exact h
  | cons op ops ih =>
    intro db h
    have hstep : StorageIntegrity (op.run db) ∧ SeatsAccounted (op.run db) := by
      cases op with
      | create userId departureId passengers addons notes bookingCode =>
        exact createBooking_keeps_accounting db userId departureId passengers addons notes
          bookingCode h
      | cancel id reason userId userRole =>
        exact cancelBooking_keeps_accounting db id reason userId userRole h
    exact ih (op.run db) hstep

/-- A store without bookings in which no seat is reserved accounts for its seats. -/
theorem seatsAccounted_of_no_bookings (db : Db) (hb : db.bookings = [])
    (h0 : ∀ d ∈ db.departures, d.seatsReserved = 0) : SeatsAccounted db := by
  intro d hd
  rw [h0 d hd]
  simp [seatsHeld, hb]

/-! ## Auxiliary lemmas: booking codes -/

/-- An upper-case digit below 36 is a digit or an upper-case letter and has the value of
the digit. -/
theorem upper_digitChar :
    ∀ d, d < 36 → isUpperBase36Digit (Char.toUpper (digitChar d)) = true
      ∧ upperDigitValue (Char.toUpper (digitChar d)) = d := by
  decide

/-- An upper-case digit below 16 is a hexadecimal digit. -/
theorem upper_digitChar_hex :
    ∀ d, d < 16 → isUpperHexDigit (Char.toUpper (digitChar d)) = true := by
  decide

/-- Every digit produced by `toDigits36` is below 36. -/
theorem toDigits36_lt (fuel : Nat) : ∀ n, ∀ d ∈ toDigits36 fuel n, d < 36 := by
  induction fuel with
  | zero => intro n d hd; simp [toDigits36] at hd
  | succ fuel ih =>
    intro n d hd
    unfold toDigits36 at hd
    split at hd
    · simp only [List.mem_singleton] at hd
      omega
    · simp only [List.mem_append, List.mem_singleton] at hd
      rcases hd with hd | hd
      · exact ih _ d hd
      · have := Nat.mod_lt n (show 36 > 0 by decide)
        omega

/-- With enough fuel, `toDigits36` is not empty. -/
theorem toDigits36_ne_nil (fuel n : Nat) (h : n < fuel) : toDigits36 fuel n ≠ [] := by
  cases fuel with
  | zero => omega
  | succ fuel =>
    unfold toDigits36
    split <;> simp

/-- With enough fuel, the digits produced by `toDigits36` write the number. -/
theorem foldl_toDigits36 (fuel : Nat) :
    ∀ n, n < fuel → (toDigits36 fuel n).foldl (fun acc d => acc * 36 + d) 0 = n := by
  induction fuel with
  | zero => intro n h; omega
  | succ fuel ih =>
    intro n h
    unfold toDigits36
    split
    · simp
    · rename_i hn
      have hlt : n / 36 < fuel := by
        have := Nat.div_lt_self (show 0 < n by omega) (show 1 < 36 by decide)
        omega
      rw [List.foldl_append, ih _ hlt]
      simp only [List.foldl_cons, List.foldl_nil]
      exact Nat.div_add_mod' n 36

/-- Reading the upper-case characters of a list of digits gives back the number the
digits write. -/
theorem fromUpperBase36_map (ds : List Nat) (h : ∀ d ∈ ds, d < 36) :
    ∀ acc, (ds.map (fun d => Char.toUpper (digitChar d))).foldl
        (fun acc c => acc * 36 + upperDigitValue c) acc
      = ds.foldl (fun acc d => acc * 36 + d) acc := by
  induction ds with
  | nil => intro acc; rfl
  | cons d ds ih =>
    intro acc
    simp only [List.map_cons, List.foldl_cons]
    rw [(upper_digitChar d (h d (List.mem_cons_self _ _))).2]
    exact ih (fun x hx => h x (List.mem_cons_of_mem _ hx)) _

/-- The characters of the upper-case timestamp. -/
theorem timestamp_data (now : Nat) :
    (toUpperCase (toString36 now)).data
      = (toDigits36 (now + 1) now).map (fun d => Char.toUpper (digitChar d)) := by
  simp [toUpperCase, toString36, List.map_map, Function.comp_def]

/-- The upper-case timestamp reads back as the time. -/
theorem fromUpperBase36_timestamp (now : Nat) :
    fromUpperBase36 (toUpperCase (toString36 now)).data = now := by
  rw [timestamp_data]
  unfold fromUpperBase36
  rw [fromUpperBase36_map _ (toDigits36_lt _ _)]
  exact foldl_toDigits36 _ _ (Nat.lt_succ_self _)

/-- The characters of the upper-case random part. -/
theorem random_data (b : Fin 256 × Fin 256 × Fin 256) :
    (toUpperCase (toHex [b.1, b.2.1, b.2.2])).data
      = [Char.toUpper (digitChar (b.1.val / 16)), Char.toUpper (digitChar (b.1.val % 16)),
         Char.toUpper (digitChar (b.2.1.val / 16)), Char.toUpper (digitChar (b.2.1.val % 16)),
         Char.toUpper (digitChar (b.2.2.val / 16)), Char.toUpper (digitChar (b.2.2.val % 16))] := by
  simp [toUpperCase, toHex, List.flatMap]

/-- The characters of a booking code. -/
theorem generateBookingCode_data (now : Nat) (b : Fin 256 × Fin 256 × Fin 256) :
    (generateBookingCode now b).data
      = ['B', 'K'] ++ (toUpperCase (toString36 now)).data
          ++ (toUpperCase (toHex [b.1, b.2.1, b.2.2])).data := by
  simp [generateBookingCode, String.data_append]

/-- Two upper-case digits below 36 are equal only if the digits are. -/
theorem upper_digitChar_inj (d e : Nat) (hd : d < 36) (he : e < 36)
    (h : Char.toUpper (digitChar d) = Char.toUpper (digitChar e)) : d = e := by
  have := congrArg upperDigitValue h
  rwa [(upper_digitChar d hd).2, (upper_digitChar e he).2] at this

/-! ## Auxiliary lemmas: validation -/

/-- An error of the first element of an array is an error of the array. -/
theorem mem_itemErrors_head {α : Type} (check : Nat → α → List ValidationError)
    (index : Nat) (x : α) (xs : List α) (e : ValidationError) (h : e ∈ check index x) :
    e ∈ itemErrors check index (x :: xs) := by
  simp only [itemErrors, List.mem_append]
  exact Or.inl h

/-! ## The error, code, sequence, pagination, listing, form and slug claims -/

/-- Claim C21, counterexample. The error raised by the JSON body reader for a malformed
body is no token error, has no storage code and is not an `AppError`, yet it carries
`statusCode = 400` and `errorHandler` answers 400, not 500. An `AppError` built with
the status 0 is answered with 500, not with its own status. -/
theorem errorHandler_status_of_foreign_error :
    bodyParseError.name ≠ "JsonWebTokenError" ∧ bodyParseError.name ≠ "TokenExpiredError"
    ∧ codeStartsWithP bodyParseError.code = false
    ∧ (∀ message statusCode stack,
        bodyParseError ≠ thrownError (AppError message statusCode) stack)
    ∧ (errorHandler (some "production") bodyParseError).statusCode = 400
    ∧ (errorHandler (some "production")
        (thrownError (AppError "Nothing to report" 0) "at handler")).statusCode = 500 := by
  refine ⟨by decide, by decide, by decide, ?_, by decide, by decide⟩
  intro message statusCode stack h
  have := congrArg ErrorObject.name h
  simp [thrownError, bodyParseError] at this

/-- Claim C21, amended. The body written by `errorHandler` always has `success = false`.
An error named `JsonWebTokenError` or `TokenExpiredError` gets 401 whatever else it
carries. For any other error: code P2002 gets 409, code P2025 gets 404, any other
code starting with P gets 400; without such a code, an error that carries a
`statusCode` other than 0, an `AppError` or not, gets that status, and an error
without `statusCode` (or with 0) gets 500. In particular an `AppError` built with a
status other than 0 gets its own status. -/
theorem errorHandler_status_mapping (nodeEnv : Option String) (err : ErrorObject) :
    (errorHandler nodeEnv err).success = false
    ∧ (err.name = "JsonWebTokenError" ∨ err.name = "TokenExpiredError" →
        (errorHandler nodeEnv err).statusCode = 401)
    ∧ (err.name ≠ "JsonWebTokenError" → err.name ≠ "TokenExpiredError" →
        (err.code = some "P2002" → (errorHandler nodeEnv err).statusCode = 409)
        ∧ (err.code = some "P2025" → (errorHandler nodeEnv err).statusCode = 404)
        ∧ (err.code ≠ some "P2002" → err.code ≠ some "P2025" → codeStartsWithP err.code = true →
            (errorHandler nodeEnv err).statusCode = 400)
        ∧ (codeStartsWithP err.code = false →
            (∀ n, err.statusCode = some n → n ≠ 0 → (errorHandler nodeEnv err).statusCode = n)
            ∧ (err.statusCode = none ∨ err.statusCode = some 0 →
                (errorHandler nodeEnv err).statusCode = 500)))
    ∧ (∀ message n stack, n ≠ 0 →
        (errorHandler nodeEnv (thrownError (AppError message n) stack)).statusCode = n) := by
  have key : ∀ e : ErrorObject, e.name ≠ "JsonWebTokenError" → e.name ≠ "TokenExpiredError" →
      codeStartsWithP e.code = false →
      (errorHandler nodeEnv e).statusCode = statusCodeOr500 e.statusCode := by
    intro e hn1 hn2 hp
    have hc1 : e.code ≠ some "P2002" := by
      intro h; rw [h] at hp; exact absurd hp (by decide)
    have hc2 : e.code ≠ some "P2025" := by
      intro h; rw [h] at hp; exact absurd hp (by decide)
    simp [errorHandler, hn1, hn2, hc1, hc2, hp]
  refine ⟨rfl, ?_, ?_, ?_⟩
  · rintro (hn | hn)
    · simp [errorHandler, hn]
    · simp [errorHandler, hn]
  · intro hn1 hn2
    refine ⟨?_, ?_, ?_, ?_⟩
    · intro hc
      simp [errorHandler, hn1, hn2, hc]
    · intro hc
      simp [errorHandler, hn1, hn2, hc]
    · intro hc1 hc2 hp
      simp [errorHandler, hn1, hn2, hc1, hc2, hp]
    · intro hp
      rw [key err hn1 hn2 hp]
      refine ⟨?_, ?_⟩
      · intro n hs hn
        rw [hs]
        simp [statusCodeOr500, hn]
      · rintro (hs | hs) <;> rw [hs] <;> rfl
  · intro message n stack hn
    rw [key (thrownError (AppError message n) stack) (by simp [thrownError])
      (by simp [thrownError]) rfl]
    simp [statusCodeOr500, thrownError, AppError, hn]

/-- Claim C21, witness: the theorem applied to the sample errors. -/
theorem errorHandler_status_mapping_witness :
    (errorHandler (some "production") bodyParseError).statusCode = 400
    ∧ (errorHandler (some "production") duplicateError).statusCode = 409
    ∧ (errorHandler (some "production") connectionError).statusCode = 500
    ∧ (errorHandler (some "production")
        (thrownError (AppError "Booking not found" 404) "at handler")).statusCode = 404 :=
  ⟨(((errorHandler_status_mapping (some "production") bodyParseError).2.2.1 (by decide) (by decide)).2.2.2
      (by decide)).1 400 rfl (by decide),
   ((errorHandler_status_mapping (some "production") duplicateError).2.2.1 (by decide) (by decide)).1 rfl,
   (((errorHandler_status_mapping (some "production") connectionError).2.2.1 (by decide) (by decide)).2.2.2
      (by decide)).2 (Or.inl rfl),
   (errorHandler_status_mapping (some "production") connectionError).2.2.2 "Booking not found" 404 "at handler"
      (by decide)⟩

/-- Claim C22. Two codes generated by `generateBookingCode` are equal exactly when both
the time in milliseconds and the three random bytes are equal. Every code is `BK`
followed by a non-empty string of digits and upper-case letters that reads back in
base 36 as the time, followed by exactly six digits of `0`-`9`, `A`-`F`. -/
theorem generateBookingCode_injective (now now' : Nat) (randomBytes randomBytes' : Fin 256 × Fin 256 × Fin 256) :
    (generateBookingCode now randomBytes = generateBookingCode now' randomBytes' ↔
      now = now' ∧ randomBytes = randomBytes')
    ∧ ∃ timestamp random : String,
        generateBookingCode now randomBytes = "BK" ++ timestamp ++ random
        ∧ timestamp.data ≠ []
        ∧ timestamp.data.all isUpperBase36Digit = true
        ∧ fromUpperBase36 timestamp.data = now
        ∧ random.data.length = 6
        ∧ random.data.all isUpperHexDigit = true := by
  constructor
  · constructor
    · intro h
      have hd := congrArg String.data h
      rw [generateBookingCode_data, generateBookingCode_data, List.append_assoc,
        List.append_assoc] at hd
      have hd2 := List.append_cancel_left hd
      have hlen : (toUpperCase (toHex [randomBytes.1, randomBytes.2.1, randomBytes.2.2])).data.length
          = (toUpperCase (toHex [randomBytes'.1, randomBytes'.2.1, randomBytes'.2.2])).data.length := by
        rw [random_data, random_data]; rfl
      obtain ⟨hts, hrnd⟩ := List.append_inj' hd2 hlen
      have hnow : now = now' := by
        have := congrArg fromUpperBase36 hts
        rwa [fromUpperBase36_timestamp, fromUpperBase36_timestamp] at this
      refine ⟨hnow, ?_⟩
      rw [random_data, random_data] at hrnd
      simp only [List.cons.injEq, and_true] at hrnd
      obtain ⟨h1, h2, h3, h4, h5, h6⟩ := hrnd
      obtain ⟨b0, b1, b2⟩ := randomBytes
      obtain ⟨c0, c1, c2⟩ := randomBytes'
      have e1 := upper_digitChar_inj _ _ (by omega) (by omega) h1
      have e2 := upper_digitChar_inj _ _ (by omega) (by omega) h2
      have e3 := upper_digitChar_inj _ _ (by omega) (by omega) h3
      have e4 := upper_digitChar_inj _ _ (by omega) (by omega) h4
      have e5 := upper_digitChar_inj _ _ (by omega) (by omega) h5
      have e6 := upper_digitChar_inj _ _ (by omega) (by omega) h6
      simp only at e1 e2 e3 e4 e5 e6
      have f0 : b0 = c0 := Fin.ext (by omega)
      have f1 : b1 = c1 := Fin.ext (by omega)
      have f2 : b2 = c2 := Fin.ext (by omega)
      rw [f0, f1, f2]
    · rintro ⟨rfl, rfl⟩
      rfl
  · refine ⟨toUpperCase (toString36 now),
      toUpperCase (toHex [randomBytes.1, randomBytes.2.1, randomBytes.2.2]), rfl, ?_, ?_,
      fromUpperBase36_timestamp now, ?_, ?_⟩
    · rw [timestamp_data]
      simpa using toDigits36_ne_nil (now + 1) now (Nat.lt_succ_self _)
    · rw [timestamp_data, List.all_eq_true]
      intro c hc
      simp only [List.mem_map] at hc
      obtain ⟨d, hd, rfl⟩ := hc
      exact (upper_digitChar d (toDigits36_lt _ _ d hd)).1
    · rw [random_data]; rfl
    · rw [random_data]
      simp only [List.all_cons, List.all_nil, Bool.and_true, Bool.and_eq_true]
      refine ⟨?_, ?_, ?_, ?_, ?_, ?_⟩ <;> apply upper_digitChar_hex <;> omega

/-- Claim C22, witness: the code of a sample time and sample bytes, and the different
code one millisecond later. -/
theorem generateBookingCode_injective_witness :
    generateBookingCode 1762387200000 (⟨171, by decide⟩, ⟨5, by decide⟩, ⟨255, by decide⟩)
      = "BKMHMNU2O0AB05FF"
    ∧ generateBookingCode 1762387200000 (⟨171, by decide⟩, ⟨5, by decide⟩, ⟨255, by decide⟩)
      ≠ generateBookingCode 1762387200001 (⟨171, by decide⟩, ⟨5, by decide⟩, ⟨255, by decide⟩) :=
  ⟨by decide,
   fun h => absurd ((generateBookingCode_injective 1762387200000 1762387200001
      (⟨171, by decide⟩, ⟨5, by decide⟩, ⟨255, by decide⟩)
      (⟨171, by decide⟩, ⟨5, by decide⟩, ⟨255, by decide⟩)).1.mp h).1 (by decide)⟩

/-- Claim C23. Start from a store that satisfies the storage constraints, without any
booking and with `seatsReserved = 0` on every departure. After every finite sequence
of `createBooking` and `cancelBooking` requests executed one after the other,
successful or failing, the `seatsReserved` of each departure equals the number of
passengers of its bookings whose status is not CANCELLED. -/
theorem seatsReserved_counts_passengers_after_ops (db : Db) (ops : List BookingOp) (hI : StorageIntegrity db)
    (hb : db.bookings = []) (h0 : ∀ d ∈ db.departures, d.seatsReserved = 0) :
    ∀ d ∈ (runOps db ops).departures, d.seatsReserved = seatsHeld (runOps db ops) d.id :=
  (runOps_keeps_accounting ops db ⟨hI, seatsAccounted_of_no_bookings db hb h0⟩).2

/-- Claim C23, witness: the theorem applied to the sample store. -/
theorem seatsReserved_counts_passengers_after_ops_witness :
    sampleDb.bookings = [] ∧ (∀ d ∈ sampleDb.departures, d.seatsReserved = 0)
    ∧ (∀ d ∈ (runOps sampleDb sampleOps).departures,
        d.seatsReserved = seatsHeld (runOps sampleDb sampleOps) d.id)
    ∧ (runOps sampleDb sampleOps).departures.map (fun d => d.seatsReserved) = [1] :=
  ⟨rfl, by decide,
   seatsReserved_counts_passengers_after_ops sampleDb sampleOps ⟨by decide, by decide, by decide, by decide, by decide, by decide⟩
     rfl (by decide),
   by decide⟩

/-- Claim C24, failing input. The sample store has no booking and no reserved seat. A
booking of both seats is created, then `updateBookingStatus` sets it to CANCELLED
(releasing two seats), to CONFIRMED (reserving none) and to CANCELLED again
(releasing two seats a second time): the departure ends with `seatsReserved = -2`. -/
theorem updateBookingStatus_releases_seats_twice :
    sampleDb.bookings = [] ∧ sampleDb.departures.map (fun d => d.seatsReserved) = [0]
    ∧ (runStatusOps sampleDb (reopenOps.take 1)).departures.map
        (fun d => (d.capacity, d.seatsReserved)) = [(2, 2)]
    ∧ (runStatusOps sampleDb (reopenOps.take 2)).departures.map
        (fun d => (d.capacity, d.seatsReserved)) = [(2, 0)]
    ∧ (runStatusOps sampleDb (reopenOps.take 3)).departures.map
        (fun d => (d.capacity, d.seatsReserved)) = [(2, 0)]
    ∧ (runStatusOps sampleDb reopenOps).departures.map
        (fun d => (d.capacity, d.seatsReserved)) = [(2, -2)]
    ∧ ¬ SeatsBounded (runStatusOps sampleDb reopenOps) := by
  decide

/-- Claim C25, failing input. The pending booking owes 2500 and has no payment. Two card
payments of 2500 are created, each within the balance still recorded on the
booking, and both are confirmed: `paidAmount` ends at 5000, the sum of the PAID
payments, above `totalAmount = 2500`. -/
theorem confirmPayment_exceeds_totalAmount :
    pendingDb.bookings.map (fun b => (b.id, b.totalAmount, b.paidAmount)) = [(100, 2500, 0)]
    ∧ pendingDb.payments = []
    ∧ (runPaymentOps pendingDb doublePaymentOps).payments.map
        (fun p => (p.id, p.bookingId, p.amount, p.status))
        = [(101, 100, 2500, "PAID"), (102, 100, 2500, "PAID")]
    ∧ paidTotal (runPaymentOps pendingDb doublePaymentOps) 100 = 5000
    ∧ (runPaymentOps pendingDb doublePaymentOps).bookings.map
        (fun b => (b.id, b.totalAmount, b.paidAmount)) = [(100, 2500, 5000)] := by
  decide

set_option maxRecDepth 100000 in
/-- Claim C26, failing input. `getMyBookings` runs the query with the `skip` and `take`
of `getPagination` and writes the metadata from the query parameters as given. With
`limit=500` and 150 bookings the query takes 100 rows, the metadata says 500, and
`hasNext` is false although 150 > 0 + 100. With `page=0` the query skips
nothing, and `(page - 1) * limit` is -10. With `limit=-5` the query returns one of
three rows and `hasNext` is false. -/
theorem getMyBookings_metadata_differs_from_query :
    ((getPagination 1 500).skip = 0 ∧ (getPagination 1 500).take = 100
      ∧ (getMyBookings manyBookingsDb 9 1 500 none).data.length = 100
      ∧ (getMyBookings manyBookingsDb 9 1 500 none).pagination
          = { total := 150, page := 1, limit := 500, totalPages := .finite 1,
              hasNext := false, hasPrev := false })
    ∧ ((getPagination 0 10).skip = 0 ∧ (getPagination 0 10).take = 10
      ∧ (getMyBookings threeBookingsDb 9 0 10 none).pagination.page = 0
      ∧ ((getMyBookings threeBookingsDb 9 0 10 none).pagination.page - 1)
          * (getMyBookings threeBookingsDb 9 0 10 none).pagination.limit = -10)
    ∧ ((getPagination 1 (-5)).skip = 0 ∧ (getPagination 1 (-5)).take = 1
      ∧ (getMyBookings threeBookingsDb 9 1 (-5) none).data.map (fun b => b.id) = [120]
      ∧ (getMyBookings threeBookingsDb 9 1 (-5) none).pagination
          = { total := 3, page := 1, limit := -5, totalPages := .finite 0,
              hasNext := false, hasPrev := false }) := by
  decide

/-- Claim C28, failing input. `getTrips` is called with `minPrice=1000` and
`maxPrice=2000`. The filter it builds holds `basePrice: { lte: 2000 }` only, the
lower bound being overwritten; a departure with `basePrice = 500` is included and
supplies `minPrice`, `currency` and `nextDeparture` of the trip. -/
theorem getTrips_lower_price_bound_overwritten :
    departuresWhere none (some 1000) (some 2000) 0
      = { status := "AVAILABLE", startDateGte := 0,
          basePrice := some { gte := none, lte := some 2000 } }
    ∧ includedDepartures listedDepartures 7 (departuresWhere none (some 1000) (some 2000) 0)
      = [{ tripId := 7, startDate := 5000, basePrice := 500, currency := "USD",
           status := "AVAILABLE" }]
    ∧ tripPrice listedDepartures 7 none (some 1000) (some 2000) 0
      = { minPrice := some 500, currency := "USD", nextDeparture := some 5000 } := by
  decide

/-- Claim C29, refuted for every state of the form. Whatever body `handleSubmit` sends,
the middleware `validate(createBookingSchema)` answers 400: with passengers, the
error list holds `passengers.0.gender` required, a key the form never sets; without
passengers it holds the minimum length of `passengers`. -/
theorem handleSubmit_payload_rejected (formats : Formats) (state : BookingPageState) (payload : CreateBookingJson)
    (h : handleSubmit state = some payload) :
    ∃ failure, validate formats payload = .error failure ∧ failure.statusCode = 400
      ∧ (state.passengers = [] →
          { field := "passengers", rule := "array.min" } ∈ failure.errors)
      ∧ (state.passengers ≠ [] →
          { field := "passengers.0.gender", rule := "any.required" } ∈ failure.errors) := by
  unfold handleSubmit at h
  split at h
  · exact absurd h (by simp)
  · injection h with h
    subst h
    have hmem : (state.passengers = [] →
          ({ field := "passengers", rule := "array.min" } : ValidationError) ∈
            createBookingSchema formats
              { departureId := some state.selectedDepartureId,
                passengers := some (state.passengers.map (fun p =>
                  { fullName := some p.fullName, gender := none, dateOfBirth := none,
                    passportNo := some p.passportNo, nationality := none, isChild := none })),
                addons := none, notes := none })
      ∧ (state.passengers ≠ [] →
          ({ field := "passengers.0.gender", rule := "any.required" } : ValidationError) ∈
            createBookingSchema formats
              { departureId := some state.selectedDepartureId,
                passengers := some (state.passengers.map (fun p =>
                  { fullName := some p.fullName, gender := none, dateOfBirth := none,
                    passportNo := some p.passportNo, nationality := none, isChild := none })),
                addons := none, notes := none }) := by
      constructor
      · intro hp
        simp [createBookingSchema, hp]
      · intro hp
        obtain ⟨p, ps, hps⟩ := List.exists_cons_of_ne_nil hp
        simp only [createBookingSchema, hps, List.map_cons, List.mem_append]
        refine Or.inl (Or.inl (Or.inr (Or.inr ?_)))
        apply mem_itemErrors_head
        simp only [passengerErrors, List.mem_append]
        refine Or.inl (Or.inl (Or.inl (Or.inr ?_)))
        simp [requiredOneOf]
        decide
    have hne : createBookingSchema formats
              { departureId := some state.selectedDepartureId,
                passengers := some (state.passengers.map (fun p =>
                  { fullName := some p.fullName, gender := none, dateOfBirth := none,
                    passportNo := some p.passportNo, nationality := none, isChild := none })),
                addons := none, notes := none } ≠ [] := by
      by_cases hp : state.passengers = []
      · exact List.ne_nil_of_mem (hmem.1 hp)
      · exact List.ne_nil_of_mem (hmem.2 hp)
    refine ⟨{ statusCode := 400, success := false, message := "Validation error",
              errors := createBookingSchema formats _ }, ?_, rfl, hmem⟩
    unfold validate
    simp only []
    rw [if_pos hne]

/-- Claim C29, failing input: a selected departure and one passenger with a name and a
passport number. Submission is reachable and the request is answered 400. -/
theorem handleSubmit_payload_rejected_witness :
    submissionReachable filledForm = true
    ∧ submitBooking sampleFormats filledForm
      = some (.error
          { statusCode := 400, success := false, message := "Validation error",
            errors := [{ field := "passengers.0.gender", rule := "any.required" }] })
    ∧ ∃ failure, validate sampleFormats
          { departureId := some "3f2b8c1e-5d4a-4b7e-9c1a-2e6f8a0b1c2d",
            passengers := some [{ fullName := some "Amina Ali", gender := none, dateOfBirth := none,
                                  passportNo := some "P1234567", nationality := none,
                                  isChild := none }],
            addons := none, notes := none } = .error failure ∧ failure.statusCode = 400
        ∧ (filledForm.passengers = [] →
            { field := "passengers", rule := "array.min" } ∈ failure.errors)
        ∧ (filledForm.passengers ≠ [] →
            { field := "passengers.0.gender", rule := "any.required" } ∈ failure.errors) :=
  ⟨by decide, by decide, handleSubmit_payload_rejected sampleFormats filledForm _ rfl⟩

/-! ## Auxiliary lemmas: double arithmetic -/

/-- A number below `2 ^ k` has at most `k` binary digits. -/
theorem bitLengthAux_le (fuel : Nat) : ∀ n k, n < 2 ^ k → bitLengthAux fuel n ≤ k := by
  induction fuel with
  | zero => intro n k _; simp [bitLengthAux]
  | succ fuel ih =>
    intro n k h
    unfold bitLengthAux
    split
    · omega
    · rename_i hn
      cases k with
      | zero => simp at h; omega
      | succ k =>
        have : n / 2 < 2 ^ k := by
          rw [Nat.pow_succ] at h
          omega
        have := ih (n / 2) k this
        omega

/-- The bound on the number of halvings is never reached: a number is below two to the
power of its number of binary digits. -/
theorem lt_two_pow_bitLengthAux (fuel : Nat) :
    ∀ n, n ≤ fuel → n < 2 ^ bitLengthAux fuel n := by
  induction fuel with
  | zero => intro n h; simp [bitLengthAux]; omega
  | succ fuel ih =>
    intro n h
    unfold bitLengthAux
    split
    · omega
    · rename_i hn
      have := ih (n / 2) (by omega)
      rw [Nat.pow_succ]
      omega

/-- A number is below two to the power of its number of binary digits. -/
theorem lt_two_pow_bitLength (n : Nat) : n < 2 ^ bitLength n :=
  lt_two_pow_bitLengthAux n n (Nat.le_refl n)

/-- A natural number below `2 ^ 53` is not changed by rounding. -/
theorem roundRatio_one (n : Nat) (h : n < 2 ^ 53) : roundRatio n 1 = n := by
  have hb : bitLength n ≤ 53 := bitLengthAux_le n n 53 h
  have hs : bitLength n - 53 = 0 := by omega
  unfold roundRatio
  simp only [Nat.div_one, hs, Nat.shiftLeft_zero, Nat.mod_one]
  simp

/-- An integer of magnitude below `2 ^ 53` is a double. -/
theorem roundInt_eq (n : Int) (h : n.natAbs < 2 ^ 53) : roundInt n = n := by
  unfold roundInt
  rw [roundRatio_one n.natAbs h]
  split <;> omega

/-- Rounding keeps an integer that is not negative from becoming negative. -/
theorem roundInt_nonneg (n : Int) (h : 0 ≤ n) : 0 ≤ roundInt n := by
  unfold roundInt
  rw [if_neg (by omega)]
  exact Int.natCast_nonneg _

/-- A whole number of units below `2 ^ 53` times `2 ^ 1074` is not changed by rounding:
whole numbers below `2 ^ 53` are doubles. -/
theorem roundRatio_scaled (k : Nat) (h : k < 2 ^ 53) :
    roundRatio (k * 2 ^ 1074) 1 = k * 2 ^ 1074 := by
  have hlt : k * 2 ^ 1074 < 2 ^ 1127 := by
    have : (2 : Nat) ^ 1127 = 2 ^ 53 * 2 ^ 1074 := by rw [← Nat.pow_add]
    rw [this]
    exact Nat.mul_lt_mul_of_pos_right h (Nat.two_pow_pos _)
  have hb : bitLength (k * 2 ^ 1074) ≤ 1127 := bitLengthAux_le _ _ 1127 hlt
  have hs : bitLength (k * 2 ^ 1074) - 53 ≤ 1074 := by omega
  have hdvd : 2 ^ (bitLength (k * 2 ^ 1074) - 53) ∣ k * 2 ^ 1074 :=
    Dvd.dvd.mul_left (Nat.pow_dvd_pow 2 hs) k
  unfold roundRatio
  simp only [Nat.div_one, Nat.shiftLeft_eq, Nat.one_mul]
  rw [Nat.mod_eq_zero_of_dvd hdvd]
  have hpos : 0 < 2 ^ (bitLength (k * 2 ^ 1074) - 53) := Nat.two_pow_pos _
  have hup : (decide (2 ^ (bitLength (k * 2 ^ 1074) - 53) < 2 * 0)
      || (decide (2 * 0 = 2 ^ (bitLength (k * 2 ^ 1074) - 53))
        && decide (k * 2 ^ 1074 / 2 ^ (bitLength (k * 2 ^ 1074) - 53) % 2 = 1))) = false := by
    simp only [Nat.mul_zero, Nat.not_lt_zero, decide_False, Bool.false_or,
      Bool.and_eq_false_imp, decide_eq_true_eq]
    intro h0
    omega
  rw [hup]
  simp only [Bool.false_eq_true, if_false]
  exact Nat.div_mul_cancel hdvd

/-- The double of a whole number of magnitude below `2 ^ 53` is that number. -/
theorem ofRatio_int (n : Int) (h : n.natAbs < 2 ^ 53) :
    JsDouble.ofRatio n 1 = { units := n * 2 ^ 1074 } := by
  have h1 : ((1 <<< 1074 : Nat) : Int) = 2 ^ 1074 := by
    rw [Nat.shiftLeft_eq, Nat.one_mul]
    push_cast
    rfl
  have habs : (n * (2 : Int) ^ 1074).natAbs = n.natAbs * 2 ^ 1074 := by
    rw [Int.natAbs_mul, Int.natAbs_pow]
    rfl
  unfold JsDouble.ofRatio JsDouble.ofUnits
  rw [h1, habs, roundRatio_scaled n.natAbs h]
  have hpos : (0 : Int) < 2 ^ 1074 := by positivity
  congr 1
  split
  · rename_i hneg
    have hn : n < 0 := by
      by_contra hcon
      have : 0 ≤ n * 2 ^ 1074 := mul_nonneg (by omega) hpos.le
      omega
    push_cast
    rw [abs_of_neg hn]
    ring
  · rename_i hneg
    have hn : 0 ≤ n := by
      by_contra hcon
      have : n * 2 ^ 1074 < 0 := mul_neg_of_neg_of_pos (by omega) hpos
      omega
    push_cast
    rw [abs_of_nonneg hn]

/-- Sums and differences of whole numbers are exact in doubles as long as the operands
and the result have magnitude below `2 ^ 53`, and comparisons are those of the
whole numbers: on such amounts the handlers in doubles compute what the handlers
of the integer store compute. -/
theorem doubles_exact_on_integers (a b : Int) (ha : a.natAbs < 2 ^ 53) (hb : b.natAbs < 2 ^ 53) :
    ((a + b).natAbs < 2 ^ 53 →
      JsDouble.ofRatio a 1 + JsDouble.ofRatio b 1 = JsDouble.ofRatio (a + b) 1)
    ∧ ((a - b).natAbs < 2 ^ 53 →
      JsDouble.ofRatio a 1 - JsDouble.ofRatio b 1 = JsDouble.ofRatio (a - b) 1)
    ∧ (JsDouble.ofRatio a 1 < JsDouble.ofRatio b 1 ↔ a < b)
    ∧ (JsDouble.ofRatio a 1 ≤ JsDouble.ofRatio b 1 ↔ a ≤ b) := by
  have hpos : (0 : Int) < 2 ^ 1074 := by positivity
  have key : ∀ n : Int, n.natAbs < 2 ^ 53 →
      JsDouble.ofUnits (n * 2 ^ 1074) 1 = { units := n * 2 ^ 1074 } := by
    intro n hn
    have := ofRatio_int n hn
    unfold JsDouble.ofRatio at this
    have h1 : ((1 <<< 1074 : Nat) : Int) = 2 ^ 1074 := by
      rw [Nat.shiftLeft_eq, Nat.one_mul]
      push_cast
      rfl
    rwa [h1] at this
  rw [ofRatio_int a ha, ofRatio_int b hb]
  refine ⟨?_, ?_, ?_, ?_⟩
  · intro hab
    rw [ofRatio_int (a + b) hab]
    show JsDouble.ofUnits (a * 2 ^ 1074 + b * 2 ^ 1074) 1 = _
    rw [← add_mul]
    exact key (a + b) hab
  · intro hab
    rw [ofRatio_int (a - b) hab]
    show JsDouble.ofUnits (a * 2 ^ 1074 - b * 2 ^ 1074) 1 = _
    rw [← sub_mul]
    exact key (a - b) hab
  · show a * 2 ^ 1074 < b * 2 ^ 1074 ↔ a < b
    exact mul_lt_mul_right hpos
  · show a * 2 ^ 1074 ≤ b * 2 ^ 1074 ↔ a ≤ b
    exact mul_le_mul_right hpos

/-! ## Auxiliary lemmas: payments in doubles -/

/-- The outcome of a non-CASH `createPayment`: an error that leaves the store as it is, or
the new row appended to the payments. -/
theorem doubles_createPayment_other (numberToString : JsDouble → String) (db : Doubles.Db)
    (userId : Nat) (userRole : String) (bookingId : Nat) (method : String) (amount : JsDouble)
    (reference : Option String) (now : Nat) (hm : method ≠ "CASH") :
    (∃ e, Doubles.createPayment numberToString db userId userRole bookingId method amount
        reference now = (.error e, db))
    ∨ Doubles.createPayment numberToString db userId userRole bookingId method amount
        reference now
      = (.ok (Doubles.createPaymentRow db bookingId method amount reference now).1,
         (Doubles.createPaymentRow db bookingId method amount reference now).2) := by
  unfold Doubles.createPayment
  cases hb : Doubles.findBooking db bookingId with
  | none => exact Or.inl ⟨_, rfl⟩
  | some b =>
    simp only []
    by_cases hauth : b.customerId ≠ userId ∧
        ¬ ["ADMIN", "SUPER_ADMIN", "AGENT", "FINANCE"].contains userRole
    · rw [if_pos hauth]; exact Or.inl ⟨_, rfl⟩
    · rw [if_neg hauth]
      by_cases ha : amount > b.totalAmount - b.paidAmount
      · rw [if_pos ha]; exact Or.inl ⟨_, rfl⟩
      · rw [if_neg ha]
        right
        simp [Doubles.createPaymentRow, hm]

/-- The outcome of `confirmPayment` on a payment that is not PAID and whose booking exists. -/
theorem doubles_confirmPayment_ok (db : Doubles.Db) (id now : Nat) (p : Doubles.Payment)
    (b : Doubles.Booking)
    (hp : Doubles.findPayment db id = some p) (hs : p.status ≠ "PAID")
    (hb : Doubles.findBooking db p.bookingId = some b) :
    Doubles.confirmPayment db id now =
      (.ok (some { p with status := "PAID", paidAt := some now }),
       { db with
         payments := db.payments.map (fun x => if x.id = id then
           { x with status := "PAID", paidAt := some now } else x),
         bookings := db.bookings.map (fun x => if x.id = p.bookingId then
           { x with paidAmount := b.paidAmount + p.amount,
                    status := if b.paidAmount + p.amount ≥ b.totalAmount ∧ b.status = "PENDING"
                              then "CONFIRMED" else x.status } else x) }) := by
  have hid : p.id = id := by simpa using List.find?_some hp
  have hp' : db.payments.find? (fun x => x.id = id) = some p := hp
  have hb' : db.bookings.find? (fun x => x.id = p.bookingId) = some b := hb
  have hfp := find_map_update (fun x : Doubles.Payment => x.id)
    (fun x => { x with status := "PAID", paidAt := some now }) id (fun _ => rfl) db.payments p hp'
  unfold Doubles.confirmPayment
  simp only [hp]
  rw [if_neg hs]
  simp only [hb, Doubles.transaction, Doubles.confirmPaymentTx, Doubles.updatePayment,
    Doubles.findPayment, hid, hp', Doubles.updateBooking, Doubles.findBooking, hb', hfp]

/-! ## Auxiliary lemmas: slugs -/

/-- A code unit of `[a-z0-9_-]` is not an upper-case letter, is not white space and is
kept by `removeNonWord`. -/
theorem isSlugChar_facts (c : Nat) (h : isSlugChar c = true) :
    ¬ (65 ≤ c ∧ c ≤ 90) ∧ isWhiteSpace c = false ∧ (isWordChar c || c == 45) = true := by
  simp only [isSlugChar, Bool.or_eq_true, Bool.and_eq_true, decide_eq_true_eq] at h
  refine ⟨by omega, ?_, ?_⟩
  · simp only [isWhiteSpace, Bool.or_eq_false_iff, Bool.and_eq_false_iff,
      decide_eq_false_iff_not]
    omega
  · simp only [isWordChar, beq_iff_eq, Bool.or_eq_true, Bool.and_eq_true, decide_eq_true_eq]
    omega

/-- A word character or hyphen that is not an upper-case letter is in `[a-z0-9_-]`. -/
theorem isSlugChar_of_kept (c : Nat) (hk : (isWordChar c || c == 45) = true)
    (hu : ¬ (65 ≤ c ∧ c ≤ 90)) : isSlugChar c = true := by
  simp only [isWordChar, beq_iff_eq, Bool.or_eq_true, Bool.and_eq_true, decide_eq_true_eq] at hk
  simp only [isSlugChar, Bool.or_eq_true, Bool.and_eq_true, decide_eq_true_eq]
  omega

/-- The code units left by `trim` are code units of its argument. -/
theorem mem_trim (cs : List Nat) (c : Nat) (h : c ∈ trim cs) : c ∈ cs := by
  unfold trim at h
  rw [List.mem_reverse] at h
  have h1 := (List.dropWhile_sublist isWhiteSpace).subset h
  rw [List.mem_reverse] at h1
  exact (List.dropWhile_sublist isWhiteSpace).subset h1

/-- The code units left by `replaceWhiteSpaceAux` are hyphens or code units of its
argument. -/
theorem mem_replaceWhiteSpaceAux (cs : List Nat) :
    ∀ (inRun : Bool) (c : Nat), c ∈ replaceWhiteSpaceAux inRun cs → c = 45 ∨ c ∈ cs := by
  induction cs with
  | nil => intro inRun c h; simp [replaceWhiteSpaceAux] at h
  | cons x xs ih =>
    intro inRun c h
    unfold replaceWhiteSpaceAux at h
    split at h
    · split at h
      · rcases ih _ c h with h' | h'
        · exact Or.inl h'
        · exact Or.inr (List.mem_cons_of_mem _ h')
      · rcases List.mem_cons.mp h with h' | h'
        · exact Or.inl h'
        · rcases ih _ c h' with h'' | h''
          · exact Or.inl h''
          · exact Or.inr (List.mem_cons_of_mem _ h'')
    · rcases List.mem_cons.mp h with h' | h'
      · exact Or.inr (h' ▸ List.mem_cons_self _ _)
      · rcases ih _ c h' with h'' | h''
        · exact Or.inl h''
        · exact Or.inr (List.mem_cons_of_mem _ h'')

/-- The result of `collapseHyphens` starts with the first code unit of its argument. -/
theorem collapseHyphens_cons (cs : List Nat) :
    ∀ c, ∃ t, collapseHyphens (c :: cs) = c :: t := by
  induction cs with
  | nil => intro c; exact ⟨[], rfl⟩
  | cons d ds ih =>
    intro c
    unfold collapseHyphens
    split
    · rename_i h
      obtain ⟨t, ht⟩ := ih d
      exact ⟨t, by rw [ht, h.1, h.2]⟩
    · exact ⟨_, rfl⟩

/-- The code units left by `collapseHyphens` are code units of its argument. -/
theorem mem_collapseHyphens (cs : List Nat) :
    ∀ c x, x ∈ collapseHyphens (c :: cs) → x ∈ c :: cs := by
  induction cs with
  | nil => intro c x h; simpa [collapseHyphens] using h
  | cons d ds ih =>
    intro c x h
    unfold collapseHyphens at h
    split at h
    · exact List.mem_cons_of_mem _ (ih d x h)
    · rcases List.mem_cons.mp h with h' | h'
      · exact h' ▸ List.mem_cons_self _ _
      · exact List.mem_cons_of_mem _ (ih d x h')

/-- The result of `collapseHyphens` has no two hyphens in a row. -/
theorem chain_collapseHyphens (cs : List Nat) :
    ∀ c, List.Chain' (fun a b => ¬ (a = 45 ∧ b = 45)) (collapseHyphens (c :: cs)) := by
  induction cs with
  | nil => intro c; simp [collapseHyphens]
  | cons d ds ih =>
    intro c
    unfold collapseHyphens
    split
    · exact ih d
    · rename_i h
      obtain ⟨t, ht⟩ := collapseHyphens_cons ds d
      have := ih d
      rw [ht] at this ⊢
      exact List.Chain'.cons h this

/-- A list without two hyphens in a row is left as it is by `collapseHyphens`. -/
theorem collapseHyphens_of_chain (cs : List Nat) :
    ∀ c, List.Chain' (fun a b => ¬ (a = 45 ∧ b = 45)) (c :: cs) →
      collapseHyphens (c :: cs) = c :: cs := by
  induction cs with
  | nil => intro c _; rfl
  | cons d ds ih =>
    intro c h
    rw [List.chain'_cons] at h
    unfold collapseHyphens
    rw [if_neg h.1, ih d h.2]

/-- A list without white space is left as it is by `replaceWhiteSpaceAux`. -/
theorem replaceWhiteSpaceAux_of_none (cs : List Nat) (h : ∀ c ∈ cs, isWhiteSpace c = false) :
    replaceWhiteSpaceAux false cs = cs := by
  induction cs with
  | nil => rfl
  | cons x xs ih =>
    unfold replaceWhiteSpaceAux
    rw [h x (List.mem_cons_self _ _)]
    simp only [Bool.false_eq_true, if_false]
    rw [ih (fun c hc => h c (List.mem_cons_of_mem _ hc))]

/-- A list without white space is left as it is by `dropWhile isWhiteSpace`. -/
theorem dropWhile_of_none (cs : List Nat) (h : ∀ c ∈ cs, isWhiteSpace c = false) :
    cs.dropWhile isWhiteSpace = cs := by
  cases cs with
  | nil => rfl
  | cons x xs => simp [List.dropWhile, h x (List.mem_cons_self _ _)]

/-- A list of code units of `[a-z0-9_-]` without two hyphens in a row is left as it is
by every step of `slugify` after the case mapping. -/
theorem slugify_steps_fixed (cs : List Nat) (hs : ∀ c ∈ cs, isSlugChar c = true)
    (hc : List.Chain' (fun a b => ¬ (a = 45 ∧ b = 45)) cs) :
    collapseHyphens (removeNonWord (replaceWhiteSpace (trim cs))) = cs := by
  have hws : ∀ c ∈ cs, isWhiteSpace c = false := fun c hcm => (isSlugChar_facts c (hs c hcm)).2.1
  have htrim : trim cs = cs := by
    unfold trim
    rw [dropWhile_of_none cs hws,
      dropWhile_of_none cs.reverse (fun c hcm => hws c (List.mem_reverse.mp hcm)),
      List.reverse_reverse]
  have hrep : replaceWhiteSpace cs = cs := replaceWhiteSpaceAux_of_none cs hws
  have hrem : removeNonWord cs = cs := by
    unfold removeNonWord
    rw [List.filter_eq_self]
    intro c hcm
    exact (isSlugChar_facts c (hs c hcm)).2.2
  rw [htrim, hrep, hrem]
  cases cs with
  | nil => rfl
  | cons c cs => exact collapseHyphens_of_chain cs c hc

/-- The code units of a slug are in `[a-z0-9_-]`, when the case mapping leaves no
upper-case ASCII letter. -/
theorem slugify_chars (toLowerCase : List Nat → List Nat)
    (hlower : ∀ s, ∀ c ∈ toLowerCase s, ¬ (65 ≤ c ∧ c ≤ 90))
    (text : List Nat) : ∀ c ∈ slugify toLowerCase text, isSlugChar c = true := by
  intro c hc
  simp only [slugify] at hc
  have h1 : c ∈ removeNonWord (replaceWhiteSpace (trim (toLowerCase text))) := by
    generalize removeNonWord (replaceWhiteSpace (trim (toLowerCase text))) = l at hc
    cases l with
    | nil => simp [collapseHyphens] at hc
    | cons x xs => exact mem_collapseHyphens xs x c hc
  unfold removeNonWord at h1
  rw [List.mem_filter] at h1
  obtain ⟨h2, hk⟩ := h1
  apply isSlugChar_of_kept c hk
  rcases mem_replaceWhiteSpaceAux _ false c h2 with h3 | h3
  · omega
  · exact hlower text c (mem_trim _ c h3)

/-- A slug has no two hyphens in a row. -/
theorem slugify_chain (toLowerCase : List Nat → List Nat) (text : List Nat) :
    List.Chain' (fun a b => ¬ (a = 45 ∧ b = 45)) (slugify toLowerCase text) := by
  simp only [slugify]
  generalize removeNonWord (replaceWhiteSpace (trim (toLowerCase text))) = l
  cases l with
  | nil => simp [collapseHyphens]
  | cons x xs => exact chain_collapseHyphens xs x

/-- The sample case mapping leaves no upper-case ASCII letter. -/
theorem sampleToLowerCase_not_upper (s : List Nat) :
    ∀ c ∈ sampleToLowerCase s, ¬ (65 ≤ c ∧ c ≤ 90) := by
  intro c hc
  simp only [sampleToLowerCase, List.mem_flatMap] at hc
  obtain ⟨x, -, hx⟩ := hc
  unfold lowerCaseUnit at hx
  split at hx
  · simp only [List.mem_cons, List.mem_singleton, List.not_mem_nil, or_false] at hx
    omega
  · split at hx
    · simp only [List.mem_singleton] at hx
      omega
    · split at hx
      · simp only [List.mem_singleton] at hx
        omega
      · simp only [List.mem_singleton] at hx
        omega

/-- The sample case mapping leaves a string over `[a-z0-9_-]` as it is. -/
theorem sampleToLowerCase_fixed (s : List Nat) (hs : ∀ c ∈ s, isSlugChar c = true) :
    sampleToLowerCase s = s := by
  unfold sampleToLowerCase
  induction s with
  | nil => rfl
  | cons x xs ih =>
    have hx := hs x (List.mem_cons_self _ _)
    simp only [isSlugChar, Bool.or_eq_true, Bool.and_eq_true, decide_eq_true_eq] at hx
    have hl : lowerCaseUnit x = [x] := by
      unfold lowerCaseUnit
      rw [if_neg (by omega), if_neg (by omega), if_neg (by omega)]
    rw [List.flatMap_cons, hl, ih (fun c hc => hs c (List.mem_cons_of_mem _ hc))]
    rfl

/-! ## The claims on amounts in doubles -/

set_option maxRecDepth 100000 in
/-- Claim C4, failing input. A departure priced 1200.10 without child price, three adult
passengers and no addon: the total that `createBooking` computes and stores is the
double 3600.2999999999997, below the double nearest to the sum 3600.30 of the
three prices. -/
theorem createBooking_totalAmount_rounded :
    Doubles.totalAmount Doubles.centsDeparture [] [adult, adult, adult] []
      = .ok (JsDouble.ofRatio 36002999999999997 (10 ^ 13))
    ∧ JsDouble.ofRatio 36002999999999997 (10 ^ 13) < JsDouble.ofRatio 360030 100
    ∧ (120010 + 120010 + 120010 : Int) = 360030 := by
  decide

/-- Claim C9. For every booking and every method other than CASH, a successful
`createPayment` stores a payment with status INITIATED and no `paidAt`, and
leaves the bookings table, hence `paidAmount` and status of the booking, as it
was. It is a later `confirmPayment` on that payment that writes `paidAmount`: the
sum, in doubles, of the previous value and the amount. -/
theorem createPayment_non_cash_leaves_booking (numberToString : JsDouble → String)
    (db : Doubles.Db) (userId : Nat) (userRole : String) (bookingId : Nat) (method : String)
    (amount : JsDouble) (reference : Option String) (now : Nat) (b : Doubles.Booking)
    (payment : Doubles.Payment)
    (hkeys : ∀ p ∈ db.payments, p.id < db.nextId)
    (hb : Doubles.findBooking db bookingId = some b) (hm : method ≠ "CASH")
    (hok : (Doubles.createPayment numberToString db userId userRole bookingId method amount
      reference now).1 = .ok payment) :
    payment.status = "INITIATED" ∧ payment.paidAt = none ∧ payment.amount = amount
    ∧ (Doubles.createPayment numberToString db userId userRole bookingId method amount
        reference now).2.payments = db.payments ++ [payment]
    ∧ (Doubles.createPayment numberToString db userId userRole bookingId method amount
        reference now).2.bookings = db.bookings
    ∧ Doubles.findBooking (Doubles.createPayment numberToString db userId userRole bookingId
        method amount reference now).2 bookingId = some b
    ∧ ∀ now2 : Nat,
        (Doubles.findBooking (Doubles.confirmPayment
            (Doubles.createPayment numberToString db userId userRole bookingId method amount
              reference now).2 payment.id now2).2 bookingId).map (fun x => x.paidAmount)
          = some (b.paidAmount + amount) := by
  rcases doubles_createPayment_other numberToString db userId userRole bookingId method amount
    reference now hm with ⟨e, he⟩ | hres
  · rw [he] at hok
    simp at hok
  rw [hres] at hok ⊢
  simp only [Except.ok.injEq] at hok
  subst hok
  have hfp : Doubles.findPayment (Doubles.createPaymentRow db bookingId method amount
      reference now).2 (Doubles.createPaymentRow db bookingId method amount reference now).1.id
      = some (Doubles.createPaymentRow db bookingId method amount reference now).1 := by
    simp only [Doubles.findPayment, Doubles.createPaymentRow]
    apply find_append_fresh
    · intro x hx
      have := hkeys x hx
      simp only [decide_eq_false_iff_not]
      omega
    · simp
  have hfb : Doubles.findBooking (Doubles.createPaymentRow db bookingId method amount
      reference now).2 bookingId = some b := hb
  refine ⟨by simp [Doubles.createPaymentRow, hm], by simp [Doubles.createPaymentRow, hm], rfl,
    rfl, rfl, hfb, ?_⟩
  intro now2
  have hst : (Doubles.createPaymentRow db bookingId method amount reference now).1.status
      ≠ "PAID" := by
    simp [Doubles.createPaymentRow, hm]
  have hfb2 : Doubles.findBooking (Doubles.createPaymentRow db bookingId method amount
      reference now).2
      (Doubles.createPaymentRow db bookingId method amount reference now).1.bookingId
      = some b := hb
  rw [doubles_confirmPayment_ok _ _ now2 _ b hfp hst hfb2]
  have hfb' : db.bookings.find? (fun x => x.id = bookingId) = some b := hb
  have := find_map_update (fun x : Doubles.Booking => x.id)
      (fun x => { x with paidAmount := b.paidAmount + amount,
                         status := if b.paidAmount + amount ≥ b.totalAmount ∧ b.status = "PENDING"
                                   then "CONFIRMED" else x.status })
      bookingId (fun _ => rfl) db.bookings b hfb'
  simp only [Doubles.findBooking, Doubles.createPaymentRow]
  rw [this]
  rfl

set_option maxRecDepth 100000 in
/-- Claim C9, witness: a card payment of 5 on the booking of 70.10 with 60 paid; its
confirmation brings `paidAmount` to 65. -/
theorem createPayment_non_cash_leaves_booking_witness :
    (Doubles.createPayment (fun _ => "") Doubles.partlyPaidDb 9 "CUSTOMER" 100 "CARD"
      (JsDouble.ofRatio 5 1) none 55).2.bookings = Doubles.partlyPaidDb.bookings
    ∧ ∀ now2 : Nat,
        (Doubles.findBooking (Doubles.confirmPayment
            (Doubles.createPayment (fun _ => "") Doubles.partlyPaidDb 9 "CUSTOMER" 100 "CARD"
              (JsDouble.ofRatio 5 1) none 55).2 101 now2).2 100).map (fun x => x.paidAmount)
          = some (JsDouble.ofRatio 60 1 + JsDouble.ofRatio 5 1) :=
  ⟨(createPayment_non_cash_leaves_booking (fun _ => "") Doubles.partlyPaidDb 9 "CUSTOMER" 100
      "CARD" (JsDouble.ofRatio 5 1) none 55
      { id := 100, customerId := 9, status := "PENDING",
        totalAmount := JsDouble.ofRatio 7010 100, paidAmount := JsDouble.ofRatio 60 1 }
      { id := 101, bookingId := 100, method := "CARD", amount := JsDouble.ofRatio 5 1,
        reference := none, status := "INITIATED", paidAt := none }
      (by decide) (by decide) (by decide) (by decide)).2.2.2.2.1,
   (createPayment_non_cash_leaves_booking (fun _ => "") Doubles.partlyPaidDb 9 "CUSTOMER" 100
      "CARD" (JsDouble.ofRatio 5 1) none 55
      { id := 100, customerId := 9, status := "PENDING",
        totalAmount := JsDouble.ofRatio 7010 100, paidAmount := JsDouble.ofRatio 60 1 }
      { id := 101, bookingId := 100, method := "CARD", amount := JsDouble.ofRatio 5 1,
        reference := none, status := "INITIATED", paidAt := none }
      (by decide) (by decide) (by decide) (by decide)).2.2.2.2.2.2⟩

set_option maxRecDepth 100000 in
/-- Claim C10, failing input. On a booking of 70.10 with 60 paid, the customer pays the
remaining 10.10. The difference computed in doubles is 10.099999999999994, below
the amount, and `createPayment` fails with status 400 and leaves the store as it
is, although the amount does not exceed `totalAmount - paidAmount`. -/
theorem createPayment_refuses_remaining_balance :
    JsDouble.ofRatio 7010 100 - JsDouble.ofRatio 60 1
      = JsDouble.ofRatio 10099999999999994 (10 ^ 15)
    ∧ JsDouble.ofRatio 10099999999999994 (10 ^ 15) < JsDouble.ofRatio 1010 100
    ∧ ¬ ((1010 : Int) > 7010 - 6000)
    ∧ ∀ numberToString : JsDouble → String,
        Doubles.createPayment numberToString Doubles.partlyPaidDb 9 "CUSTOMER" 100 "CARD"
          (JsDouble.ofRatio 1010 100) none 55
        = (.error (AppError ("Payment amount exceeds remaining balance of "
            ++ numberToString (JsDouble.ofRatio 7010 100 - JsDouble.ofRatio 60 1)) 400),
           Doubles.partlyPaidDb) := by
  refine ⟨by decide, by decide, by decide, ?_⟩
  intro numberToString
  have hb : Doubles.findBooking Doubles.partlyPaidDb 100
      = some { id := 100, customerId := 9, status := "PENDING",
               totalAmount := JsDouble.ofRatio 7010 100, paidAmount := JsDouble.ofRatio 60 1 } := by
    decide
  have ha : JsDouble.ofRatio 1010 100 > JsDouble.ofRatio 7010 100 - JsDouble.ofRatio 60 1 := by
    decide
  unfold Doubles.createPayment
  simp only [hb]
  rw [if_neg (by decide), if_pos ha]

set_option maxRecDepth 100000 in
/-- Claim C11, failing input. A PENDING booking of 1200.90 has 1200.80 paid and a card
payment of 0.10 waiting. `confirmPayment` marks the payment PAID, writes
`paidAmount = 1200.8999999999999`, the sum in doubles, and leaves the booking
PENDING, although the previous `paidAmount` plus the amount is `totalAmount`. -/
theorem confirmPayment_leaves_paid_booking_pending :
    (120080 + 10 : Int) = 120090
    ∧ JsDouble.ofRatio 120080 100 + JsDouble.ofRatio 10 100
      = JsDouble.ofRatio 12008999999999999 (10 ^ 13)
    ∧ JsDouble.ofRatio 12008999999999999 (10 ^ 13) < JsDouble.ofRatio 120090 100
    ∧ (Doubles.confirmPayment Doubles.lastPaymentDb 101 60).1
      = .ok (some { id := 101, bookingId := 100, method := "CARD",
                    amount := JsDouble.ofRatio 10 100, reference := none, status := "PAID",
                    paidAt := some 60 })
    ∧ (Doubles.confirmPayment Doubles.lastPaymentDb 101 60).2.bookings
      = [{ id := 100, customerId := 9, status := "PENDING",
           totalAmount := JsDouble.ofRatio 120090 100,
           paidAmount := JsDouble.ofRatio 12008999999999999 (10 ^ 13) }] := by
  decide

/-! ## The claims on pagination bounds and slugs -/

set_option maxRecDepth 100000 in
/-- Claim C27, counterexample. For `page = 2 ^ 53 - 1` and `limit = 3` the product
`(page - 1) * limit` is rounded to 27021597764222968, which is not a multiple of 3;
and the page 9007199254740993 is read as 9007199254740992. -/
theorem getPagination_rounds_large_page :
    (getPagination (2 ^ 53 - 1) 3).page = 2 ^ 53 - 1
    ∧ (getPagination (2 ^ 53 - 1) 3).take = 3
    ∧ (getPagination (2 ^ 53 - 1) 3).skip = 27021597764222968
    ∧ ((2 : Int) ^ 53 - 1 - 1) * 3 = 27021597764222970
    ∧ ¬ (getPagination (2 ^ 53 - 1) 3).take ∣ (getPagination (2 ^ 53 - 1) 3).skip
    ∧ (getPagination 9007199254740993 10).page = 9007199254740992 := by
  decide

/-- Claim C27, amended. For all integers `page` and `limit`, `getPagination` returns
`1 ≤ take ≤ 100`, `limit = take`, `1 ≤ page` and `0 ≤ skip`. When `page` and
`limit` have magnitude below `2 ^ 53` and `(max 1 page - 1) * min 100 (max 1 limit)`
is below `2 ^ 53`, it returns `page = max 1 page`, `take = min 100 (max 1 limit)`
and `skip = (page - 1) * limit` of the returned values, a multiple of `take`. -/
theorem getPagination_clamps_safe_integers (page limit : Int) :
    (1 ≤ (getPagination page limit).take ∧ (getPagination page limit).take ≤ 100
      ∧ (getPagination page limit).limit = (getPagination page limit).take
      ∧ 1 ≤ (getPagination page limit).page
      ∧ 0 ≤ (getPagination page limit).skip)
    ∧ (page.natAbs < 2 ^ 53 → limit.natAbs < 2 ^ 53 →
        (max 1 page - 1) * min 100 (max 1 limit) < 2 ^ 53 →
        (getPagination page limit).page = max 1 page
        ∧ (getPagination page limit).take = min 100 (max 1 limit)
        ∧ (getPagination page limit).skip
            = ((getPagination page limit).page - 1) * (getPagination page limit).limit
        ∧ (getPagination page limit).take ∣ (getPagination page limit).skip) := by
  have h1 : (1 : Int) ≤ max 1 (roundInt page) := le_max_left _ _
  have h2 : (1 : Int) ≤ min 100 (max 1 (roundInt limit)) :=
    le_min (by norm_num) (le_max_left _ _)
  have h3 : min 100 (max 1 (roundInt limit)) ≤ (100 : Int) := min_le_left _ _
  refine ⟨⟨h2, h3, rfl, h1, ?_⟩, ?_⟩
  · show 0 ≤ roundInt (roundInt (max 1 (roundInt page) - 1) * min 100 (max 1 (roundInt limit)))
    apply roundInt_nonneg
    exact mul_nonneg (roundInt_nonneg _ (by omega)) (by omega)
  · intro hp hl hprod
    have hpage : roundInt page = page := roundInt_eq page hp
    have hlimit : roundInt limit = limit := roundInt_eq limit hl
    have hq1 : (1 : Int) ≤ max 1 page := le_max_left _ _
    have hq2 : (1 : Int) ≤ min 100 (max 1 limit) := le_min (by norm_num) (le_max_left _ _)
    have hsub : (max 1 page - 1).natAbs < 2 ^ 53 := by
      have hle : max 1 page - 1 ≤ (max 1 page - 1) * min 100 (max 1 limit) :=
        le_mul_of_one_le_right (by omega) hq2
      omega
    have hmul : ((max 1 page - 1) * min 100 (max 1 limit)).natAbs < 2 ^ 53 := by
      have : 0 ≤ (max 1 page - 1) * min 100 (max 1 limit) := mul_nonneg (by omega) (by omega)
      omega
    have hskip : (getPagination page limit).skip
        = (max 1 page - 1) * min 100 (max 1 limit) := by
      show roundInt (roundInt (max 1 (roundInt page) - 1) * min 100 (max 1 (roundInt limit))) = _
      rw [hpage, hlimit, roundInt_eq _ hsub, roundInt_eq _ hmul]
    have hpg : (getPagination page limit).page = max 1 page := by
      show max 1 (roundInt page) = _
      rw [hpage]
    have htk : (getPagination page limit).take = min 100 (max 1 limit) := by
      show min 100 (max 1 (roundInt limit)) = _
      rw [hlimit]
    have hlm : (getPagination page limit).limit = min 100 (max 1 limit) := htk
    refine ⟨hpg, htk, ?_, ?_⟩
    · rw [hskip, hpg, hlm]
    · rw [hskip, htk]
      exact Dvd.intro_left _ rfl

/-- Claim C27, witness: page 3 with limit 500, and page 0 with limit 0. -/
theorem getPagination_clamps_safe_integers_witness :
    (getPagination 3 500 = { skip := 200, take := 100, page := 3, limit := 100 })
    ∧ (getPagination 3 500).take ∣ (getPagination 3 500).skip
    ∧ (getPagination 0 0 = { skip := 0, take := 1, page := 1, limit := 1 }) :=
  ⟨by decide,
   ((getPagination_clamps_safe_integers 3 500).2 (by decide) (by decide) (by decide)).2.2.2,
   by decide⟩

/-- Claim C30. Let `toLowerCase` be a case mapping that leaves no upper-case ASCII
letter in its result and leaves a string over `[a-z0-9_-]` as it is, as the
method of the runtime does. For every string `t`, `slugify (slugify t) = slugify t`;
every code unit of `slugify t` is in `[a-z0-9_-]`, none is white space, and `--`
does not occur in it. -/
theorem slugify_idempotent (toLowerCase : List Nat → List Nat)
    (hlower : ∀ s, ∀ c ∈ toLowerCase s, ¬ (65 ≤ c ∧ c ≤ 90))
    (hfixed : ∀ s, (∀ c ∈ s, isSlugChar c = true) → toLowerCase s = s)
    (t : List Nat) :
    slugify toLowerCase (slugify toLowerCase t) = slugify toLowerCase t
    ∧ (∀ c ∈ slugify toLowerCase t, isSlugChar c = true)
    ∧ (∀ c ∈ slugify toLowerCase t, isWhiteSpace c = false)
    ∧ ¬ [45, 45] <:+: slugify toLowerCase t := by
  have hchars := slugify_chars toLowerCase hlower t
  refine ⟨?_, hchars, fun c hc => (isSlugChar_facts c (hchars c hc)).2.1, ?_⟩
  · have := slugify_steps_fixed (slugify toLowerCase t) hchars (slugify_chain toLowerCase t)
    show collapseHyphens (removeNonWord (replaceWhiteSpace
      (trim (toLowerCase (slugify toLowerCase t))))) = slugify toLowerCase t
    rw [hfixed _ hchars, this]
  · rintro ⟨pre, post, h⟩
    have hc := slugify_chain toLowerCase t
    rw [← h] at hc
    have := hc.left_of_append.right_of_append
    simp at this

/-- Claim C30, witness: a title that starts with the capital dotted I (U+0130), whose
lower-case form is `i` followed by a combining dot, and its slug slugified again. -/
theorem slugify_idempotent_witness :
    slugify sampleToLowerCase (codeUnits "İstanbul  Tour -- 2025 (VIP)!")
      = codeUnits "istanbul-tour-2025-vip"
    ∧ slugify sampleToLowerCase (codeUnits "istanbul-tour-2025-vip")
      = codeUnits "istanbul-tour-2025-vip" :=
  ⟨by decide, by
    have := (slugify_idempotent sampleToLowerCase sampleToLowerCase_not_upper
      sampleToLowerCase_fixed (codeUnits "İstanbul  Tour -- 2025 (VIP)!")).1
    rwa [show slugify sampleToLowerCase (codeUnits "İstanbul  Tour -- 2025 (VIP)!")
      = codeUnits "istanbul-tour-2025-vip" by decide] at this⟩

end Tms
